import Mathlib

/-!
# Helpdesk front end (Chiza-J/proyecto): a shallow embedding

The repository is the browser side of a support-ticket application: a React
application (`App.js`) with four pages (`LoginPage.js`, `ClientDashboard.js`,
`TechnicianDashboard.js`, `TicketDetail.js`).  Each component is embedded as

* a record for its `useState` cells,
* one function per handler, taking the state before the call and the answers
  of the server to the requests the handler awaits, and returning the state
  after the handler has run to completion together with the list of effects
  (HTTP requests, toasts, navigations, console output) in the order in which
  the JavaScript performs them,
* a `render` function giving the part of the JSX tree that decides which
  controls (and therefore which handlers) the user can reach.

Request URLs are written relative to the constant `API` root
(`${BACKEND_URL}/api`), which every request of the source prepends.
-/

namespace Proyecto

/-! ## JavaScript helpers -/

/-- String conversion of a nullable string inside a template literal:
`${null}` is the text `null`. -/
def tmpl : Option String → String
  | some s => s
  | none => "null"

/-- Truthiness of a nullable string: `null`, `undefined` and the empty string
are falsy, every other string is truthy. -/
def truthy : Option String → Bool
  | some s => s != ""
  | none => false

/-- The JavaScript expression `a || b` for a nullable string `a` and a string
`b`. -/
def orElse (a : Option String) (b : String) : String :=
  match a with
  | some s => if s != "" then s else b
  | none => b

/-- The characters removed by `String.prototype.trim`: ECMAScript WhiteSpace
(TAB, VT, FF, SP, NBSP, ZWNBSP and the Unicode space separators) and
LineTerminator (LF, CR, LS, PS). -/
def isJsSpace (c : Char) : Bool :=
  let n := c.toNat
  n == 0x09 || n == 0x0A || n == 0x0B || n == 0x0C || n == 0x0D || n == 0x20 ||
  n == 0xA0 || n == 0x1680 || (0x2000 ≤ n && n ≤ 0x200A) || n == 0x2028 ||
  n == 0x2029 || n == 0x202F || n == 0x205F || n == 0x3000 || n == 0xFEFF

/-- The method `String.prototype.trim`: strip the leading and the trailing run
of `isJsSpace` characters. -/
def jsTrim (s : String) : String :=
  ⟨((s.data.dropWhile isJsSpace).reverse.dropWhile isJsSpace).reverse⟩

/-- An object spread with one computed key, `{ ...o, [k]: v }`: an existing
key keeps its position and takes the new value, a new key is added last. -/
def setKey {α : Type} (o : List (String × α)) (k : String) (v : α) : List (String × α) :=
  if o.any (fun p => p.1 == k) then o.map (fun p => if p.1 == k then (p.1, v) else p)
  else o ++ [(k, v)]

/-! ## HTTP vocabulary -/

/-- The HTTP methods used by the front end. -/
inductive Method
  | GET | POST | PUT
  deriving DecidableEq, Repr

/-- Values found in the objects the front end passes to axios as bodies; in a
record a value `none` is the JavaScript `undefined`. -/
inductive Val
  | null
  | str (s : String)
  | records (rs : List (List (String × Option String)))
  deriving DecidableEq, Repr

/-- A JSON object: its keys in insertion order with their values. -/
abbrev Obj := List (String × Val)

/-- One axios call: method, URL relative to the API root, body (`none` when the
call passes no body or `null`), query parameters, and the value of the
`Authorization` header (`none` when the call sets no such header). -/
structure Request where
  method : Method
  path : String
  body : Option Obj
  params : List (String × String)
  authorization : Option String
  deriving DecidableEq, Repr

/-- A rejected axios promise, reduced to what the handlers read from it:
`error.response?.data?.detail`. -/
structure ApiError where
  detail : Option String
  deriving DecidableEq, Repr

/-- The outcome of an awaited request: the response data or a rejection. -/
abbrev Resp (α : Type) := Except ApiError α

/-- What a handler does to the outside world. -/
inductive Effect
  | request (r : Request)
  | toastSuccess (msg : String)
  | toastError (msg : String)
  | navigate (target : String)
  | consoleError (label : String)
  | setHash (h : String)
  deriving DecidableEq, Repr

/-- The requests among a list of effects, in order. -/
def requestsOf : List Effect → List Request
  | [] => []
  | .request r :: fx => r :: requestsOf fx
  | _ :: fx => requestsOf fx

/-- The error toasts among a list of effects, in order. -/
def errorToastsOf : List Effect → List String
  | [] => []
  | .toastError m :: fx => m :: errorToastsOf fx
  | _ :: fx => errorToastsOf fx

/-- The header value built by the template literal in every authenticated
call of the source. -/
def bearer (token : Option String) : String := "Bearer " ++ tmpl token

/-! ## Data received from the server -/

/-- A user record as returned by the authentication endpoints and by
`GET /users/technicians`. -/
structure User where
  id : String
  email : String
  name : String
  role : String
  deriving DecidableEq, Repr

/-- A comment of a ticket. -/
structure Comment where
  id : String
  user_name : String
  comment : String
  created_at : String
  deriving DecidableEq, Repr

/-- A history entry of a ticket. -/
structure HistoryEntry where
  id : String
  action : String
  user_name : String
  timestamp : String
  deriving DecidableEq, Repr

/-- An attachment: file name and base64 payload. -/
structure Attachment where
  filename : String
  file_data : String
  deriving DecidableEq, Repr

/-- A ticket as returned by `GET /tickets/:id` and, without the three lists,
by the list endpoints. -/
structure Ticket where
  id : String
  title : String
  description : String
  status : String
  priority : String
  technician_id : Option String
  created_at : String
  attachments : List Attachment
  comments : List Comment
  history : List HistoryEntry
  deriving DecidableEq, Repr

/-- A category of the catalog. -/
structure Category where
  id : String
  name : String
  deriving DecidableEq, Repr

/-- An equipment of the catalog. -/
structure Equipment where
  id : String
  name : String
  type : String
  deriving DecidableEq, Repr

/-! ## TicketDetail.js -/

/-- The `useState` cells of `TicketDetail`. -/
structure TicketDetailState where
  ticket : Option Ticket
  technicians : List User
  newComment : String
  loading : Bool
  updating : Bool
  editMode : List (String × Bool)
  deriving DecidableEq, Repr

/-- The initial values of the `useState` cells of `TicketDetail`. -/
def TicketDetailState.init : TicketDetailState :=
  { ticket := none, technicians := [], newComment := "", loading := true,
    updating := false,
    editMode := [("status", false), ("priority", false), ("technician", false)] }

/-- The function `fetchTicket` of `TicketDetail.js` (lines 41-53). -/
def fetchTicket (token : Option String) (ticketId : String) (s : TicketDetailState)
    (r : Resp Ticket) : TicketDetailState × List Effect :=
  let req := Effect.request
    { method := .GET, path := "/tickets/" ++ ticketId, body := none, params := [],
      authorization := some (bearer token) }
  match r with
  | .ok t => ({ s with ticket := some t, loading := false }, [req])
  | .error _ =>
    ({ s with loading := false },
      [req, .toastError "Error al cargar ticket", .navigate "/dashboard"])

/-- The function `fetchTechnicians` of `TicketDetail.js` (lines 55-64). -/
def fetchTechnicians (token : Option String) (s : TicketDetailState)
    (r : Resp (List User)) : TicketDetailState × List Effect :=
  let req := Effect.request
    { method := .GET, path := "/users/technicians", body := none, params := [],
      authorization := some (bearer token) }
  match r with
  | .ok ts => ({ s with technicians := ts }, [req])
  | .error _ => (s, [req, .consoleError "Error loading technicians:"])

/-- The effect of `useEffect(..., [ticketId])` of `TicketDetail.js` (lines
34-39): `fetchTicket()`, then `fetchTechnicians()` unless the role is
`cliente`.  Both requests are sent before either answer arrives; what the
two calls do after their answer is listed in call order. -/
def ticketDetailMount (user : User) (token : Option String) (ticketId : String)
    (s : TicketDetailState) (rTicket : Resp Ticket) (rTechs : Resp (List User)) :
    TicketDetailState × List Effect :=
  let a := fetchTicket token ticketId s rTicket
  if user.role != "cliente" then
    let b := fetchTechnicians token a.1 rTechs
    (b.1, a.2.take 1 ++ b.2.take 1 ++ a.2.drop 1 ++ b.2.drop 1)
  else a

/-- The function `handleUpdateTicket` of `TicketDetail.js` (lines 66-81); `put`
answers the PUT and `refetch` the GET of the `fetchTicket()` call that
follows a successful PUT. -/
def handleUpdateTicket (token : Option String) (ticketId : String) (s : TicketDetailState)
    (field value : String) (put : Resp Unit) (refetch : Resp Ticket) :
    TicketDetailState × List Effect :=
  let req := Effect.request
    { method := .PUT, path := "/tickets/" ++ ticketId, body := some [(field, .str value)],
      params := [], authorization := some (bearer token) }
  match put with
  | .ok _ =>
    let a := fetchTicket token ticketId
      { s with editMode := setKey s.editMode field false, updating := false } refetch
    (a.1, [req, .toastSuccess "Ticket actualizado"] ++ a.2)
  | .error e =>
    ({ s with updating := false },
      [req, .toastError (orElse e.detail "Error al actualizar ticket")])

/-- The function `handleAddComment` of `TicketDetail.js` (lines 83-99); `post`
answers the POST and `refetch` the GET of the `fetchTicket()` call that
follows a successful POST. -/
def handleAddComment (token : Option String) (ticketId : String) (s : TicketDetailState)
    (post : Resp Unit) (refetch : Resp Ticket) : TicketDetailState × List Effect :=
  if jsTrim s.newComment == "" then (s, [])
  else
    let req := Effect.request
      { method := .POST, path := "/tickets/" ++ ticketId ++ "/comments",
        body := some [("comment", .str s.newComment)], params := [],
        authorization := some (bearer token) }
    match post with
    | .ok _ =>
      let a := fetchTicket token ticketId { s with newComment := "" } refetch
      (a.1, [req, .toastSuccess "Comentario agregado"] ++ a.2)
    | .error _ => (s, [req, .toastError "Error al agregar comentario"])

/-- The constant `isTechnician` of `TicketDetail.js` (line 142). -/
def isTechnician (user : User) : Bool :=
  user.role == "tecnico" || user.role == "admin"

/-- The card "Acciones de Técnico" (lines 318-386): the items of its three
selects and their `disabled` flag. -/
structure ActionsCard where
  statusItems : List String
  priorityItems : List String
  technicianItems : List String
  disabled : Bool
  deriving DecidableEq, Repr

/-- What `TicketDetail` returns: the loading screen, `null`, or the page,
which shows the ticket, the comment form and, for technicians, the actions
card. -/
inductive TicketDetailView
  | loadingScreen
  | null
  | page (ticket : Ticket) (commentDraft : String) (actions : Option ActionsCard)
  deriving DecidableEq, Repr

/-- The render of `TicketDetail` (lines 132-417). -/
def renderTicketDetail (user : User) (s : TicketDetailState) : TicketDetailView :=
  if s.loading then .loadingScreen
  else match s.ticket with
    | none => .null
    | some t =>
      .page t s.newComment
        (if isTechnician user then
          some { statusItems := ["abierto", "en_proceso", "cerrado"],
                 priorityItems := ["baja", "media", "alta"],
                 technicianItems := s.technicians.map (fun tech => tech.id),
                 disabled := s.updating }
        else none)

/-- The actions card of a view, if it shows one. -/
def TicketDetailView.actions : TicketDetailView → Option ActionsCard
  | .page _ _ a => a
  | _ => none

/-- The user events wired to handlers in the JSX of `TicketDetail`. -/
inductive TicketDetailEvent
  | back
  | changeComment (text : String)
  | submitComment
  | selectStatus (value : String)
  | selectPriority (value : String)
  | selectTechnician (value : String)
  deriving DecidableEq, Repr

/-- Whether a view contains the control that fires the event: the back button,
the comment form, or an item of an enabled select of the actions card. -/
def TicketDetailView.offers (v : TicketDetailView) : TicketDetailEvent → Bool
  | .back | .changeComment _ | .submitComment =>
    match v with
    | .page _ _ _ => true
    | _ => false
  | .selectStatus x =>
    match v.actions with
    | some c => !c.disabled && c.statusItems.contains x
    | none => false
  | .selectPriority x =>
    match v.actions with
    | some c => !c.disabled && c.priorityItems.contains x
    | none => false
  | .selectTechnician x =>
    match v.actions with
    | some c => !c.disabled && c.technicianItems.contains x
    | none => false

/-- The handler each event is wired to (lines 153, 245, 249, 333, 352, 371). -/
def ticketDetailDispatch (token : Option String) (ticketId : String) (s : TicketDetailState)
    (e : TicketDetailEvent) (r : Resp Unit) (refetch : Resp Ticket) :
    TicketDetailState × List Effect :=
  match e with
  | .back => (s, [.navigate "/dashboard"])
  | .changeComment text => ({ s with newComment := text }, [])
  | .submitComment => handleAddComment token ticketId s r refetch
  | .selectStatus x => handleUpdateTicket token ticketId s "status" x r refetch
  | .selectPriority x => handleUpdateTicket token ticketId s "priority" x r refetch
  | .selectTechnician x => handleUpdateTicket token ticketId s "technician_id" x r refetch

/-! ## App.js -/

/-- The `useState` cells of `App` together with the `token` entry of
`localStorage` (`none` when the entry does not exist). -/
structure AuthState where
  user : Option User
  token : Option String
  loading : Bool
  localStorage : Option String
  deriving DecidableEq, Repr

/-- The initial state of `App` (lines 19-21) for a given content of
`localStorage`. -/
def AuthState.init (stored : Option String) : AuthState :=
  { user := none, token := stored, loading := true, localStorage := stored }

/-- The data of a successful `POST /auth/login` or `POST /auth/register`. -/
structure AuthPayload where
  user : User
  token : String
  deriving DecidableEq, Repr

/-- The data of a successful `POST /auth/session`. -/
structure SessionPayload where
  user : User
  session_token : String
  deriving DecidableEq, Repr

/-- The function `handleGoogleCallback` of `App.js` (lines 36-50). -/
def handleGoogleCallback (s : AuthState) (sessionId : String) (r : Resp SessionPayload) :
    AuthState × List Effect :=
  let req := Effect.request
    { method := .POST, path := "/auth/session", body := none,
      params := [("session_id", sessionId)], authorization := none }
  match r with
  | .ok d =>
    ({ s with user := some d.user, token := some d.session_token,
              localStorage := some d.session_token, loading := false },
      [req, .setHash ""])
  | .error _ => ({ s with loading := false }, [req, .consoleError "Google auth failed:"])

/-- The function `checkAuth` of `App.js` (lines 52-72). -/
def checkAuth (s : AuthState) (r : Resp User) : AuthState × List Effect :=
  if truthy s.localStorage then
    let req := Effect.request
      { method := .GET, path := "/auth/me", body := none, params := [],
        authorization := some (bearer s.localStorage) }
    match r with
    | .ok u => ({ s with user := some u, token := s.localStorage, loading := false }, [req])
    | .error _ =>
      ({ s with localStorage := none, user := none, token := none, loading := false }, [req])
  else ({ s with loading := false }, [])

/-- The function `login` of `App.js` (lines 74-78). -/
def login (s : AuthState) (userData : User) (authToken : String) : AuthState :=
  { s with user := some userData, token := some authToken, localStorage := some authToken }

/-- The function `logout` of `App.js` (lines 80-91). -/
def logout (s : AuthState) (r : Resp Unit) : AuthState × List Effect :=
  let req := Effect.request
    { method := .POST, path := "/auth/logout", body := some [], params := [],
      authorization := some (bearer s.token) }
  ({ s with user := none, token := none, localStorage := none },
    match r with
    | .ok _ => [req]
    | .error _ => [req, .consoleError "Logout error:"])

/-- The paths of the `Routes` of `App.js` (lines 105-122). -/
inductive Route
  | login
  | dashboard
  | ticket (ticketId : String)
  | root
  deriving DecidableEq, Repr

/-- The elements a route can resolve to. -/
inductive Element
  | loginPage
  | clientDashboard
  | technicianDashboard
  | ticketDetail (ticketId : String)
  | navigate (target : String)
  deriving DecidableEq, Repr

/-- The `element` of each `Route` of `App.js` (lines 106-121). -/
def routeElement (user : Option User) : Route → Element
  | .login =>
    match user with
    | none => .loginPage
    | some _ => .navigate "/dashboard"
  | .dashboard =>
    match user with
    | some u => if u.role == "cliente" then .clientDashboard else .technicianDashboard
    | none => .navigate "/login"
  | .ticket ticketId =>
    match user with
    | some _ => .ticketDetail ticketId
    | none => .navigate "/login"
  | .root =>
    match user with
    | some _ => .navigate "/dashboard"
    | none => .navigate "/login"

/-! ## LoginPage.js -/

/-- The cell `loginData` of `LoginPage`. -/
structure LoginData where
  email : String
  password : String
  deriving DecidableEq, Repr

/-- The cell `registerData` of `LoginPage`. -/
structure RegisterData where
  email : String
  name : String
  password : String
  role : String
  phone : String
  deriving DecidableEq, Repr

/-- The `useState` cells of `LoginPage`. -/
structure LoginPageState where
  loginData : LoginData
  registerData : RegisterData
  loading : Bool
  deriving DecidableEq, Repr

/-- The initial values of the `useState` cells of `LoginPage` (lines 18-26). -/
def LoginPageState.init : LoginPageState :=
  { loginData := { email := "", password := "" },
    registerData := { email := "", name := "", password := "", role := "cliente", phone := "" },
    loading := false }

/-- The JSON body made of `loginData`. -/
def LoginData.toObj (d : LoginData) : Obj :=
  [("email", .str d.email), ("password", .str d.password)]

/-- The JSON body made of `registerData`. -/
def RegisterData.toObj (d : RegisterData) : Obj :=
  [("email", .str d.email), ("name", .str d.name), ("password", .str d.password),
   ("role", .str d.role), ("phone", .str d.phone)]

/-- The function `handleLogin` of `LoginPage.js` (lines 28-40). -/
def handleLogin (auth : AuthState) (p : LoginPageState) (r : Resp AuthPayload) :
    (AuthState × LoginPageState) × List Effect :=
  let req := Effect.request
    { method := .POST, path := "/auth/login", body := some p.loginData.toObj, params := [],
      authorization := none }
  match r with
  | .ok d =>
    ((login auth d.user d.token, { p with loading := false }),
      [req, .toastSuccess "¡Bienvenido!"])
  | .error e =>
    ((auth, { p with loading := false }),
      [req, .toastError (orElse e.detail "Error al iniciar sesión")])

/-- The function `handleRegister` of `LoginPage.js` (lines 42-54). -/
def handleRegister (auth : AuthState) (p : LoginPageState) (r : Resp AuthPayload) :
    (AuthState × LoginPageState) × List Effect :=
  let req := Effect.request
    { method := .POST, path := "/auth/register", body := some p.registerData.toObj,
      params := [], authorization := none }
  match r with
  | .ok d =>
    ((login auth d.user d.token, { p with loading := false }),
      [req, .toastSuccess "¡Cuenta creada exitosamente!"])
  | .error e =>
    ((auth, { p with loading := false }),
      [req, .toastError (orElse e.detail "Error al registrarse")])

/-! ## ClientDashboard.js -/

/-- An entry of `newTicket.attachments` as `handleFileUpload` builds it (line
64): `file_data` is `reader.result.split(',')[1]`, which is `undefined` (`none`)
when the result of the read holds no comma. -/
structure Upload where
  filename : String
  file_data : Option String
  deriving DecidableEq, Repr

/-- The cell `newTicket` of `ClientDashboard`. -/
structure NewTicket where
  title : String
  description : String
  category_id : String
  equipment_id : String
  attachments : List Upload
  deriving DecidableEq, Repr

/-- The empty form (lines 27-33 and 86). -/
def NewTicket.empty : NewTicket :=
  { title := "", description := "", category_id := "", equipment_id := "", attachments := [] }

/-- The object `newTicket` as passed to `axios.post`. -/
def NewTicket.toObj (t : NewTicket) : Obj :=
  [("title", .str t.title), ("description", .str t.description),
   ("category_id", .str t.category_id), ("equipment_id", .str t.equipment_id),
   ("attachments",
     .records (t.attachments.map
       (fun a => [("filename", some a.filename), ("file_data", a.file_data)])))]

/-- The `useState` cells of `ClientDashboard`. -/
structure ClientDashboardState where
  tickets : List Ticket
  categories : List Category
  equipments : List Equipment
  loading : Bool
  createDialogOpen : Bool
  newTicket : NewTicket
  deriving DecidableEq, Repr

/-- The initial values of the `useState` cells of `ClientDashboard`. -/
def ClientDashboardState.init : ClientDashboardState :=
  { tickets := [], categories := [], equipments := [], loading := true,
    createDialogOpen := false, newTicket := NewTicket.empty }

/-- The answers to the three parallel requests of `ClientDashboard.fetchData`. -/
structure ClientData where
  tickets : Resp (List Ticket)
  categories : Resp (List Category)
  equipments : Resp (List Equipment)

/-- The function `fetchData` of `ClientDashboard.js` (lines 39-54): the three
requests are sent at once; `Promise.all` rejects as soon as one of them does. -/
def clientFetchData (token : Option String) (s : ClientDashboardState) (d : ClientData) :
    ClientDashboardState × List Effect :=
  let reqs : List Effect :=
    [.request { method := .GET, path := "/tickets", body := none, params := [],
                authorization := some (bearer token) },
     .request { method := .GET, path := "/categories", body := none, params := [],
                authorization := none },
     .request { method := .GET, path := "/equipments", body := none, params := [],
                authorization := some (bearer token) }]
  match d.tickets, d.categories, d.equipments with
  | .ok ts, .ok cs, .ok es =>
    ({ s with tickets := ts, categories := cs, equipments := es, loading := false }, reqs)
  | _, _, _ => ({ s with loading := false }, reqs ++ [.toastError "Error al cargar datos"])

/-- The function `handleCreateTicket` of `ClientDashboard.js` (lines 78-91);
`post` answers the POST and `d` the requests of the `fetchData()` call that
follows a successful POST. -/
def handleCreateTicket (token : Option String) (s : ClientDashboardState) (post : Resp Unit)
    (d : ClientData) : ClientDashboardState × List Effect :=
  let req := Effect.request
    { method := .POST, path := "/tickets", body := some s.newTicket.toObj, params := [],
      authorization := some (bearer token) }
  match post with
  | .ok _ =>
    let a := clientFetchData token
      { s with createDialogOpen := false, newTicket := NewTicket.empty } d
    (a.1, [req, .toastSuccess "Ticket creado exitosamente"] ++ a.2)
  | .error e => (s, [req, .toastError (orElse e.detail "Error al crear ticket")])

/-! ## TechnicianDashboard.js -/

/-- The `useState` cells of `TechnicianDashboard`. -/
structure TechnicianDashboardState where
  allTickets : List Ticket
  assignedTickets : List Ticket
  resolvedTickets : List Ticket
  loading : Bool
  activeTab : String
  deriving DecidableEq, Repr

/-- The initial values of the `useState` cells of `TechnicianDashboard`. -/
def TechnicianDashboardState.init : TechnicianDashboardState :=
  { allTickets := [], assignedTickets := [], resolvedTickets := [], loading := true,
    activeTab := "all" }

/-- The answers to the three parallel requests of
`TechnicianDashboard.fetchData`. -/
structure TechnicianData where
  all : Resp (List Ticket)
  assigned : Resp (List Ticket)
  resolved : Resp (List Ticket)

/-- The function `fetchData` of `TechnicianDashboard.js` (lines 28-43). -/
def technicianFetchData (token : Option String) (s : TechnicianDashboardState)
    (d : TechnicianData) : TechnicianDashboardState × List Effect :=
  let reqs : List Effect :=
    [.request { method := .GET, path := "/tickets", body := none, params := [],
                authorization := some (bearer token) },
     .request { method := .GET, path := "/tickets/my-assigned", body := none, params := [],
                authorization := some (bearer token) },
     .request { method := .GET, path := "/tickets/my-resolved", body := none, params := [],
                authorization := some (bearer token) }]
  match d.all, d.assigned, d.resolved with
  | .ok a, .ok b, .ok c =>
    ({ s with allTickets := a, assignedTickets := b, resolvedTickets := c, loading := false },
      reqs)
  | _, _, _ => ({ s with loading := false }, reqs ++ [.toastError "Error al cargar datos"])

/-! ## The requests of the whole front end -/

/-- A call of one of the functions of the front end that send a request,
with the state it starts from and the answers it receives.  `checkAuth` is
called once, from the mount effect of `App`, so it starts from the initial
state. -/
inductive UiCall
  | handleGoogleCallback (s : AuthState) (sessionId : String) (r : Resp SessionPayload)
  | checkAuth (stored : Option String) (r : Resp User)
  | logout (s : AuthState) (r : Resp Unit)
  | handleLogin (auth : AuthState) (p : LoginPageState) (r : Resp AuthPayload)
  | handleRegister (auth : AuthState) (p : LoginPageState) (r : Resp AuthPayload)
  | clientFetchData (token : Option String) (s : ClientDashboardState) (d : ClientData)
  | handleCreateTicket (token : Option String) (s : ClientDashboardState) (post : Resp Unit)
      (d : ClientData)
  | technicianFetchData (token : Option String) (s : TechnicianDashboardState)
      (d : TechnicianData)
  | fetchTicket (token : Option String) (ticketId : String) (s : TicketDetailState)
      (r : Resp Ticket)
  | fetchTechnicians (token : Option String) (s : TicketDetailState) (r : Resp (List User))
  | handleUpdateTicket (token : Option String) (ticketId : String) (s : TicketDetailState)
      (field value : String) (put : Resp Unit) (refetch : Resp Ticket)
  | handleAddComment (token : Option String) (ticketId : String) (s : TicketDetailState)
      (post : Resp Unit) (refetch : Resp Ticket)

/-- The effects of a call. -/
def UiCall.effects : UiCall → List Effect
  | .handleGoogleCallback s sessionId r => (Proyecto.handleGoogleCallback s sessionId r).2
  | .checkAuth stored r => (Proyecto.checkAuth (AuthState.init stored) r).2
  | .logout s r => (Proyecto.logout s r).2
  | .handleLogin auth p r => (Proyecto.handleLogin auth p r).2
  | .handleRegister auth p r => (Proyecto.handleRegister auth p r).2
  | .clientFetchData token s d => (Proyecto.clientFetchData token s d).2
  | .handleCreateTicket token s post d => (Proyecto.handleCreateTicket token s post d).2
  | .technicianFetchData token s d => (Proyecto.technicianFetchData token s d).2
  | .fetchTicket token ticketId s r => (Proyecto.fetchTicket token ticketId s r).2
  | .fetchTechnicians token s r => (Proyecto.fetchTechnicians token s r).2
  | .handleUpdateTicket token ticketId s field value put refetch =>
    (Proyecto.handleUpdateTicket token ticketId s field value put refetch).2
  | .handleAddComment token ticketId s post refetch =>
    (Proyecto.handleAddComment token ticketId s post refetch).2

/-- The token of the auth context at the time of a call (the pages receive it
from `useAuth()`). -/
def UiCall.token : UiCall → Option String
  | .handleGoogleCallback s _ _ => s.token
  | .checkAuth stored _ => (AuthState.init stored).token
  | .logout s _ => s.token
  | .handleLogin auth _ _ => auth.token
  | .handleRegister auth _ _ => auth.token
  | .clientFetchData token _ _ => token
  | .handleCreateTicket token _ _ _ => token
  | .technicianFetchData token _ _ => token
  | .fetchTicket token _ _ _ => token
  | .fetchTechnicians token _ _ => token
  | .handleUpdateTicket token _ _ _ _ _ _ => token
  | .handleAddComment token _ _ _ _ => token

/-- The two entries of the Auth column of the interface table. -/
inductive Auth
  | pub
  | bearer
  deriving DecidableEq, Repr

/-- The interface table of the specification (section 6), read as a function
from method and path to the Auth column; `none` for an endpoint that is not in
the table.  A path parameter `{id}` stands for any text. -/
def interfaceTable (m : Method) (path : String) : Option Auth :=
  if (m, path) ∈ [(Method.POST, "/auth/register"), (.POST, "/auth/login"),
      (.POST, "/auth/session"), (.GET, "/categories")] then some .pub
  else if (m, path) ∈ [(Method.GET, "/auth/me"), (.POST, "/auth/logout"),
      (.GET, "/equipments"), (.GET, "/tickets"), (.GET, "/tickets/my-assigned"),
      (.GET, "/tickets/my-resolved"), (.POST, "/tickets"), (.GET, "/users/technicians")]
    then some .bearer
  else if (m = .GET ∨ m = .PUT) ∧ "/tickets/".data.isPrefixOf path.data then some .bearer
  else if m = .POST ∧ "/tickets/".data.isPrefixOf path.data
      ∧ "/comments".data.isSuffixOf path.data then some .bearer
  else none

/-- The three endpoints the interface table reserves for technicians. -/
def technicianOnly (q : Request) : Bool :=
  q.method == .GET &&
    (q.path == "/tickets/my-assigned" || q.path == "/tickets/my-resolved" ||
      q.path == "/users/technicians")

/-- The answers of the server to the requests a page sends when it mounts. -/
structure MountAnswers where
  client : ClientData
  technician : TechnicianData
  ticket : Resp Ticket
  technicians : Resp (List User)

/-- The effects of mounting the element a route resolves to for a signed-in
user (`useEffect` of `ClientDashboard.js` line 35, `TechnicianDashboard.js`
line 24, `TicketDetail.js` line 34); `LoginPage` and `Navigate` send
nothing. -/
def mountEffects (user : User) (token : Option String) (route : Route) (a : MountAnswers) :
    List Effect :=
  match routeElement (some user) route with
  | .loginPage => []
  | .navigate _ => []
  | .clientDashboard => (clientFetchData token ClientDashboardState.init a.client).2
  | .technicianDashboard =>
    (technicianFetchData token TechnicianDashboardState.init a.technician).2
  | .ticketDetail ticketId =>
    (ticketDetailMount user token ticketId TicketDetailState.init a.ticket a.technicians).2

/-- A draft that is empty or made of whitespace only. -/
def blank (draft : String) : Bool := draft.data.all isJsSpace

/-! ## Attachments: upload in ClientDashboard.js, display in TicketDetail.js -/

/-- The method `String.prototype.split` for a separator of one character, on
the characters of the string: the pieces between the separators, in order
(one piece, the whole text, when the separator does not occur). -/
def jsSplit (sep : Char) : List Char → List (List Char)
  | [] => [[]]
  | c :: cs =>
    if c = sep then [] :: jsSplit sep cs
    else
      match jsSplit sep cs with
      | [] => [[c]]
      | piece :: pieces => (c :: piece) :: pieces

/-- The expression `reader.result.split(',')[1]` of `handleFileUpload` (line
61): the second piece, `undefined` (`none`) when there is a single piece. -/
def dataUrlPayload (result : String) : Option String :=
  ((jsSplit ',' result.data)[1]?).map String.mk

/-- The callback `reader.onloadend` of `handleFileUpload` (lines 60-66) for the
file named `filename`, as the state update it passes to `setNewTicket`.  When
the read failed `reader.result` is `null`, `.split` throws and `setNewTicket`
is not reached. -/
def onloadend (filename : String) (result : Option String) (prev : NewTicket) : NewTicket :=
  match result with
  | none => prev
  | some r =>
    { prev with
      attachments := prev.attachments ++ [{ filename := filename, file_data := dataUrlPayload r }] }

/-- The function `removeAttachment` of `ClientDashboard.js` (lines 71-76), as
the state update it passes to `setNewTicket`. -/
def removeAttachment (index : Nat) (prev : NewTicket) : NewTicket :=
  { prev with
    attachments := (prev.attachments.enum.filter (fun p => p.1 != index)).map (fun p => p.2) }

/-- The `src` of the image `TicketDetail` renders for an attachment (line
202). -/
def attachmentSrc (att : Attachment) : String :=
  "data:image/jpeg;base64," ++ att.file_data

/-- The images of the block "Archivos Adjuntos" of `TicketDetail` (lines
192-213). -/
def attachmentImages (t : Ticket) : List String :=
  if t.attachments.length > 0 then t.attachments.map attachmentSrc else []

/-! ## The controls of ClientDashboard.js -/

/-- The user events wired to handlers in the JSX of `ClientDashboard`, and the
`onloadend` callback of a file reader started by `handleFileUpload`.  (The
logout button calls `logout` of `App`, which does not touch the state of the
page.) -/
inductive ClientEvent
  | openChange (isOpen : Bool)
  | changeTitle (text : String)
  | changeDescription (text : String)
  | selectCategory (value : String)
  | selectEquipment (value : String)
  | fileLoaded (filename : String) (result : Option String)
  | removeAttachment (index : Nat)
  | submit
  | openTicket (id : String)
  deriving DecidableEq, Repr

/-- Modelled from the spec: the components `Input`, `Textarea` and `Select` of
`@/components/ui`, to which `ClientDashboard.js` hands the attribute `required`
(lines 199, 211 and 220), are not among the sources, nor is the validation a
browser runs before it fires `onSubmit`.  Following the specification ("title
and description are required non-empty strings; category_id must reference an
existing Category"), a required control is satisfied by every value but the
empty string, and a form is submitted only when all its required controls are
satisfied. -/
def requiredFilled (value : String) : Bool := value != ""

/-- The values of the controls of the create form that carry `required`: the
title input (line 199), the description textarea (line 211) and the category
select (line 220).  The equipment select (line 234) does not carry it. -/
def NewTicket.requiredValues (t : NewTicket) : List String :=
  [t.title, t.description, t.category_id]

/-- Whether the rendered page contains the control that fires the event (lines
111-335).  While `loading` the page shows only "Cargando...".  The form lives
inside the dialog, so its controls exist only while the dialog is open; the
items of the two selects are the ids of the fetched categories and equipments.
The form fires `onSubmit` only when its three `required` controls are filled,
in the sense of `requiredFilled`; `handleCreateTicket` itself checks nothing. -/
def clientOffers (s : ClientDashboardState) : ClientEvent → Bool
  | .openChange _ => !s.loading
  | .changeTitle _ => !s.loading && s.createDialogOpen
  | .changeDescription _ => !s.loading && s.createDialogOpen
  | .selectCategory x =>
    !s.loading && s.createDialogOpen && (s.categories.map (fun c => c.id)).contains x
  | .selectEquipment x =>
    !s.loading && s.createDialogOpen && (s.equipments.map (fun e => e.id)).contains x
  | .fileLoaded _ _ => !s.loading
  | .removeAttachment i =>
    !s.loading && s.createDialogOpen && decide (i < s.newTicket.attachments.length)
  | .submit =>
    !s.loading && s.createDialogOpen && s.newTicket.requiredValues.all requiredFilled
  | .openTicket id => !s.loading && (s.tickets.map (fun t => t.id)).contains id

/-- The handler each event is wired to (lines 60, 196, 208, 218, 236, 268, 191,
302 and the `onOpenChange` of line 180). -/
def clientDispatch (token : Option String) (s : ClientDashboardState) (e : ClientEvent)
    (post : Resp Unit) (d : ClientData) : ClientDashboardState × List Effect :=
  match e with
  | .openChange b => ({ s with createDialogOpen := b }, [])
  | .changeTitle text => ({ s with newTicket := { s.newTicket with title := text } }, [])
  | .changeDescription text =>
    ({ s with newTicket := { s.newTicket with description := text } }, [])
  | .selectCategory x => ({ s with newTicket := { s.newTicket with category_id := x } }, [])
  | .selectEquipment x => ({ s with newTicket := { s.newTicket with equipment_id := x } }, [])
  | .fileLoaded filename result =>
    ({ s with newTicket := onloadend filename result s.newTicket }, [])
  | .removeAttachment i => ({ s with newTicket := removeAttachment i s.newTicket }, [])
  | .submit => handleCreateTicket token s post d
  | .openTicket id => (s, [.navigate ("/ticket/" ++ id)])

/-- One step of a session on the client dashboard: an event and the answers of
the server to the requests its handler sends. -/
structure ClientStep where
  event : ClientEvent
  post : Resp Unit
  data : ClientData

/-- The state after a sequence of steps from `s`, each event being one the
page offers at that moment; `none` when some event is not offered. -/
def clientRunFrom (token : Option String) (s : ClientDashboardState) :
    List ClientStep → Option ClientDashboardState
  | [] => some s
  | st :: rest =>
    if clientOffers s st.event then
      clientRunFrom token (clientDispatch token s st.event st.post st.data).1 rest
    else none

/-- The state of a client dashboard that was mounted (its `fetchData` being
answered by `d0`) and then went through a sequence of steps. -/
def clientRun (token : Option String) (d0 : ClientData) (steps : List ClientStep) :
    Option ClientDashboardState :=
  clientRunFrom token (clientFetchData token ClientDashboardState.init d0).1 steps

/-- An invariant of the client dashboard: the two ids of the form are empty or ids of the
fetched lists, and each fetched list is empty or the data of one of the
answers in `answers`. -/
def CatalogInv (answers : List ClientData) (s : ClientDashboardState) : Prop :=
  (s.newTicket.category_id = "" ∨ ∃ c ∈ s.categories, c.id = s.newTicket.category_id) ∧
  (s.newTicket.equipment_id = "" ∨ ∃ e ∈ s.equipments, e.id = s.newTicket.equipment_id) ∧
  (s.categories = [] ∨ ∃ d ∈ answers, d.categories = .ok s.categories) ∧
  (s.equipments = [] ∨ ∃ d ∈ answers, d.equipments = .ok s.equipments)

/-- The value of a key of an optional body. -/
def bodyField (body : Option Obj) (key : String) : Option Val :=
  match body with
  | some o => o.lookup key
  | none => none

/-! ## The controls of LoginPage.js -/

/-- The user events wired to handlers in the JSX of `LoginPage` (the Google
button leaves the application and is not among them). -/
inductive LoginEvent
  | changeLoginEmail (text : String)
  | changeLoginPassword (text : String)
  | changeName (text : String)
  | changeEmail (text : String)
  | changePhone (text : String)
  | selectRole (value : String)
  | changePassword (text : String)
  | submitLogin
  | submitRegister
  deriving DecidableEq, Repr

/-- Whether the page contains the control that fires the event (lines
110-244): the role select has the two items `cliente` and `tecnico`; a form is
submitted only when its `required` inputs are non-empty and its submit button
is not disabled by `loading`. -/
def loginOffers (p : LoginPageState) : LoginEvent → Bool
  | .selectRole x => ["cliente", "tecnico"].contains x
  | .submitLogin => !p.loading && p.loginData.email != "" && p.loginData.password != ""
  | .submitRegister =>
    !p.loading && p.registerData.name != "" && p.registerData.email != "" &&
      p.registerData.password != ""
  | _ => true

/-- The handler each event is wired to (lines 111, 120, 131, 174, 183, 195,
206, 213, 229). -/
def loginDispatch (auth : AuthState) (p : LoginPageState) (e : LoginEvent)
    (r : Resp AuthPayload) : (AuthState × LoginPageState) × List Effect :=
  match e with
  | .changeLoginEmail text =>
    ((auth, { p with loginData := { p.loginData with email := text } }), [])
  | .changeLoginPassword text =>
    ((auth, { p with loginData := { p.loginData with password := text } }), [])
  | .changeName text =>
    ((auth, { p with registerData := { p.registerData with name := text } }), [])
  | .changeEmail text =>
    ((auth, { p with registerData := { p.registerData with email := text } }), [])
  | .changePhone text =>
    ((auth, { p with registerData := { p.registerData with phone := text } }), [])
  | .selectRole x =>
    ((auth, { p with registerData := { p.registerData with role := x } }), [])
  | .changePassword text =>
    ((auth, { p with registerData := { p.registerData with password := text } }), [])
  | .submitLogin => handleLogin auth p r
  | .submitRegister => handleRegister auth p r

/-- One step of a session on the login page. -/
structure LoginStep where
  event : LoginEvent
  answer : Resp AuthPayload

/-- The states after a sequence of steps from `(auth, p)`, each event being one
the page offers at that moment; `none` when some event is not offered. -/
def loginRunFrom (auth : AuthState) (p : LoginPageState) :
    List LoginStep → Option (AuthState × LoginPageState)
  | [] => some (auth, p)
  | st :: rest =>
    if loginOffers p st.event then
      loginRunFrom (loginDispatch auth p st.event st.answer).1.1
        (loginDispatch auth p st.event st.answer).1.2 rest
    else none

/-- The states of a freshly mounted login page after a sequence of steps. -/
def loginRun (auth : AuthState) (steps : List LoginStep) :
    Option (AuthState × LoginPageState) :=
  loginRunFrom auth LoginPageState.init steps

/-! ## App.js: the session id in the URL fragment -/

/-- The method `String.prototype.includes` on the characters of the two
strings: whether `sep` occurs somewhere in the text. -/
def jsIncludes (sep : List Char) : List Char → Bool
  | [] => sep.isEmpty
  | c :: cs => sep.isPrefixOf (c :: cs) || jsIncludes sep cs

/-- The scan behind `String.prototype.split` for a separator of several
characters: `skip` is the number of characters of a separator just found that
are still to be passed over. -/
def jsSplitStrAux (sep : List Char) : Nat → List Char → List (List Char)
  | _, [] => [[]]
  | skip + 1, _ :: cs => jsSplitStrAux sep skip cs
  | 0, c :: cs =>
    if sep.isPrefixOf (c :: cs) then [] :: jsSplitStrAux sep (sep.length - 1) cs
    else
      match jsSplitStrAux sep 0 cs with
      | [] => [[c]]
      | piece :: pieces => (c :: piece) :: pieces

/-- The method `String.prototype.split` for a non-empty separator: the pieces
between the occurrences of the separator, found from left to right. -/
def jsSplitStr (sep : String) (s : String) : List (List Char) :=
  jsSplitStrAux sep.data 0 s.data

/-- The session id the effect of `App.js` lines 29-32 passes on:
`hash.split('session_id=')[1].split('&')[0]` when
`hash.includes('session_id=')`, nothing otherwise. -/
def sessionIdOfHash (hash : String) : Option String :=
  if jsIncludes "session_id=".data hash.data then
    match (jsSplitStr "session_id=" hash)[1]? with
    | some piece => ((jsSplit '&' piece)[0]?).map String.mk
    | none => none
  else none

/-- The effect "Handle Google OAuth callback" of `App.js` (lines 27-34) for
the hash of the current URL. -/
def oauthMountEffect (s : AuthState) (hash : String) (r : Resp SessionPayload) :
    AuthState × List Effect :=
  match sessionIdOfHash hash with
  | some sessionId => handleGoogleCallback s sessionId r
  | none => (s, [])

/-- The text that follows the first occurrence of `sep`; `none` when `sep`
does not occur. -/
def textAfterFirst (sep : List Char) : List Char → Option (List Char)
  | [] => none
  | c :: cs =>
    if sep.isPrefixOf (c :: cs) then some ((c :: cs).drop sep.length)
    else textAfterFirst sep cs

/-- The text that precedes the first occurrence of `sep`; the whole text when
`sep` does not occur. -/
def textBeforeFirst (sep : List Char) : List Char → List Char
  | [] => []
  | c :: cs => if sep.isPrefixOf (c :: cs) then [] else c :: textBeforeFirst sep cs

/-- The text up to, and not including, the first `&`. -/
def upToAmpersand (l : List Char) : List Char := l.takeWhile (fun c => c != '&')

/-! ## App.js: auth operations that overlap -/

/-- The part of `checkAuth` before its `await` (lines 53-62): it reads
`storedToken` from `localStorage` and, when that is truthy, sends the request;
the second component is the `storedToken` the pending call holds on to. -/
def checkAuthCall (s : AuthState) : AuthState × Option String × List Effect :=
  if truthy s.localStorage then
    (s, s.localStorage,
      [.request { method := .GET, path := "/auth/me", body := none, params := [],
                  authorization := some (bearer s.localStorage) }])
  else ({ s with loading := false }, none, [])

/-- The part of `checkAuth` after its `await` (lines 63-71), run when the
answer arrives, with the `storedToken` read before the `await`. -/
def checkAuthAnswer (storedToken : String) (s : AuthState) (r : Resp User) : AuthState :=
  match r with
  | .ok u => { s with user := some u, token := some storedToken, loading := false }
  | .error _ => { s with localStorage := none, user := none, token := none, loading := false }

/-- The state of `App` together with the `checkAuth` calls that have sent
their request and await the answer: for each of them the `storedToken` it read
before its `await`. -/
structure AuthSession where
  state : AuthState
  pending : List String
  deriving DecidableEq, Repr

/-- What happens to the auth state, one event at a time: a call of
`checkAuth`, the arrival of the answer to the pending call number `k`, a
`login`, and the completion of `handleGoogleCallback` or of `logout` (these
two write only values of the answer or constants after their `await`, so their
whole effect on the state takes place when the answer arrives). -/
inductive AuthStep
  | checkAuthCall
  | checkAuthAnswer (k : Nat) (r : Resp User)
  | login (userData : User) (authToken : String)
  | handleGoogleCallback (sessionId : String) (r : Resp SessionPayload)
  | logout (r : Resp Unit)

/-- The session after one step. -/
def AuthSession.step (a : AuthSession) : AuthStep → AuthSession
  | .checkAuthCall =>
    { state := (Proyecto.checkAuthCall a.state).1,
      pending := a.pending ++ (Proyecto.checkAuthCall a.state).2.1.toList }
  | .checkAuthAnswer k r =>
    match a.pending.get? k with
    | some storedToken =>
      { state := Proyecto.checkAuthAnswer storedToken a.state r,
        pending := a.pending.eraseIdx k }
    | none => a
  | .login userData authToken =>
    { a with state := Proyecto.login a.state userData authToken }
  | .handleGoogleCallback sessionId r =>
    { a with state := (Proyecto.handleGoogleCallback a.state sessionId r).1 }
  | .logout r => { a with state := (Proyecto.logout a.state r).1 }

/-- The session after a sequence of steps from the initial state of `App` for
a given content of `localStorage`. -/
def authSessionRun (stored : Option String) (steps : List AuthStep) : AuthSession :=
  steps.foldl AuthSession.step { state := AuthState.init stored, pending := [] }

/-- Whether, in the run of `steps` from `a`, no step changes the `token` entry
of `localStorage` while a `checkAuth` call awaits its answer: a step either
leaves the entry as it was or leaves no call pending. -/
def storageQuiet : AuthSession → List AuthStep → Bool
  | _, [] => true
  | a, st :: rest =>
    ((a.step st).state.localStorage == a.state.localStorage || (a.step st).pending.isEmpty)
      && storageQuiet (a.step st) rest

/-- An auth operation run from its call to its completion with nothing in
between. -/
inductive AuthOp
  | checkAuth (r : Resp User)
  | login (userData : User) (authToken : String)
  | handleGoogleCallback (sessionId : String) (r : Resp SessionPayload)
  | logout (r : Resp Unit)

/-- The steps of an operation that runs alone: `checkAuth` is its call followed
at once by its answer. -/
def AuthOp.steps : AuthOp → List AuthStep
  | .checkAuth r => [.checkAuthCall, .checkAuthAnswer 0 r]
  | .login userData authToken => [.login userData authToken]
  | .handleGoogleCallback sessionId r => [.handleGoogleCallback sessionId r]
  | .logout r => [.logout r]

/-- The steps of a sequence of operations each of which has run to completion
before the next one starts. -/
def sequentialSteps : List AuthOp → List AuthStep
  | [] => []
  | op :: rest => op.steps ++ sequentialSteps rest

/-! ## Dashboards: statistics and the order of the tab "Todos" -/

/-- The four numbers of the stats cards of `ClientDashboard.js` (lines
150-175): total, "Abiertos", "En Proceso", "Cerrados". -/
structure ClientStats where
  total : Nat
  abiertos : Nat
  enProceso : Nat
  cerrados : Nat
  deriving DecidableEq, Repr

/-- The stats cards of `ClientDashboard.js` (lines 150-175). -/
def clientStats (tickets : List Ticket) : ClientStats :=
  { total := tickets.length,
    abiertos := (tickets.filter (fun t => t.status == "abierto")).length,
    enProceso := (tickets.filter (fun t => t.status == "en_proceso")).length,
    cerrados := (tickets.filter (fun t => t.status == "cerrado")).length }

/-- The object `priorityOrder` of `TechnicianDashboard.js` (line 197) read at a
key, as a number: its own keys give 0, 1, 2; any other key gives `undefined` or
an inherited member, which the subtraction turns into `NaN` (`none`). -/
def priorityOrder (priority : String) : Option Int :=
  if priority = "alta" then some 0
  else if priority = "media" then some 1
  else if priority = "baja" then some 2
  else none

/-- The comparator of `TechnicianDashboard.js` (lines 196-199); `sort` reads a
`NaN` result as `+0`. -/
def comparePriority (a b : Ticket) : Int :=
  match priorityOrder a.priority, priorityOrder b.priority with
  | some x, some y => x - y
  | _, _ => 0

/-- Insertion of `a` into a sorted list, after the elements that must come
before it and before every element it does not have to follow. -/
def jsSortInsert {α : Type} (cmp : α → α → Int) (a : α) : List α → List α
  | [] => [a]
  | b :: l => if cmp a b ≤ 0 then a :: b :: l else b :: jsSortInsert cmp a l

/-- The method `Array.prototype.sort` with a comparator: a stable sort
(ECMAScript 2019), here by insertion from the right. -/
def jsSort {α : Type} (cmp : α → α → Int) : List α → List α
  | [] => []
  | a :: l => jsSortInsert cmp a (jsSort cmp l)

/-- The tickets of the tab "Todos" of `TechnicianDashboard.js` (lines
195-200), in the order of display. -/
def todosTab (allTickets : List Ticket) : List Ticket :=
  jsSort comparePriority allTickets

/-! ## TicketDetail.js: elapsed time -/

/-- The time value of a `Date` object (`TimeClip`): a whole number of
milliseconds of absolute value at most 8.64e15, otherwise `NaN` (`none`, an
invalid date). -/
def timeClip (t : Int) : Option Int :=
  if t.natAbs ≤ 8640000000000000 then some t else none

/-- The double nearest to an integer of absolute value below 2^54, by
round-to-nearest with ties to even: up to 2^53 every integer is a double;
above it the doubles are the even integers, and an odd integer, half way
between two of them, goes to the one that is a multiple of 4. -/
def roundToDouble (n : Int) : Int :=
  if n.natAbs ≤ 2 ^ 53 then n
  else
    let half := n.natAbs / 2
    let kept : Nat :=
      if n.natAbs % 2 = 0 then half else if half % 2 = 0 then half else half + 1
    if n < 0 then -((2 * kept : Nat) : Int) else ((2 * kept : Nat) : Int)

/-- The function `getTimeElapsed` of `TicketDetail.js` (lines 119-130) on the
time values of the two dates: `now` for `new Date()`, `created` for
`new Date(date)`.  The subtraction of line 122 is a subtraction of doubles:
its result is the double nearest to the difference.  For the differences of
two time values (at most 1.728e16 in absolute value) the quotients of lines
123-124, floored, are the integer quotients of that double: up to 2^53 a
quotient by 3600000 that is not whole is at least 1/3600000 away from a whole
number and below 2^32, where doubles lie 2^-21 apart; above 2^53 the
difference is even, the quotient at least 2/3600000 away and below 2^33, where
doubles lie 2^-20 apart; so rounding the quotient never reaches the next whole
number, and the whole hours over 24 are at least 1/24 away.  With an invalid
date every number is `NaN`, both comparisons fail and the text is
`NaN horas`. -/
def getTimeElapsed (now created : Int) : String :=
  match timeClip now, timeClip created with
  | some n, some c =>
    let diffMs := roundToDouble (n - c)
    let diffHours := diffMs / (1000 * 60 * 60)
    let diffDays := diffHours / 24
    if diffDays > 0 then
      toString diffDays ++ " día" ++ (if diffDays > 1 then "s" else "")
    else
      toString diffHours ++ " hora" ++ (if diffHours ≠ 1 then "s" else "")
  | _, _ => "NaN horas"

/-- The text C25 describes: with `h` the floor of the elapsed milliseconds
over 3600000 and `n` the floor of `h` over 24, `n` and ` día` (with `s` when
`n > 1`) when `n > 0`, otherwise `h` and ` hora` (with `s` when `h ≠ 1`). -/
def elapsedText (now created : Int) : String :=
  let h := (now - created) / 3600000
  let n := h / 24
  if n > 0 then toString n ++ " día" ++ (if n > 1 then "s" else "")
  else toString h ++ " hora" ++ (if h ≠ 1 then "s" else "")

/-! ## Colours of priorities and statuses -/

/-- The function `getPriorityColor` of `ClientDashboard.js` (lines 93-100);
`none` is `undefined`. -/
def clientGetPriorityColor (priority : Option String) : String :=
  match priority with
  | some "baja" => "bg-green-500"
  | some "media" => "bg-yellow-500"
  | some "alta" => "bg-red-500"
  | _ => "bg-gray-500"

/-- The function `getPriorityColor` of `TechnicianDashboard.js` (lines
45-52). -/
def technicianGetPriorityColor (priority : Option String) : String :=
  match priority with
  | some "baja" => "bg-green-500"
  | some "media" => "bg-yellow-500"
  | some "alta" => "bg-red-500"
  | _ => "bg-gray-500"

/-- The function `getPriorityColor` of `TicketDetail.js` (lines 101-108). -/
def detailGetPriorityColor (priority : Option String) : String :=
  match priority with
  | some "baja" => "bg-green-500"
  | some "media" => "bg-yellow-500"
  | some "alta" => "bg-red-500"
  | _ => "bg-gray-500"

/-- The legend of `LoginPage.js` (lines 80-93): the class of the dot and the
label under it. -/
def priorityLegend : List (String × String) :=
  [("bg-green-500", "Baja"), ("bg-yellow-500", "Media"), ("bg-red-500", "Alta")]

/-- What a property read on an object literal with string values can give: one
of its strings, or a member inherited from `Object.prototype`. -/
inductive Looked
  | str (s : String)
  | inherited (name : String)
  deriving DecidableEq, Repr

/-- The names of the members of `Object.prototype`, which every object
literal inherits; each of them is a function or an object, hence truthy. -/
def objectPrototypeKeys : List String :=
  ["constructor", "toString", "toLocaleString", "valueOf", "hasOwnProperty",
   "isPrototypeOf", "propertyIsEnumerable", "__proto__", "__defineGetter__",
   "__defineSetter__", "__lookupGetter__", "__lookupSetter__"]

/-- The expression `colors[status] || fallback` for an object literal `colors`
with non-empty string values: an own key gives its value, the name of an
inherited member gives that member, any other key gives `undefined` and so
the fallback. -/
def lookupOr (colors : List (String × String)) (status : String) (fallback : String) :
    Looked :=
  match colors.lookup status with
  | some v => .str v
  | none => if objectPrototypeKeys.contains status then .inherited status else .str fallback

/-- The function `getStatusBadge` of `ClientDashboard.js` (lines 102-109). -/
def clientGetStatusBadge (status : String) : Looked :=
  lookupOr [("abierto", "bg-blue-100 text-blue-800"),
            ("en_proceso", "bg-amber-100 text-amber-800"),
            ("cerrado", "bg-green-100 text-green-800")] status "bg-gray-100 text-gray-800"

/-- The function `getStatusBadge` of `TechnicianDashboard.js` (lines 54-61). -/
def technicianGetStatusBadge (status : String) : Looked :=
  lookupOr [("abierto", "bg-blue-100 text-blue-800"),
            ("en_proceso", "bg-amber-100 text-amber-800"),
            ("cerrado", "bg-green-100 text-green-800")] status "bg-gray-100 text-gray-800"

/-- The function `getStatusBadge` of `TicketDetail.js` (lines 110-117). -/
def detailGetStatusBadge (status : String) : Looked :=
  lookupOr [("abierto", "bg-blue-100 text-blue-800"),
            ("en_proceso", "bg-amber-100 text-amber-800"),
            ("cerrado", "bg-green-100 text-green-800")] status "bg-gray-100 text-gray-800"

/-! ## Sample data -/

/-- A technician account. -/
def sampleTechnician : User :=
  { id := "u2", email := "tec@x.com", name := "Tec", role := "tecnico" }

/-- A client account. -/
def sampleClient : User :=
  { id := "u1", email := "ana@x.com", name := "Ana", role := "cliente" }

/-- An account whose role is none of `cliente`, `tecnico`, `admin`. -/
def sampleSupervisor : User :=
  { id := "u3", email := "sup@x.com", name := "Sup", role := "supervisor" }

/-- An open ticket. -/
def sampleTicket : Ticket :=
  { id := "t1", title := "Printer jam", description := "No imprime", status := "abierto",
    priority := "media", technician_id := none, created_at := "2024-01-01T00:00:00",
    attachments := [], comments := [], history := [] }

/-- The state of `TicketDetail` once the ticket and the technicians have
arrived. -/
def sampleLoaded : TicketDetailState :=
  { TicketDetailState.init with
    ticket := some sampleTicket, technicians := [sampleTechnician], loading := false }

/-- A rejection that carries a message of the server. -/
def sampleRejection : ApiError := { detail := some "Ticket no encontrado" }

/-- Answers in which every request of a mounting page is rejected. -/
def sampleAnswers : MountAnswers :=
  { client := { tickets := .error sampleRejection, categories := .error sampleRejection,
                equipments := .error sampleRejection },
    technician := { all := .error sampleRejection, assigned := .error sampleRejection,
                    resolved := .error sampleRejection },
    ticket := .error sampleRejection,
    technicians := .error sampleRejection }

/-- The state of `TicketDetail` showing a closed ticket. -/
def sampleClosed : TicketDetailState :=
  { TicketDetailState.init with
    ticket := some { sampleTicket with status := "cerrado" },
    technicians := [sampleTechnician], loading := false }

/-- A catalog with one category and one equipment, and no ticket yet. -/
def sampleCatalog : ClientData :=
  { tickets := .ok [],
    categories := .ok [{ id := "c1", name := "Hardware" }],
    equipments := .ok [{ id := "e1", name := "Impresora", type := "printer" }] }

/-- The client opens the dialog, types a title and a description and picks the
category; no equipment is picked. -/
def sampleSteps : List ClientStep :=
  [{ event := .openChange true, post := .ok (), data := sampleCatalog },
   { event := .changeTitle "Printer jam", post := .ok (), data := sampleCatalog },
   { event := .changeDescription "No imprime", post := .ok (), data := sampleCatalog },
   { event := .selectCategory "c1", post := .ok (), data := sampleCatalog }]

/-- The state of the client dashboard after `sampleSteps`. -/
def sampleFilled : ClientDashboardState :=
  { tickets := [],
    categories := [{ id := "c1", name := "Hardware" }],
    equipments := [{ id := "e1", name := "Impresora", type := "printer" }],
    loading := false, createDialogOpen := true,
    newTicket := { title := "Printer jam", description := "No imprime", category_id := "c1",
                   equipment_id := "", attachments := [] } }

/-- A visitor fills the register form and picks the role `tecnico`. -/
def sampleRegistration : List LoginStep :=
  [{ event := .changeName "Tec", answer := .error sampleRejection },
   { event := .changeEmail "tec@x.com", answer := .error sampleRejection },
   { event := .selectRole "tecnico", answer := .error sampleRejection },
   { event := .changePassword "secreto", answer := .error sampleRejection }]

/-- The state of the login page after `sampleRegistration`. -/
def sampleRegisterPage : LoginPageState :=
  { LoginPageState.init with
    registerData := { email := "tec@x.com", name := "Tec", password := "secreto",
                      role := "tecnico", phone := "" } }

/-- A form with three attachments. -/
def sampleUploads : NewTicket :=
  { NewTicket.empty with
    attachments := [{ filename := "a.png", file_data := some "AAAA" },
                    { filename := "b.png", file_data := some "BBBB" },
                    { filename := "c.png", file_data := some "CCCC" }] }

/-- Answers in which the tickets and the equipments arrive and the categories
request is rejected. -/
def sampleHalfData : ClientData :=
  { tickets := .ok [sampleTicket],
    categories := .error sampleRejection,
    equipments := .ok [] }

/-- Four tickets as the server lists them: `baja`, `alta`, `media`, `alta`. -/
def sampleQueue : List Ticket :=
  [{ sampleTicket with id := "1", priority := "baja" },
   { sampleTicket with id := "2", priority := "alta" },
   { sampleTicket with id := "3", priority := "media" },
   { sampleTicket with id := "4", priority := "alta" }]

/-- A stored token is checked and accepted, the user logs out, and a Google
exchange signs a user in; no two of these overlap. -/
def sampleAuthSteps : List AuthStep :=
  [.checkAuthCall, .checkAuthAnswer 0 (.ok sampleClient), .logout (.ok ()),
   .handleGoogleCallback "sid" (.ok { user := sampleTechnician, session_token := "S1" })]

/-! ## General lemmas -/

theorem requestsOf_append (a b : List Effect) :
    requestsOf (a ++ b) = requestsOf a ++ requestsOf b := by
  induction a with
  | nil => rfl
  | cons e a ih => cases e <;> simp [requestsOf, ih]

theorem requestsOf_fetchTicket (token : Option String) (ticketId : String)
    (s : TicketDetailState) (r : Resp Ticket) :
    requestsOf (fetchTicket token ticketId s r).2 =
      [{ method := .GET, path := "/tickets/" ++ ticketId, body := none, params := [],
         authorization := some (bearer token) }] := by
  cases r <;> simp [fetchTicket, requestsOf]

theorem requestsOf_handleUpdateTicket (token : Option String) (ticketId : String)
    (s : TicketDetailState) (field value : String) (put : Resp Unit) (refetch : Resp Ticket) :
    requestsOf (handleUpdateTicket token ticketId s field value put refetch).2 =
      { method := .PUT, path := "/tickets/" ++ ticketId, body := some [(field, .str value)],
        params := [], authorization := some (bearer token) } ::
      (match put with
        | .ok _ => [{ method := .GET, path := "/tickets/" ++ ticketId, body := none,
                      params := [], authorization := some (bearer token) }]
        | .error _ => []) := by
  cases put with
  | error e => simp [handleUpdateTicket, requestsOf]
  | ok u =>
    have h := requestsOf_fetchTicket token ticketId
      { s with editMode := setKey s.editMode field false, updating := false } refetch
    simp [handleUpdateTicket, requestsOf, h]

theorem requestsOf_handleAddComment (token : Option String) (ticketId : String)
    (s : TicketDetailState) (post : Resp Unit) (refetch : Resp Ticket) :
    requestsOf (handleAddComment token ticketId s post refetch).2 =
      if jsTrim s.newComment == "" then []
      else
        { method := .POST, path := "/tickets/" ++ ticketId ++ "/comments",
          body := some [("comment", .str s.newComment)], params := [],
          authorization := some (bearer token) } ::
        (match post with
          | .ok _ => [{ method := .GET, path := "/tickets/" ++ ticketId, body := none,
                        params := [], authorization := some (bearer token) }]
          | .error _ => []) := by
  unfold handleAddComment
  split
  · rfl
  · cases post with
    | error e => simp [requestsOf]
    | ok u =>
      have h := requestsOf_fetchTicket token ticketId { s with newComment := "" } refetch
      simp [requestsOf, h]

theorem requestsOf_clientFetchData (token : Option String) (s : ClientDashboardState)
    (d : ClientData) :
    requestsOf (clientFetchData token s d).2 =
      [{ method := .GET, path := "/tickets", body := none, params := [],
         authorization := some (bearer token) },
       { method := .GET, path := "/categories", body := none, params := [],
         authorization := none },
       { method := .GET, path := "/equipments", body := none, params := [],
         authorization := some (bearer token) }] := by
  unfold clientFetchData
  split <;> simp [requestsOf]

theorem requestsOf_technicianFetchData (token : Option String) (s : TechnicianDashboardState)
    (d : TechnicianData) :
    requestsOf (technicianFetchData token s d).2 =
      [{ method := .GET, path := "/tickets", body := none, params := [],
         authorization := some (bearer token) },
       { method := .GET, path := "/tickets/my-assigned", body := none, params := [],
         authorization := some (bearer token) },
       { method := .GET, path := "/tickets/my-resolved", body := none, params := [],
         authorization := some (bearer token) }] := by
  unfold technicianFetchData
  split <;> simp [requestsOf]

theorem requestsOf_handleCreateTicket (token : Option String) (s : ClientDashboardState)
    (post : Resp Unit) (d : ClientData) :
    requestsOf (handleCreateTicket token s post d).2 =
      { method := .POST, path := "/tickets", body := some s.newTicket.toObj, params := [],
        authorization := some (bearer token) } ::
      (match post with
        | .ok _ =>
          [{ method := .GET, path := "/tickets", body := none, params := [],
             authorization := some (bearer token) },
           { method := .GET, path := "/categories", body := none, params := [],
             authorization := none },
           { method := .GET, path := "/equipments", body := none, params := [],
             authorization := some (bearer token) }]
        | .error _ => []) := by
  cases post with
  | error e => simp [handleCreateTicket, requestsOf]
  | ok u =>
    have h := requestsOf_clientFetchData token
      { s with createDialogOpen := false, newTicket := NewTicket.empty } d
    simp [handleCreateTicket, requestsOf, h]

theorem requestsOf_ticketDetailMount (user : User) (token : Option String) (ticketId : String)
    (s : TicketDetailState) (rTicket : Resp Ticket) (rTechs : Resp (List User)) :
    requestsOf (ticketDetailMount user token ticketId s rTicket rTechs).2 =
      { method := .GET, path := "/tickets/" ++ ticketId, body := none, params := [],
        authorization := some (bearer token) } ::
      (if user.role != "cliente" then
        [{ method := .GET, path := "/users/technicians", body := none, params := [],
           authorization := some (bearer token) }]
      else []) := by
  unfold ticketDetailMount
  split
  · cases rTicket <;> cases rTechs <;> simp [fetchTicket, fetchTechnicians, requestsOf]
  · cases rTicket <;> simp [fetchTicket, requestsOf]

/-! ## C1: the actions card -/

/-- C1: for a loaded ticket, `TicketDetail` renders the technician actions card
exactly when the role of the user is `tecnico` or `admin`; the three selects of
that card are the only events whose handler sends a PUT, so an event the page
offers sends a PUT only for these two roles, and a page rendered for a
`cliente` offers no event that sends one. -/
theorem actions_card_iff_technician (user : User) (token : Option String) (ticketId : String)
    (s : TicketDetailState) (t : Ticket) (hl : s.loading = false) (ht : s.ticket = some t) :
    ((renderTicketDetail user s).actions.isSome = true ↔
        (user.role = "tecnico" ∨ user.role = "admin")) ∧
    (∀ e r refetch,
      (∃ q ∈ requestsOf (ticketDetailDispatch token ticketId s e r refetch).2,
          q.method = Method.PUT) ↔
        ∃ x, e = .selectStatus x ∨ e = .selectPriority x ∨ e = .selectTechnician x) ∧
    (∀ e r refetch, (renderTicketDetail user s).offers e = true →
      (∃ q ∈ requestsOf (ticketDetailDispatch token ticketId s e r refetch).2,
          q.method = Method.PUT) →
        (user.role = "tecnico" ∨ user.role = "admin")) ∧
    (user.role = "cliente" → ∀ e r refetch, (renderTicketDetail user s).offers e = true →
      ∀ q ∈ requestsOf (ticketDetailDispatch token ticketId s e r refetch).2,
        q.method ≠ Method.PUT) := by
  have hcard : (renderTicketDetail user s).actions.isSome = true ↔
      (user.role = "tecnico" ∨ user.role = "admin") := by
    simp only [renderTicketDetail, hl, ht, isTechnician]
    by_cases h1 : user.role = "tecnico" <;> by_cases h2 : user.role = "admin" <;>
      simp [TicketDetailView.actions, h1, h2]
  have hput : ∀ e r refetch,
      (∃ q ∈ requestsOf (ticketDetailDispatch token ticketId s e r refetch).2,
          q.method = Method.PUT) ↔
        ∃ x, e = .selectStatus x ∨ e = .selectPriority x ∨ e = .selectTechnician x := by
    intro e r refetch
    cases e with
    | back => simp [ticketDetailDispatch, requestsOf]
    | changeComment text => simp [ticketDetailDispatch, requestsOf]
    | submitComment =>
      simp only [ticketDetailDispatch, requestsOf_handleAddComment]
      split <;> cases r <;> simp
    | selectStatus x => simp [ticketDetailDispatch, requestsOf_handleUpdateTicket]
    | selectPriority x => simp [ticketDetailDispatch, requestsOf_handleUpdateTicket]
    | selectTechnician x => simp [ticketDetailDispatch, requestsOf_handleUpdateTicket]
  have hoff : ∀ e r refetch, (renderTicketDetail user s).offers e = true →
      (∃ q ∈ requestsOf (ticketDetailDispatch token ticketId s e r refetch).2,
          q.method = Method.PUT) →
        (user.role = "tecnico" ∨ user.role = "admin") := by
    intro e r refetch hoffer hq
    obtain ⟨x, hx⟩ := (hput e r refetch).1 hq
    apply hcard.1
    cases h : (renderTicketDetail user s).actions with
    | some c => rfl
    | none =>
      rcases hx with hx | hx | hx <;> subst hx <;>
        simp [TicketDetailView.offers, h] at hoffer
  refine ⟨hcard, hput, hoff, ?_⟩
  intro hc e r refetch hoffer q hq hm
  have := hoff e r refetch hoffer ⟨q, hq, hm⟩
  rw [hc] at this
  revert this
  decide

/-- A technician looking at a loaded ticket: the instance of C1. -/
theorem actions_card_iff_technician_witness :
    (sampleLoaded.loading = false ∧ sampleLoaded.ticket = some sampleTicket) ∧
    ((renderTicketDetail sampleTechnician sampleLoaded).actions.isSome = true ↔
      (sampleTechnician.role = "tecnico" ∨ sampleTechnician.role = "admin")) :=
  ⟨⟨rfl, rfl⟩,
    (actions_card_iff_technician sampleTechnician (some "tok") "t1" sampleLoaded sampleTicket
      rfl rfl).1⟩

/-! ## C2: blank comments -/

theorem dropWhile_reverse_dropWhile_eq_nil (p : Char → Bool) (l : List Char) :
    (l.dropWhile p).reverse.dropWhile p = [] ↔ ∀ c ∈ l, p c = true := by
  rw [List.dropWhile_eq_nil_iff]
  constructor
  · intro h
    have hnil : l.dropWhile p = [] := by
      cases hd : l.dropWhile p with
      | nil => rfl
      | cons a rest =>
        have ha : p a = true := h a (by simp [hd])
        have hna := List.head_dropWhile_not p l (by simp [hd])
        simp [hd, ha] at hna
    exact List.dropWhile_eq_nil_iff.1 hnil
  · intro h
    have hnil : l.dropWhile p = [] := List.dropWhile_eq_nil_iff.2 h
    simp [hnil]

theorem jsTrim_eq_empty_iff (draft : String) :
    (jsTrim draft == "") = blank draft := by
  have h := dropWhile_reverse_dropWhile_eq_nil isJsSpace draft.data
  rw [Bool.eq_iff_iff]
  simp only [beq_iff_eq, blank, List.all_eq_true, jsTrim]
  rw [← h]
  constructor
  · intro h1
    have h2 := congrArg String.data h1
    simpa using h2
  · intro h1
    simp [h1]

/-- C2: when the draft is blank (empty or made of whitespace only)
`handleAddComment` returns the state it was given and performs no effect at
all (no POST, no refetch); otherwise the POST requests it sends are exactly
one, to `/tickets/:id/comments`, with the body `comment: draft`. -/
theorem handleAddComment_blank_or_one_post (token : Option String) (ticketId : String)
    (s : TicketDetailState) (post : Resp Unit) (refetch : Resp Ticket) :
    if blank s.newComment = true then
      handleAddComment token ticketId s post refetch = (s, [])
    else
      (requestsOf (handleAddComment token ticketId s post refetch).2).filter
          (fun q => q.method == Method.POST) =
        [{ method := .POST, path := "/tickets/" ++ ticketId ++ "/comments",
           body := some [("comment", .str s.newComment)], params := [],
           authorization := some (bearer token) }] := by
  split
  · next h =>
    unfold handleAddComment
    rw [jsTrim_eq_empty_iff, h]
    rfl
  · next h =>
    rw [requestsOf_handleAddComment, jsTrim_eq_empty_iff]
    simp only [h]
    cases post <;> simp

/-! ## C5: a failed initial fetch -/

/-- C5: when the `GET /tickets/:id` of a freshly mounted ticket page is
rejected, whatever the rejection and whatever the answer to the technicians
request, the ticket state is still `null`, `loading` is false, the component
renders `null`, the error toast is shown and the page navigates to
`/dashboard`. -/
theorem failed_initial_fetch_renders_nothing (user : User) (token : Option String)
    (ticketId : String) (e : ApiError) (rTechs : Resp (List User)) :
    (ticketDetailMount user token ticketId TicketDetailState.init (.error e) rTechs).1.ticket
        = none ∧
    (ticketDetailMount user token ticketId TicketDetailState.init (.error e) rTechs).1.loading
        = false ∧
    renderTicketDetail user
        (ticketDetailMount user token ticketId TicketDetailState.init (.error e) rTechs).1
        = TicketDetailView.null ∧
    Effect.toastError "Error al cargar ticket" ∈
      (ticketDetailMount user token ticketId TicketDetailState.init (.error e) rTechs).2 ∧
    Effect.navigate "/dashboard" ∈
      (ticketDetailMount user token ticketId TicketDetailState.init (.error e) rTechs).2 := by
  unfold ticketDetailMount
  split
  · cases rTechs <;>
      simp [fetchTicket, fetchTechnicians, renderTicketDetail, TicketDetailState.init]
  · simp [fetchTicket, renderTicketDetail, TicketDetailState.init]

/-! ## C6: login and registration -/

/-- C6: after `handleLogin` or `handleRegister` has handled a successful
response, the auth context holds the user and the token of the response and
the `token` entry of `localStorage` is that token; after a rejected request
the auth context and `localStorage` are what they were. -/
theorem login_register_store_session (auth : AuthState) (p : LoginPageState) :
    (∀ d : AuthPayload,
      (handleLogin auth p (.ok d)).1.1.user = some d.user ∧
      (handleLogin auth p (.ok d)).1.1.token = some d.token ∧
      (handleLogin auth p (.ok d)).1.1.localStorage = some d.token ∧
      (handleRegister auth p (.ok d)).1.1.user = some d.user ∧
      (handleRegister auth p (.ok d)).1.1.token = some d.token ∧
      (handleRegister auth p (.ok d)).1.1.localStorage = some d.token) ∧
    (∀ e : ApiError,
      (handleLogin auth p (.error e)).1.1 = auth ∧
      (handleRegister auth p (.error e)).1.1 = auth) := by
  constructor
  · intro d
    simp [handleLogin, handleRegister, login]
  · intro e
    simp [handleLogin, handleRegister]

/-! ## C7: logout -/

/-- C7: `logout` ends in the same state whether `POST /auth/logout` is accepted
or rejected and shows no error to the user; from every starting state it ends
with `user = null`, `token = null` and no `token` entry in `localStorage`, and
a second `logout` leaves that state as it is. -/
theorem logout_clears_and_is_idempotent (s : AuthState) (r1 r2 : Resp Unit) :
    (logout s r1).1.user = none ∧
    (logout s r1).1.token = none ∧
    (logout s r1).1.localStorage = none ∧
    (logout s r1).1 = (logout s r2).1 ∧
    errorToastsOf (logout s r1).2 = [] ∧
    (logout (logout s r1).1 r2).1 = (logout s r1).1 ∧
    errorToastsOf (logout (logout s r1).1 r2).2 = [] := by
  refine ⟨rfl, rfl, rfl, rfl, ?_, rfl, ?_⟩
  · cases r1 <;> rfl
  · cases r2 <;> rfl

/-! ## C8: checkAuth -/

/-- C8: `checkAuth` with no stored token (no entry, or the empty string, which
JavaScript treats alike) sends nothing and changes nothing but `loading`, so
`user` stays `null` from the initial state; with a stored token whose
`GET /auth/me` succeeds it sends that one request, sets `user` to the response
and `token` to the stored token; with a stored token whose request is rejected
it removes the entry from `localStorage` and sets `user` and `token` to
`null`.  In every case `loading` ends false. -/
theorem checkAuth_resolves_stored_token (s : AuthState) (r : Resp User) :
    (checkAuth s r).1.loading = false ∧
    (truthy s.localStorage = false →
      checkAuth s r = ({ s with loading := false }, [])) ∧
    (truthy s.localStorage = false → s = AuthState.init s.localStorage →
      (checkAuth s r).1.user = none) ∧
    (∀ t u, s.localStorage = some t → t ≠ "" → r = .ok u →
      (checkAuth s r).1.user = some u ∧ (checkAuth s r).1.token = some t ∧
      (checkAuth s r).1.localStorage = some t ∧
      requestsOf (checkAuth s r).2 =
        [{ method := .GET, path := "/auth/me", body := none, params := [],
           authorization := some ("Bearer " ++ t) }]) ∧
    (∀ t e, s.localStorage = some t → t ≠ "" → r = .error e →
      (checkAuth s r).1.user = none ∧ (checkAuth s r).1.token = none ∧
      (checkAuth s r).1.localStorage = none ∧
      requestsOf (checkAuth s r).2 =
        [{ method := .GET, path := "/auth/me", body := none, params := [],
           authorization := some ("Bearer " ++ t) }]) := by
  refine ⟨?_, ?_, ?_, ?_, ?_⟩
  · unfold checkAuth
    split
    · cases r <;> rfl
    · rfl
  · intro h
    simp [checkAuth, h]
  · intro h hs
    have h2 : checkAuth s r = ({ s with loading := false }, []) := by simp [checkAuth, h]
    have h3 : s.user = none := by rw [hs]; rfl
    rw [h2]
    exact h3
  · intro t u ht hne hr
    subst hr
    simp [checkAuth, ht, truthy, hne, requestsOf, bearer, tmpl]
  · intro t e ht hne hr
    subst hr
    simp [checkAuth, ht, truthy, hne, requestsOf, bearer, tmpl]

/-- A stored token that the server accepts: the instance of C8. -/
theorem checkAuth_resolves_stored_token_witness :
    (AuthState.init (some "tok")).localStorage = some "tok" ∧ "tok" ≠ "" ∧
    (checkAuth (AuthState.init (some "tok")) (.ok sampleClient)).1.user = some sampleClient ∧
    (checkAuth (AuthState.init (some "tok")) (.ok sampleClient)).1.token = some "tok" ∧
    (truthy (AuthState.init none).localStorage = false ∧
      checkAuth (AuthState.init none) (.ok sampleClient)
        = ({ AuthState.init none with loading := false }, [])) ∧
    (checkAuth (AuthState.init (some "tok")) (.error sampleRejection)).1.localStorage
      = none :=
  ⟨rfl, by decide,
    ((checkAuth_resolves_stored_token (AuthState.init (some "tok")) (.ok sampleClient)).2.2.2.1
      "tok" sampleClient rfl (by decide) rfl).1,
    ((checkAuth_resolves_stored_token (AuthState.init (some "tok")) (.ok sampleClient)).2.2.2.1
      "tok" sampleClient rfl (by decide) rfl).2.1,
    ⟨rfl, (checkAuth_resolves_stored_token (AuthState.init none) (.ok sampleClient)).2.1 rfl⟩,
    ((checkAuth_resolves_stored_token (AuthState.init (some "tok"))
      (.error sampleRejection)).2.2.2.2 "tok" sampleRejection rfl (by decide) rfl).2.2.1⟩

/-! ## C3: the Authorization header -/

theorem ticketsPath_ne_public (x lit : String)
    (hl : lit ∈ ["/auth/register", "/auth/login", "/auth/session", "/categories"]) :
    "/tickets/" ++ x ≠ lit := by
  intro h
  have h2 := congrArg String.data h
  rw [String.data_append] at h2
  simp only [List.mem_cons, List.mem_singleton, List.not_mem_nil, or_false] at hl
  rcases hl with rfl | rfl | rfl | rfl <;> simp at h2

theorem ticketsPath_isPrefixOf (x : String) :
    "/tickets/".data.isPrefixOf ("/tickets/" ++ x).data = true := by
  rw [String.data_append, List.isPrefixOf_iff_prefix]
  exact List.prefix_append _ _

theorem interfaceTable_ticketsPath (m : Method) (x : String)
    (h : (m = .GET ∨ m = .PUT) ∨
      (m = .POST ∧ "/comments".data.isSuffixOf ("/tickets/" ++ x).data = true)) :
    interfaceTable m ("/tickets/" ++ x) = some Auth.bearer := by
  have hpre := ticketsPath_isPrefixOf x
  unfold interfaceTable
  split
  · next hmem =>
    exfalso
    have hp : "/tickets/" ++ x ∈
        ["/auth/register", "/auth/login", "/auth/session", "/categories"] := by
      simp only [List.mem_cons, Prod.mk.injEq, List.mem_singleton, List.not_mem_nil,
        or_false] at hmem ⊢
      rcases hmem with h1 | h1 | h1 | h1 <;> simp [h1.2]
    exact ticketsPath_ne_public x _ hp rfl
  · split
    · rfl
    · split
      · rfl
      · next hn =>
        split
        · rfl
        · next hn2 =>
          exfalso
          rcases h with h | h
          · exact hn ⟨h, hpre⟩
          · exact hn2 ⟨h.1, hpre, h.2⟩

theorem interfaceTable_commentsPath (ticketId : String) :
    interfaceTable .POST ("/tickets/" ++ ticketId ++ "/comments") = some Auth.bearer := by
  rw [String.append_assoc]
  apply interfaceTable_ticketsPath
  right
  refine ⟨rfl, ?_⟩
  rw [← String.append_assoc, String.data_append, List.isSuffixOf_iff_suffix]
  exact List.suffix_append _ _

theorem interfaceTable_public :
    interfaceTable .POST "/auth/register" = some Auth.pub ∧
    interfaceTable .POST "/auth/login" = some Auth.pub ∧
    interfaceTable .POST "/auth/session" = some Auth.pub ∧
    interfaceTable .GET "/categories" = some Auth.pub := by
  decide

theorem interfaceTable_bearer :
    interfaceTable .GET "/auth/me" = some Auth.bearer ∧
    interfaceTable .POST "/auth/logout" = some Auth.bearer ∧
    interfaceTable .GET "/equipments" = some Auth.bearer ∧
    interfaceTable .GET "/tickets" = some Auth.bearer ∧
    interfaceTable .GET "/tickets/my-assigned" = some Auth.bearer ∧
    interfaceTable .GET "/tickets/my-resolved" = some Auth.bearer ∧
    interfaceTable .POST "/tickets" = some Auth.bearer ∧
    interfaceTable .GET "/users/technicians" = some Auth.bearer := by
  decide

/-- The header test of C3 for one request. -/
theorem header_matches_table_of (token : Option String) (q : Request)
    (h : (q.authorization = some (bearer token) ∧
            interfaceTable q.method q.path = some Auth.bearer) ∨
         (q.authorization = none ∧ interfaceTable q.method q.path = some Auth.pub)) :
    (q.authorization = some ("Bearer " ++ tmpl token) ↔
        interfaceTable q.method q.path = some Auth.bearer) ∧
    (q.authorization = none ↔ interfaceTable q.method q.path = some Auth.pub) := by
  rcases h with ⟨h1, h2⟩ | ⟨h1, h2⟩
  · simp [h1, h2, bearer]
  · simp [h1, h2]

/-- C3: a request sent by any function of the front end carries the header
`Authorization: Bearer <current token>` exactly when the interface table marks
its endpoint bearer, and carries no `Authorization` header exactly when the
table marks it public; every endpoint of the table is sent by some call. -/
theorem authorization_header_iff_marked_bearer :
    (∀ (c : UiCall) (q : Request), q ∈ requestsOf c.effects →
      (q.authorization = some ("Bearer " ++ tmpl c.token) ↔
          interfaceTable q.method q.path = some Auth.bearer) ∧
      (q.authorization = none ↔ interfaceTable q.method q.path = some Auth.pub)) ∧
    (∀ mp ∈ [(Method.POST, "/auth/register"), (.POST, "/auth/login"),
        (.POST, "/auth/session"), (.GET, "/auth/me"), (.POST, "/auth/logout"),
        (.GET, "/categories"), (.GET, "/equipments"), (.GET, "/tickets"),
        (.GET, "/tickets/my-assigned"), (.GET, "/tickets/my-resolved"), (.POST, "/tickets"),
        (.GET, "/users/technicians")],
      ∃ c : UiCall, ∃ q ∈ requestsOf c.effects, (q.method, q.path) = mp) ∧
    (∀ ticketId : String, ∀ mp ∈ [(Method.GET, "/tickets/" ++ ticketId),
        (.PUT, "/tickets/" ++ ticketId), (.POST, "/tickets/" ++ ticketId ++ "/comments")],
      ∃ c : UiCall, ∃ q ∈ requestsOf c.effects, (q.method, q.path) = mp) := by
  refine ⟨?_, ?_, ?_⟩
  · intro c q hq
    apply header_matches_table_of
    cases c with
    | handleGoogleCallback s sessionId r =>
      cases r <;> simp [UiCall.effects, handleGoogleCallback, requestsOf] at hq <;>
        subst hq <;> exact Or.inr ⟨rfl, interfaceTable_public.2.2.1⟩
    | checkAuth stored r =>
      simp only [UiCall.effects, checkAuth] at hq
      split at hq
      · cases r <;> simp [requestsOf] at hq <;> subst hq <;>
          exact Or.inl ⟨rfl, interfaceTable_bearer.1⟩
      · simp [requestsOf] at hq
    | logout s r =>
      cases r <;> simp [UiCall.effects, logout, requestsOf] at hq <;>
        subst hq <;> exact Or.inl ⟨rfl, interfaceTable_bearer.2.1⟩
    | handleLogin auth p r =>
      cases r <;> simp [UiCall.effects, handleLogin, requestsOf] at hq <;>
        subst hq <;> exact Or.inr ⟨rfl, interfaceTable_public.2.1⟩
    | handleRegister auth p r =>
      cases r <;> simp [UiCall.effects, handleRegister, requestsOf] at hq <;>
        subst hq <;> exact Or.inr ⟨rfl, interfaceTable_public.1⟩
    | clientFetchData token s d =>
      have hreq := requestsOf_clientFetchData token s d
      simp only [UiCall.effects, hreq, List.mem_cons, List.mem_singleton, List.not_mem_nil,
        or_false] at hq
      rcases hq with rfl | rfl | rfl
      · exact Or.inl ⟨rfl, interfaceTable_bearer.2.2.2.1⟩
      · exact Or.inr ⟨rfl, interfaceTable_public.2.2.2⟩
      · exact Or.inl ⟨rfl, interfaceTable_bearer.2.2.1⟩
    | handleCreateTicket token s post d =>
      have hreq := requestsOf_handleCreateTicket token s post d
      simp only [UiCall.effects, hreq, List.mem_cons] at hq
      rcases hq with rfl | hq
      · exact Or.inl ⟨rfl, interfaceTable_bearer.2.2.2.2.2.2.1⟩
      · cases post with
        | error e => simp at hq
        | ok u =>
          simp only [List.mem_cons, List.mem_singleton, List.not_mem_nil, or_false] at hq
          rcases hq with rfl | rfl | rfl
          · exact Or.inl ⟨rfl, interfaceTable_bearer.2.2.2.1⟩
          · exact Or.inr ⟨rfl, interfaceTable_public.2.2.2⟩
          · exact Or.inl ⟨rfl, interfaceTable_bearer.2.2.1⟩
    | technicianFetchData token s d =>
      have hreq := requestsOf_technicianFetchData token s d
      simp only [UiCall.effects, hreq, List.mem_cons, List.mem_singleton, List.not_mem_nil,
        or_false] at hq
      rcases hq with rfl | rfl | rfl
      · exact Or.inl ⟨rfl, interfaceTable_bearer.2.2.2.1⟩
      · exact Or.inl ⟨rfl, interfaceTable_bearer.2.2.2.2.1⟩
      · exact Or.inl ⟨rfl, interfaceTable_bearer.2.2.2.2.2.1⟩
    | fetchTicket token ticketId s r =>
      simp only [UiCall.effects, requestsOf_fetchTicket, List.mem_singleton] at hq
      subst hq
      exact Or.inl ⟨rfl, interfaceTable_ticketsPath _ _ (Or.inl (Or.inl rfl))⟩
    | fetchTechnicians token s r =>
      cases r <;> simp [UiCall.effects, fetchTechnicians, requestsOf] at hq <;>
        subst hq <;> exact Or.inl ⟨rfl, interfaceTable_bearer.2.2.2.2.2.2.2⟩
    | handleUpdateTicket token ticketId s field value put refetch =>
      simp only [UiCall.effects, requestsOf_handleUpdateTicket, List.mem_cons] at hq
      rcases hq with rfl | hq
      · exact Or.inl ⟨rfl, interfaceTable_ticketsPath _ _ (Or.inl (Or.inr rfl))⟩
      · cases put with
        | error e => simp at hq
        | ok u =>
          simp only [List.mem_singleton] at hq
          subst hq
          exact Or.inl ⟨rfl, interfaceTable_ticketsPath _ _ (Or.inl (Or.inl rfl))⟩
    | handleAddComment token ticketId s post refetch =>
      simp only [UiCall.effects, requestsOf_handleAddComment] at hq
      split at hq
      · simp at hq
      · simp only [List.mem_cons] at hq
        rcases hq with rfl | hq
        · exact Or.inl ⟨rfl, interfaceTable_commentsPath _⟩
        · cases post with
          | error e => simp at hq
          | ok u =>
            simp only [List.mem_singleton] at hq
            subst hq
            exact Or.inl ⟨rfl, interfaceTable_ticketsPath _ _ (Or.inl (Or.inl rfl))⟩
  · intro mp hmp
    simp only [List.mem_cons, List.mem_singleton, List.not_mem_nil, or_false] at hmp
    rcases hmp with rfl | rfl | rfl | rfl | rfl | rfl | rfl | rfl | rfl | rfl | rfl | rfl
    · exact ⟨.handleRegister (AuthState.init none) LoginPageState.init (.error sampleRejection),
        _, List.mem_cons_self _ _, rfl⟩
    · exact ⟨.handleLogin (AuthState.init none) LoginPageState.init (.error sampleRejection),
        _, List.mem_cons_self _ _, rfl⟩
    · exact ⟨.handleGoogleCallback (AuthState.init none) "sid" (.error sampleRejection),
        _, List.mem_cons_self _ _, rfl⟩
    · exact ⟨.checkAuth (some "tok") (.error sampleRejection), _, List.mem_cons_self _ _, rfl⟩
    · exact ⟨.logout (AuthState.init none) (.error sampleRejection),
        _, List.mem_cons_self _ _, rfl⟩
    · exact ⟨.clientFetchData none ClientDashboardState.init sampleAnswers.client,
        _, List.mem_cons_of_mem _ (List.mem_cons_self _ _), rfl⟩
    · exact ⟨.clientFetchData none ClientDashboardState.init sampleAnswers.client,
        _, List.mem_cons_of_mem _ (List.mem_cons_of_mem _ (List.mem_cons_self _ _)), rfl⟩
    · exact ⟨.clientFetchData none ClientDashboardState.init sampleAnswers.client,
        _, List.mem_cons_self _ _, rfl⟩
    · exact ⟨.technicianFetchData none TechnicianDashboardState.init sampleAnswers.technician,
        _, List.mem_cons_of_mem _ (List.mem_cons_self _ _), rfl⟩
    · exact ⟨.technicianFetchData none TechnicianDashboardState.init sampleAnswers.technician,
        _, List.mem_cons_of_mem _ (List.mem_cons_of_mem _ (List.mem_cons_self _ _)), rfl⟩
    · exact ⟨.handleCreateTicket none ClientDashboardState.init (.error sampleRejection)
        sampleAnswers.client, _, List.mem_cons_self _ _, rfl⟩
    · exact ⟨.fetchTechnicians none TicketDetailState.init (.error sampleRejection),
        _, List.mem_cons_self _ _, rfl⟩
  · intro ticketId mp hmp
    simp only [List.mem_cons, List.mem_singleton, List.not_mem_nil, or_false] at hmp
    rcases hmp with rfl | rfl | rfl
    · exact ⟨.fetchTicket none ticketId TicketDetailState.init (.error sampleRejection),
        _, List.mem_cons_self _ _, rfl⟩
    · exact ⟨.handleUpdateTicket none ticketId TicketDetailState.init "status" "cerrado"
        (.error sampleRejection) (.error sampleRejection), _, List.mem_cons_self _ _, rfl⟩
    · exact ⟨.handleAddComment none ticketId { TicketDetailState.init with newComment := "hola" }
        (.error sampleRejection) (.error sampleRejection), _, List.mem_cons_self _ _, rfl⟩

/-- The ticket list request of the client dashboard: the instance of C3. -/
theorem authorization_header_iff_marked_bearer_witness :
    ({ method := .GET, path := "/tickets", body := none, params := [],
       authorization := some "Bearer tok" } : Request) ∈
      requestsOf (UiCall.clientFetchData (some "tok") ClientDashboardState.init
        sampleAnswers.client).effects ∧
    ((some "Bearer tok" = some ("Bearer " ++ tmpl (some "tok")) ↔
        interfaceTable .GET "/tickets" = some Auth.bearer) ∧
      ((some "Bearer tok" : Option String) = none ↔
        interfaceTable .GET "/tickets" = some Auth.pub)) :=
  ⟨List.mem_cons_self _ _,
    authorization_header_iff_marked_bearer.1
      (UiCall.clientFetchData (some "tok") ClientDashboardState.init sampleAnswers.client)
      { method := .GET, path := "/tickets", body := none, params := [],
        authorization := some "Bearer tok" }
      (List.mem_cons_self _ _)⟩

/-! ## C4: the technician endpoints -/

theorem ticketsPath_cancel (x y : String) (h : "/tickets/" ++ x = "/tickets/" ++ y) : x = y := by
  have h2 := congrArg String.data h
  rw [String.data_append, String.data_append] at h2
  exact String.ext (List.append_cancel_left h2)

theorem ticketsPath_not_technicianOnly (ticketId : String) (body : Option Obj)
    (params : List (String × String)) (authorization : Option String)
    (h1 : ticketId ≠ "my-assigned") (h2 : ticketId ≠ "my-resolved") :
    technicianOnly { method := .GET, path := "/tickets/" ++ ticketId, body := body,
                     params := params, authorization := authorization } = false := by
  have e1 : "/tickets/" ++ ticketId ≠ "/tickets/my-assigned" := fun h =>
    h1 (ticketsPath_cancel ticketId "my-assigned" h)
  have e2 : "/tickets/" ++ ticketId ≠ "/tickets/my-resolved" := fun h =>
    h2 (ticketsPath_cancel ticketId "my-resolved" h)
  have e3 : "/tickets/" ++ ticketId ≠ "/users/technicians" := by
    intro h
    have h3 := congrArg String.data h
    rw [String.data_append] at h3
    simp at h3
  simp [technicianOnly, e1, e2, e3]

/-- C4 as stated fails: the dashboard of a signed-in user whose role is
`supervisor` (neither `tecnico` nor `admin`) requests
`GET /tickets/my-assigned`. -/
theorem technician_endpoints_requested_for_other_role :
    (∃ q ∈ requestsOf (mountEffects sampleSupervisor (some "tok") Route.dashboard sampleAnswers),
      technicianOnly q = true ∧ q.path = "/tickets/my-assigned") ∧
    ¬ (sampleSupervisor.role = "tecnico" ∨ sampleSupervisor.role = "admin") := by
  decide

/-- C4 (amended): the three technician endpoints are requested exactly when the
role of the signed-in user is not `cliente`.  Mounting the element of a route
sends one of them if and only if the role differs from `cliente` and the route
is the dashboard or a ticket page; in that case the dashboard sends
`my-assigned` and `my-resolved` and the ticket page sends `/users/technicians`.
No other call of the front end sends one.  (The ticket page puts the id of the
route into the path `/tickets/:id`, hence the side condition on ids that spell
one of the two list paths.) -/
theorem technician_endpoints_iff_not_cliente (user : User) (token : Option String)
    (route : Route) (a : MountAnswers)
    (hroute : route ≠ .ticket "my-assigned" ∧ route ≠ .ticket "my-resolved") :
    ((∃ q ∈ requestsOf (mountEffects user token route a), technicianOnly q = true) ↔
      (user.role ≠ "cliente" ∧ (route = .dashboard ∨ ∃ ticketId, route = .ticket ticketId))) ∧
    (user.role ≠ "cliente" → route = .dashboard →
      ∀ p ∈ ["/tickets/my-assigned", "/tickets/my-resolved"],
        ∃ q ∈ requestsOf (mountEffects user token route a), q.method = .GET ∧ q.path = p) ∧
    (user.role ≠ "cliente" → (∃ ticketId, route = .ticket ticketId) →
      ∃ q ∈ requestsOf (mountEffects user token route a),
        q.method = .GET ∧ q.path = "/users/technicians") ∧
    (∀ c : UiCall, (∃ q ∈ requestsOf c.effects, technicianOnly q = true) →
      (∃ tk s d, c = .technicianFetchData tk s d) ∨ (∃ tk s r, c = .fetchTechnicians tk s r) ∨
      (∃ tk ticketId s r, (ticketId = "my-assigned" ∨ ticketId = "my-resolved") ∧
        c = .fetchTicket tk ticketId s r) ∨
      (∃ tk ticketId s f v r r2, (ticketId = "my-assigned" ∨ ticketId = "my-resolved") ∧
        c = .handleUpdateTicket tk ticketId s f v r r2) ∨
      (∃ tk ticketId s r r2, (ticketId = "my-assigned" ∨ ticketId = "my-resolved") ∧
        c = .handleAddComment tk ticketId s r r2)) := by
  have hmount : (∃ q ∈ requestsOf (mountEffects user token route a), technicianOnly q = true) ↔
      (user.role ≠ "cliente" ∧
        (route = .dashboard ∨ ∃ ticketId, route = .ticket ticketId)) := by
    cases route with
    | login => simp [mountEffects, routeElement, requestsOf]
    | root => simp [mountEffects, routeElement, requestsOf]
    | dashboard =>
      by_cases hc : user.role = "cliente"
      · simp [mountEffects, routeElement, hc, requestsOf_clientFetchData, technicianOnly]
      · simp [mountEffects, routeElement, hc, requestsOf_technicianFetchData, technicianOnly]
    | ticket ticketId =>
      have h1 : ticketId ≠ "my-assigned" := fun h => hroute.1 (by rw [h])
      have h2 : ticketId ≠ "my-resolved" := fun h => hroute.2 (by rw [h])
      have h3 := ticketsPath_not_technicianOnly ticketId none [] (some (bearer token)) h1 h2
      by_cases hc : user.role = "cliente"
      · simp [mountEffects, routeElement, requestsOf_ticketDetailMount, hc, h3]
      · simp [mountEffects, routeElement, requestsOf_ticketDetailMount, hc, h3, technicianOnly]
  refine ⟨hmount, ?_, ?_, ?_⟩
  · intro hc hr p hp
    subst hr
    simp only [List.mem_cons, List.mem_singleton, List.not_mem_nil, or_false] at hp
    rcases hp with rfl | rfl <;>
      simp [mountEffects, routeElement, hc, requestsOf_technicianFetchData]
  · intro hc hr
    obtain ⟨ticketId, rfl⟩ := hr
    simp [mountEffects, routeElement, hc, requestsOf_ticketDetailMount]
  · intro c hc
    obtain ⟨q, hq, ht⟩ := hc
    cases c with
    | handleGoogleCallback s sessionId r =>
      cases r <;> simp [UiCall.effects, handleGoogleCallback, requestsOf] at hq <;>
        subst hq <;> simp [technicianOnly] at ht
    | checkAuth stored r =>
      simp only [UiCall.effects, checkAuth] at hq
      split at hq
      · cases r <;> simp [requestsOf] at hq <;> subst hq <;> simp [technicianOnly] at ht
      · simp [requestsOf] at hq
    | logout s r =>
      cases r <;> simp [UiCall.effects, logout, requestsOf] at hq <;>
        subst hq <;> simp [technicianOnly] at ht
    | handleLogin auth p r =>
      cases r <;> simp [UiCall.effects, handleLogin, requestsOf] at hq <;>
        subst hq <;> simp [technicianOnly] at ht
    | handleRegister auth p r =>
      cases r <;> simp [UiCall.effects, handleRegister, requestsOf] at hq <;>
        subst hq <;> simp [technicianOnly] at ht
    | clientFetchData tk s d =>
      simp only [UiCall.effects, requestsOf_clientFetchData, List.mem_cons, List.mem_singleton,
        List.not_mem_nil, or_false] at hq
      rcases hq with rfl | rfl | rfl <;> simp [technicianOnly] at ht
    | handleCreateTicket tk s post d =>
      simp only [UiCall.effects, requestsOf_handleCreateTicket, List.mem_cons] at hq
      rcases hq with rfl | hq
      · simp [technicianOnly] at ht
      · cases post with
        | error e => simp at hq
        | ok u =>
          simp only [List.mem_cons, List.mem_singleton, List.not_mem_nil, or_false] at hq
          rcases hq with rfl | rfl | rfl <;> simp [technicianOnly] at ht
    | technicianFetchData tk s d => exact Or.inl ⟨tk, s, d, rfl⟩
    | fetchTechnicians tk s r => exact Or.inr (Or.inl ⟨tk, s, r, rfl⟩)
    | fetchTicket tk ticketId s r =>
      right; right; left
      refine ⟨tk, ticketId, s, r, ?_, rfl⟩
      by_contra hne
      simp only [not_or] at hne
      simp only [UiCall.effects, requestsOf_fetchTicket, List.mem_singleton] at hq
      subst hq
      rw [ticketsPath_not_technicianOnly ticketId _ _ _ hne.1 hne.2] at ht
      exact Bool.noConfusion ht
    | handleUpdateTicket tk ticketId s f v put refetch =>
      right; right; right; left
      refine ⟨tk, ticketId, s, f, v, put, refetch, ?_, rfl⟩
      by_contra hne
      simp only [not_or] at hne
      simp only [UiCall.effects, requestsOf_handleUpdateTicket, List.mem_cons] at hq
      rcases hq with rfl | hq
      · simp [technicianOnly] at ht
      · cases put with
        | error e => simp at hq
        | ok u =>
          simp only [List.mem_singleton] at hq
          subst hq
          rw [ticketsPath_not_technicianOnly ticketId _ _ _ hne.1 hne.2] at ht
          exact Bool.noConfusion ht
    | handleAddComment tk ticketId s post refetch =>
      right; right; right; right
      refine ⟨tk, ticketId, s, post, refetch, ?_, rfl⟩
      by_contra hne
      simp only [not_or] at hne
      simp only [UiCall.effects, requestsOf_handleAddComment] at hq
      split at hq
      · simp at hq
      · simp only [List.mem_cons] at hq
        rcases hq with rfl | hq
        · simp [technicianOnly] at ht
        · cases post with
          | error e => simp at hq
          | ok u =>
            simp only [List.mem_singleton] at hq
            subst hq
            rw [ticketsPath_not_technicianOnly ticketId _ _ _ hne.1 hne.2] at ht
            exact Bool.noConfusion ht

/-- A client on the dashboard and a supervisor on a ticket page: the instance
of C4 (amended). -/
theorem technician_endpoints_iff_not_cliente_witness :
    (Route.ticket "t1" ≠ .ticket "my-assigned" ∧ Route.ticket "t1" ≠ .ticket "my-resolved") ∧
    ((∃ q ∈ requestsOf (mountEffects sampleSupervisor (some "tok") (.ticket "t1") sampleAnswers),
        technicianOnly q = true) ↔
      (sampleSupervisor.role ≠ "cliente" ∧
        (Route.ticket "t1" = .dashboard ∨ ∃ ticketId, Route.ticket "t1" = .ticket ticketId))) ∧
    ¬ (∃ q ∈ requestsOf (mountEffects sampleClient (some "tok") .dashboard sampleAnswers),
        technicianOnly q = true) :=
  ⟨by decide,
    (technician_endpoints_iff_not_cliente sampleSupervisor (some "tok") (.ticket "t1")
      sampleAnswers (by decide)).1,
    fun h =>
      ((technician_endpoints_iff_not_cliente sampleClient (some "tok") .dashboard
        sampleAnswers (by decide)).1.1 h).1 rfl⟩

/-! ## C9: error messages -/

/-- C9: on a rejected request `handleLogin`, `handleRegister`,
`handleCreateTicket` and `handleUpdateTicket` show `detail || fallback`, the
message of the server when there is one, but `handleAddComment` shows its
fixed text whatever the rejection says: for the rejection with detail
`Ticket no encontrado` it shows `Error al agregar comentario`, where
`handleUpdateTicket` on the same page shows the detail. -/
theorem handleAddComment_ignores_detail :
    (∀ (e : ApiError) (auth : AuthState) (p : LoginPageState) (token : Option String)
        (cs : ClientDashboardState) (d : ClientData) (ticketId field value : String)
        (s : TicketDetailState) (refetch : Resp Ticket),
      errorToastsOf (handleLogin auth p (.error e)).2
        = [orElse e.detail "Error al iniciar sesión"] ∧
      errorToastsOf (handleRegister auth p (.error e)).2
        = [orElse e.detail "Error al registrarse"] ∧
      errorToastsOf (handleCreateTicket token cs (.error e) d).2
        = [orElse e.detail "Error al crear ticket"] ∧
      errorToastsOf (handleUpdateTicket token ticketId s field value (.error e) refetch).2
        = [orElse e.detail "Error al actualizar ticket"] ∧
      errorToastsOf (handleAddComment token ticketId { sampleLoaded with newComment := "hola" }
          (.error e) refetch).2
        = ["Error al agregar comentario"]) ∧
    sampleRejection.detail = some "Ticket no encontrado" ∧
    errorToastsOf (handleAddComment (some "tok") "t1" { sampleLoaded with newComment := "hola" }
        (.error sampleRejection) (.ok sampleTicket)).2
      = ["Error al agregar comentario"] ∧
    errorToastsOf (handleUpdateTicket (some "tok") "t1" sampleLoaded "status" "cerrado"
        (.error sampleRejection) (.ok sampleTicket)).2
      = ["Ticket no encontrado"] := by
  refine ⟨?_, rfl, by decide, by decide⟩
  intro e auth p token cs d ticketId field value s refetch
  refine ⟨rfl, rfl, rfl, rfl, ?_⟩
  have hb : (jsTrim "hola" == "") = false := by decide
  simp [handleAddComment, sampleLoaded, hb, errorToastsOf]

/-! ## C10: the body of a PUT -/

/-- C10: every PUT sent by an event the ticket page offers goes to
`/tickets/:ticketId` with a body of exactly one key: `status` with one of
`abierto`, `en_proceso`, `cerrado`, or `priority` with one of `baja`, `media`,
`alta`, or `technician_id` with the id of an entry of the `technicians` state.
That state starts empty, is replaced by the data of a successful
`GET /users/technicians`, and is left alone by everything else, so its entries
are entries of the list that request returned. -/
theorem put_body_single_valid_field (user : User) (token : Option String) (ticketId : String)
    (s : TicketDetailState) :
    (∀ e r refetch q, (renderTicketDetail user s).offers e = true →
      q ∈ requestsOf (ticketDetailDispatch token ticketId s e r refetch).2 →
      q.method = Method.PUT →
      q.path = "/tickets/" ++ ticketId ∧
      ∃ k v, q.body = some [(k, Val.str v)] ∧
        ((k = "status" ∧ v ∈ ["abierto", "en_proceso", "cerrado"]) ∨
         (k = "priority" ∧ v ∈ ["baja", "media", "alta"]) ∨
         (k = "technician_id" ∧ ∃ tech ∈ s.technicians, tech.id = v))) ∧
    TicketDetailState.init.technicians = [] ∧
    (∀ ts, (fetchTechnicians token s (.ok ts)).1.technicians = ts) ∧
    (∀ err, (fetchTechnicians token s (.error err)).1.technicians = s.technicians) ∧
    (∀ r, (fetchTicket token ticketId s r).1.technicians = s.technicians) ∧
    (∀ e r refetch,
      (ticketDetailDispatch token ticketId s e r refetch).1.technicians = s.technicians) := by
  have hft : ∀ (s0 : TicketDetailState) (r : Resp Ticket),
      (fetchTicket token ticketId s0 r).1.technicians = s0.technicians := by
    intro s0 r
    cases r <;> rfl
  refine ⟨?_, rfl, fun _ => rfl, fun _ => rfl, hft s, ?_⟩
  · intro e r refetch q hoff hq hm
    cases e with
    | back => simp [ticketDetailDispatch, requestsOf] at hq
    | changeComment text => simp [ticketDetailDispatch, requestsOf] at hq
    | submitComment =>
      simp only [ticketDetailDispatch, requestsOf_handleAddComment] at hq
      split at hq
      · simp at hq
      · cases r <;> simp at hq
        · subst hq; simp at hm
        · rcases hq with rfl | rfl <;> simp at hm
    | selectStatus x =>
      have hx : x ∈ ["abierto", "en_proceso", "cerrado"] := by
        cases hc : (renderTicketDetail user s).actions with
        | none => simp [TicketDetailView.offers, hc] at hoff
        | some c =>
          have hitems : c.statusItems = ["abierto", "en_proceso", "cerrado"] := by
            unfold renderTicketDetail at hc
            split at hc
            · simp [TicketDetailView.actions] at hc
            · split at hc
              · simp [TicketDetailView.actions] at hc
              · simp only [TicketDetailView.actions] at hc
                split at hc
                · cases hc; rfl
                · cases hc
          simp only [TicketDetailView.offers, hc, Bool.and_eq_true, hitems] at hoff
          simpa using hoff.2
      simp only [ticketDetailDispatch, requestsOf_handleUpdateTicket, List.mem_cons] at hq
      rcases hq with rfl | hq
      · exact ⟨rfl, "status", x, rfl, Or.inl ⟨rfl, hx⟩⟩
      · cases r <;> simp at hq
        subst hq; simp at hm
    | selectPriority x =>
      have hx : x ∈ ["baja", "media", "alta"] := by
        cases hc : (renderTicketDetail user s).actions with
        | none => simp [TicketDetailView.offers, hc] at hoff
        | some c =>
          have hitems : c.priorityItems = ["baja", "media", "alta"] := by
            unfold renderTicketDetail at hc
            split at hc
            · simp [TicketDetailView.actions] at hc
            · split at hc
              · simp [TicketDetailView.actions] at hc
              · simp only [TicketDetailView.actions] at hc
                split at hc
                · cases hc; rfl
                · cases hc
          simp only [TicketDetailView.offers, hc, Bool.and_eq_true, hitems] at hoff
          simpa using hoff.2
      simp only [ticketDetailDispatch, requestsOf_handleUpdateTicket, List.mem_cons] at hq
      rcases hq with rfl | hq
      · exact ⟨rfl, "priority", x, rfl, Or.inr (Or.inl ⟨rfl, hx⟩)⟩
      · cases r <;> simp at hq
        subst hq; simp at hm
    | selectTechnician x =>
      have hx : ∃ tech ∈ s.technicians, tech.id = x := by
        cases hc : (renderTicketDetail user s).actions with
        | none => simp [TicketDetailView.offers, hc] at hoff
        | some c =>
          have hitems : c.technicianItems = s.technicians.map (fun tech => tech.id) := by
            unfold renderTicketDetail at hc
            split at hc
            · simp [TicketDetailView.actions] at hc
            · split at hc
              · simp [TicketDetailView.actions] at hc
              · simp only [TicketDetailView.actions] at hc
                split at hc
                · cases hc; rfl
                · cases hc
          simp only [TicketDetailView.offers, hc, Bool.and_eq_true, hitems] at hoff
          simpa using hoff.2
      simp only [ticketDetailDispatch, requestsOf_handleUpdateTicket, List.mem_cons] at hq
      rcases hq with rfl | hq
      · exact ⟨rfl, "technician_id", x, rfl, Or.inr (Or.inr ⟨rfl, hx⟩)⟩
      · cases r <;> simp at hq
        subst hq; simp at hm
  · intro e r refetch
    cases e with
    | back => rfl
    | changeComment text => rfl
    | submitComment =>
      simp only [ticketDetailDispatch, handleAddComment]
      split
      · rfl
      · cases r with
        | error err => rfl
        | ok u => exact hft _ refetch
    | selectStatus x =>
      cases r with
      | error err => rfl
      | ok u => exact hft _ refetch
    | selectPriority x =>
      cases r with
      | error err => rfl
      | ok u => exact hft _ refetch
    | selectTechnician x =>
      cases r with
      | error err => rfl
      | ok u => exact hft _ refetch

/-- A technician assigns the ticket to the one technician of the list: the
instance of C10. -/
theorem put_body_single_valid_field_witness :
    (renderTicketDetail sampleTechnician sampleLoaded).offers (.selectTechnician "u2") = true ∧
    ({ method := .PUT, path := "/tickets/t1", body := some [("technician_id", .str "u2")],
       params := [], authorization := some "Bearer tok" } : Request) ∈
      requestsOf (ticketDetailDispatch (some "tok") "t1" sampleLoaded (.selectTechnician "u2")
        (.ok ()) (.ok sampleTicket)).2 ∧
    ∃ k v, some [("technician_id", Val.str "u2")] = some [(k, Val.str v)] ∧
      ((k = "status" ∧ v ∈ ["abierto", "en_proceso", "cerrado"]) ∨
       (k = "priority" ∧ v ∈ ["baja", "media", "alta"]) ∨
       (k = "technician_id" ∧ ∃ tech ∈ sampleLoaded.technicians, tech.id = v)) :=
  ⟨by decide, by decide,
    ((put_body_single_valid_field sampleTechnician (some "tok") "t1" sampleLoaded).1
      (.selectTechnician "u2") (.ok ()) (.ok sampleTicket)
      { method := .PUT, path := "/tickets/t1", body := some [("technician_id", .str "u2")],
        params := [], authorization := some "Bearer tok" }
      (by decide) (by decide) rfl).2⟩

/-! ## C11: no guard on transitions -/

/-- C11: on the page of a technician with a loaded ticket and no update in
flight, whatever the current status and priority of the ticket, each of the
three status values can be selected and makes `handleUpdateTicket` send the one
PUT with body `status: target`, and each of the three priority values the one
PUT with body `priority: target`; the request does not mention the current
ticket (so a closed ticket can be reopened). -/
theorem status_and_priority_unguarded (user : User) (token : Option String)
    (ticketId : String) (s : TicketDetailState) (t : Ticket) (target : String)
    (r : Resp Unit) (refetch : Resp Ticket)
    (hu : isTechnician user = true) (hl : s.loading = false) (hup : s.updating = false)
    (ht : s.ticket = some t) :
    (target ∈ ["abierto", "en_proceso", "cerrado"] →
      (renderTicketDetail user s).offers (.selectStatus target) = true ∧
      (requestsOf (ticketDetailDispatch token ticketId s (.selectStatus target) r refetch).2).filter
          (fun q => q.method == Method.PUT) =
        [{ method := .PUT, path := "/tickets/" ++ ticketId,
           body := some [("status", .str target)], params := [],
           authorization := some (bearer token) }]) ∧
    (target ∈ ["baja", "media", "alta"] →
      (renderTicketDetail user s).offers (.selectPriority target) = true ∧
      (requestsOf (ticketDetailDispatch token ticketId s (.selectPriority target) r refetch).2).filter
          (fun q => q.method == Method.PUT) =
        [{ method := .PUT, path := "/tickets/" ++ ticketId,
           body := some [("priority", .str target)], params := [],
           authorization := some (bearer token) }]) := by
  constructor
  · intro hmem
    constructor
    · simp only [renderTicketDetail, hl, ht, hu, hup, TicketDetailView.offers,
        TicketDetailView.actions]
      simpa using hmem
    · simp only [ticketDetailDispatch, requestsOf_handleUpdateTicket]
      cases r <;> simp
  · intro hmem
    constructor
    · simp only [renderTicketDetail, hl, ht, hu, hup, TicketDetailView.offers,
        TicketDetailView.actions]
      simpa using hmem
    · simp only [ticketDetailDispatch, requestsOf_handleUpdateTicket]
      cases r <;> simp

/-- A technician reopens a closed ticket: the instance of C11. -/
theorem status_and_priority_unguarded_witness :
    (isTechnician sampleTechnician = true ∧ sampleClosed.loading = false ∧
      sampleClosed.updating = false ∧
      sampleClosed.ticket = some { sampleTicket with status := "cerrado" } ∧
      "abierto" ∈ ["abierto", "en_proceso", "cerrado"]) ∧
    (renderTicketDetail sampleTechnician sampleClosed).offers (.selectStatus "abierto") = true ∧
    (requestsOf (ticketDetailDispatch (some "tok") "t1" sampleClosed (.selectStatus "abierto")
        (.ok ()) (.ok sampleTicket)).2).filter (fun q => q.method == Method.PUT) =
      [{ method := .PUT, path := "/tickets/" ++ "t1",
         body := some [("status", .str "abierto")], params := [],
         authorization := some (bearer (some "tok")) }] :=
  ⟨⟨rfl, rfl, rfl, rfl, by decide⟩,
    (status_and_priority_unguarded sampleTechnician (some "tok") "t1" sampleClosed
      { sampleTicket with status := "cerrado" } "abierto" (.ok ()) (.ok sampleTicket)
      rfl rfl rfl rfl).1 (by decide)⟩

/-! ## C12: the body of POST /tickets -/

/-- C12: the one POST sent by `handleCreateTicket` goes to `/tickets` with the
form state as body: the keys of the body are `title`, `description`,
`category_id`, `equipment_id`, `attachments` in this order, their values are
the fields of the form, every element of `attachments` has the keys
`filename` and `file_data`, and two forms with the same body are equal. -/
theorem create_ticket_body_is_form (token : Option String) (s : ClientDashboardState)
    (post : Resp Unit) (d : ClientData) :
    (requestsOf (handleCreateTicket token s post d).2).filter
        (fun q => q.method == Method.POST) =
      [{ method := .POST, path := "/tickets", body := some s.newTicket.toObj, params := [],
         authorization := some (bearer token) }] ∧
    s.newTicket.toObj.map Prod.fst =
      ["title", "description", "category_id", "equipment_id", "attachments"] ∧
    s.newTicket.toObj.lookup "title" = some (.str s.newTicket.title) ∧
    s.newTicket.toObj.lookup "description" = some (.str s.newTicket.description) ∧
    s.newTicket.toObj.lookup "category_id" = some (.str s.newTicket.category_id) ∧
    s.newTicket.toObj.lookup "equipment_id" = some (.str s.newTicket.equipment_id) ∧
    (∃ rs, s.newTicket.toObj.lookup "attachments" = some (.records rs) ∧
      rs.length = s.newTicket.attachments.length ∧
      (∀ i (h : i < rs.length) (h2 : i < s.newTicket.attachments.length),
        rs.get ⟨i, h⟩ =
          [("filename", some (s.newTicket.attachments.get ⟨i, h2⟩).filename),
           ("file_data", (s.newTicket.attachments.get ⟨i, h2⟩).file_data)]) ∧
      ∀ x ∈ rs, x.map Prod.fst = ["filename", "file_data"]) ∧
    (∀ other : NewTicket, other.toObj = s.newTicket.toObj → other = s.newTicket) := by
  refine ⟨?_, rfl, ?_, ?_, ?_, ?_, ?_, ?_⟩
  · rw [requestsOf_handleCreateTicket]
    cases post <;> simp
  · simp [NewTicket.toObj, List.lookup]
  · simp [NewTicket.toObj, List.lookup]
  · simp [NewTicket.toObj, List.lookup]
  · simp [NewTicket.toObj, List.lookup]
  · refine ⟨s.newTicket.attachments.map
        (fun a => [("filename", some a.filename), ("file_data", a.file_data)]),
      by simp [NewTicket.toObj, List.lookup], by simp, ?_, ?_⟩
    · intro i h h2
      simp
    · intro x hx
      simp only [List.mem_map] at hx
      obtain ⟨a, _, rfl⟩ := hx
      rfl
  · intro other h
    have hinj : Function.Injective
        (fun a : Upload => [("filename", some a.filename), ("file_data", a.file_data)]) := by
      intro a b hab
      cases a
      cases b
      simp at hab
      simp [hab]
    cases other with
    | mk t1 d1 c1 e1 a1 =>
      cases hs : s.newTicket with
      | mk t2 d2 c2 e2 a2 =>
        rw [hs] at h
        simp only [NewTicket.toObj, List.cons.injEq, Prod.mk.injEq, Val.str.injEq,
          Val.records.injEq, true_and, and_true] at h
        obtain ⟨h1, h2, h3, h4, h5⟩ := h
        have h6 := List.map_injective_iff.2 hinj h5
        simp [h1, h2, h3, h4, h6]

/-! ## C13: title and description of a new ticket -/

theorem ticketsPath_ne_tickets (x : String) : "/tickets/" ++ x ≠ "/tickets" := by
  intro h
  have h2 := congrArg String.data h
  rw [String.data_append] at h2
  simp at h2

theorem clientDispatch_post (token : Option String) (s : ClientDashboardState)
    (e : ClientEvent) (post : Resp Unit) (d : ClientData) (q : Request)
    (hq : q ∈ requestsOf (clientDispatch token s e post d).2) (hm : q.method = Method.POST) :
    e = .submit ∧
    q = { method := .POST, path := "/tickets", body := some s.newTicket.toObj, params := [],
          authorization := some (bearer token) } := by
  cases e with
  | submit =>
    refine ⟨rfl, ?_⟩
    simp only [clientDispatch, requestsOf_handleCreateTicket, List.mem_cons] at hq
    rcases hq with rfl | hq
    · rfl
    · cases post with
      | error err => simp at hq
      | ok u =>
        simp only [List.mem_cons, List.mem_singleton, List.not_mem_nil, or_false] at hq
        rcases hq with rfl | rfl | rfl <;> simp at hm
  | openChange b => simp [clientDispatch, requestsOf] at hq
  | changeTitle text => simp [clientDispatch, requestsOf] at hq
  | changeDescription text => simp [clientDispatch, requestsOf] at hq
  | selectCategory x => simp [clientDispatch, requestsOf] at hq
  | selectEquipment x => simp [clientDispatch, requestsOf] at hq
  | fileLoaded filename result => simp [clientDispatch, requestsOf] at hq
  | removeAttachment i => simp [clientDispatch, requestsOf] at hq
  | openTicket id => simp [clientDispatch, requestsOf] at hq

/-- C13: the only function of the front end that sends `POST /tickets` is
`handleCreateTicket`, which checks nothing and sends the form as it is; the
only event of the client dashboard that reaches it is the submission of the
form, and the title and the description of the request are those the form
holds at that moment.  With the `required` attribute of the title input and
of the description textarea modelled by `requiredFilled` (the components and
the browser are not among the sources), the form is submitted only when both
are non-empty, so the title and the description of every such request are
non-empty strings. -/
theorem create_ticket_title_description_nonempty (token : Option String) :
    (∀ c : UiCall, ∀ q ∈ requestsOf c.effects, q.method = Method.POST → q.path = "/tickets" →
      ∃ tk s post d, c = .handleCreateTicket tk s post d ∧ q.body = some s.newTicket.toObj) ∧
    (∀ s e post d q,
      q ∈ requestsOf (clientDispatch token s e post d).2 → q.method = Method.POST →
      e = .submit ∧ q.path = "/tickets" ∧
      bodyField q.body "title" = some (.str s.newTicket.title) ∧
      bodyField q.body "description" = some (.str s.newTicket.description)) ∧
    (∀ s, clientOffers s .submit = true ↔
      (s.loading = false ∧ s.createDialogOpen = true ∧
        requiredFilled s.newTicket.title = true ∧
        requiredFilled s.newTicket.description = true ∧
        requiredFilled s.newTicket.category_id = true)) ∧
    (∀ s e post d q, clientOffers s e = true →
      q ∈ requestsOf (clientDispatch token s e post d).2 → q.method = Method.POST →
      e = .submit ∧ q.path = "/tickets" ∧
      ∃ title description,
        bodyField q.body "title" = some (.str title) ∧ title ≠ "" ∧
        bodyField q.body "description" = some (.str description) ∧ description ≠ "") := by
  refine ⟨?_, ?_, ?_, ?_⟩
  · intro c q hq hm hp
    cases c with
    | handleGoogleCallback s sessionId r =>
      cases r <;> simp [UiCall.effects, handleGoogleCallback, requestsOf] at hq <;>
        subst hq <;> simp at hp
    | checkAuth stored r =>
      simp only [UiCall.effects, checkAuth] at hq
      split at hq
      · cases r <;> simp [requestsOf] at hq <;> subst hq <;> simp at hm
      · simp [requestsOf] at hq
    | logout s r =>
      cases r <;> simp [UiCall.effects, logout, requestsOf] at hq <;>
        subst hq <;> simp at hp
    | handleLogin auth p r =>
      cases r <;> simp [UiCall.effects, handleLogin, requestsOf] at hq <;>
        subst hq <;> simp at hp
    | handleRegister auth p r =>
      cases r <;> simp [UiCall.effects, handleRegister, requestsOf] at hq <;>
        subst hq <;> simp at hp
    | clientFetchData tk s d =>
      simp only [UiCall.effects, requestsOf_clientFetchData, List.mem_cons, List.mem_singleton,
        List.not_mem_nil, or_false] at hq
      rcases hq with rfl | rfl | rfl <;> simp at hm
    | handleCreateTicket tk s post d =>
      refine ⟨tk, s, post, d, rfl, ?_⟩
      simp only [UiCall.effects, requestsOf_handleCreateTicket, List.mem_cons] at hq
      rcases hq with rfl | hq
      · rfl
      · cases post with
        | error e => simp at hq
        | ok u =>
          simp only [List.mem_cons, List.mem_singleton, List.not_mem_nil, or_false] at hq
          rcases hq with rfl | rfl | rfl <;> simp at hm
    | technicianFetchData tk s d =>
      simp only [UiCall.effects, requestsOf_technicianFetchData, List.mem_cons,
        List.mem_singleton, List.not_mem_nil, or_false] at hq
      rcases hq with rfl | rfl | rfl <;> simp at hm
    | fetchTicket tk ticketId s r =>
      simp only [UiCall.effects, requestsOf_fetchTicket, List.mem_singleton] at hq
      subst hq
      simp at hm
    | fetchTechnicians tk s r =>
      cases r <;> simp [UiCall.effects, fetchTechnicians, requestsOf] at hq <;>
        subst hq <;> simp at hm
    | handleUpdateTicket tk ticketId s f v put refetch =>
      simp only [UiCall.effects, requestsOf_handleUpdateTicket, List.mem_cons] at hq
      rcases hq with rfl | hq
      · simp at hm
      · cases put with
        | error e => simp at hq
        | ok u =>
          simp only [List.mem_singleton] at hq
          subst hq
          simp at hm
    | handleAddComment tk ticketId s post refetch =>
      simp only [UiCall.effects, requestsOf_handleAddComment] at hq
      split at hq
      · simp at hq
      · simp only [List.mem_cons] at hq
        rcases hq with rfl | hq
        · exfalso
          simp only [String.append_assoc] at hp
          exact ticketsPath_ne_tickets _ hp
        · cases post with
          | error e => simp at hq
          | ok u =>
            simp only [List.mem_singleton] at hq
            subst hq
            simp at hm
  · intro s e post d q hq hm
    obtain ⟨he, hq2⟩ := clientDispatch_post token s e post d q hq hm
    subst he
    subst hq2
    refine ⟨rfl, rfl, ?_, ?_⟩
    · simp [bodyField, NewTicket.toObj, List.lookup]
    · simp [bodyField, NewTicket.toObj, List.lookup]
  · intro s
    simp [clientOffers, NewTicket.requiredValues, and_assoc]
  · intro s e post d q hoff hq hm
    obtain ⟨he, hq2⟩ := clientDispatch_post token s e post d q hq hm
    subst he
    subst hq2
    simp only [clientOffers, NewTicket.requiredValues, List.all_cons, List.all_nil,
      Bool.and_true, Bool.and_eq_true, requiredFilled, bne_iff_ne, ne_eq] at hoff
    refine ⟨rfl, rfl, s.newTicket.title, s.newTicket.description, ?_, hoff.2.1, ?_,
      hoff.2.2.1⟩
    · simp [bodyField, NewTicket.toObj, List.lookup]
    · simp [bodyField, NewTicket.toObj, List.lookup]

/-- A client submits a filled form: the instance of C13. -/
theorem create_ticket_title_description_nonempty_witness :
    clientOffers sampleFilled .submit = true ∧
    (∃ q ∈ requestsOf (clientDispatch (some "tok") sampleFilled .submit (.ok ())
        sampleCatalog).2, q.method = Method.POST) ∧
    ∃ title description,
      bodyField (some sampleFilled.newTicket.toObj) "title" = some (.str title) ∧ title ≠ "" ∧
      bodyField (some sampleFilled.newTicket.toObj) "description" = some (.str description) ∧
      description ≠ "" :=
  ⟨by decide,
    ⟨{ method := .POST, path := "/tickets", body := some sampleFilled.newTicket.toObj,
       params := [], authorization := some (bearer (some "tok")) }, by decide, rfl⟩,
    ((create_ticket_title_description_nonempty (some "tok")).2.2.2 sampleFilled .submit (.ok ())
      sampleCatalog
      { method := .POST, path := "/tickets", body := some sampleFilled.newTicket.toObj,
        params := [], authorization := some (bearer (some "tok")) }
      (by decide) (by decide) rfl).2.2⟩

/-! ## C14: the reference ids of a new ticket -/

theorem clientRunFrom_invariant (token : Option String) (Inv : ClientDashboardState → Prop)
    (steps : List ClientStep)
    (hstep : ∀ st ∈ steps, ∀ s, Inv s → clientOffers s st.event = true →
      Inv (clientDispatch token s st.event st.post st.data).1) :
    ∀ s0 s, Inv s0 → clientRunFrom token s0 steps = some s → Inv s := by
  induction steps with
  | nil =>
    intro s0 s h0 hrun
    simp only [clientRunFrom, Option.some.injEq] at hrun
    exact hrun ▸ h0
  | cons st rest ih =>
    intro s0 s h0 hrun
    simp only [clientRunFrom] at hrun
    split at hrun
    · next hoff =>
      exact ih (fun st2 h2 => hstep st2 (List.mem_cons_of_mem _ h2)) _ s
        (hstep st (List.mem_cons_self _ _) s0 h0 hoff) hrun
    · cases hrun

theorem onloadend_ids (filename : String) (result : Option String) (prev : NewTicket) :
    (onloadend filename result prev).category_id = prev.category_id ∧
    (onloadend filename result prev).equipment_id = prev.equipment_id ∧
    (onloadend filename result prev).title = prev.title ∧
    (onloadend filename result prev).description = prev.description := by
  cases result <;> simp [onloadend]

theorem catalogInv_fetch (token : Option String) (answers : List ClientData)
    (s : ClientDashboardState) (d : ClientData) (hd : d ∈ answers)
    (hempty : s.newTicket.category_id = "" ∧ s.newTicket.equipment_id = "")
    (hc : s.categories = [] ∨ ∃ d ∈ answers, d.categories = .ok s.categories)
    (he : s.equipments = [] ∨ ∃ d ∈ answers, d.equipments = .ok s.equipments) :
    CatalogInv answers (clientFetchData token s d).1 := by
  unfold clientFetchData
  split
  · next ts cs es h1 h2 h3 =>
    exact ⟨Or.inl hempty.1, Or.inl hempty.2, Or.inr ⟨d, hd, h2⟩, Or.inr ⟨d, hd, h3⟩⟩
  · exact ⟨Or.inl hempty.1, Or.inl hempty.2, hc, he⟩

theorem catalogInv_step (token : Option String) (answers : List ClientData)
    (s : ClientDashboardState) (e : ClientEvent) (post : Resp Unit) (d : ClientData)
    (hd : d ∈ answers) (hinv : CatalogInv answers s) (hoff : clientOffers s e = true) :
    CatalogInv answers (clientDispatch token s e post d).1 := by
  obtain ⟨h1, h2, h3, h4⟩ := hinv
  cases e with
  | openChange b => exact ⟨h1, h2, h3, h4⟩
  | changeTitle text => exact ⟨h1, h2, h3, h4⟩
  | changeDescription text => exact ⟨h1, h2, h3, h4⟩
  | openTicket id => exact ⟨h1, h2, h3, h4⟩
  | fileLoaded filename result =>
    have h := onloadend_ids filename result s.newTicket
    refine ⟨?_, ?_, h3, h4⟩
    · simpa only [clientDispatch, h.1] using h1
    · simpa only [clientDispatch, h.2.1] using h2
  | removeAttachment i => exact ⟨h1, h2, h3, h4⟩
  | selectCategory x =>
    refine ⟨Or.inr ?_, h2, h3, h4⟩
    simp only [clientOffers, Bool.and_eq_true, List.contains_iff_exists_mem_beq, List.mem_map,
      beq_iff_eq] at hoff
    obtain ⟨_, y, ⟨c, hc, rfl⟩, hxy⟩ := hoff
    exact ⟨c, hc, hxy.symm⟩
  | selectEquipment x =>
    refine ⟨h1, Or.inr ?_, h3, h4⟩
    simp only [clientOffers, Bool.and_eq_true, List.contains_iff_exists_mem_beq, List.mem_map,
      beq_iff_eq] at hoff
    obtain ⟨_, y, ⟨c, hc, rfl⟩, hxy⟩ := hoff
    exact ⟨c, hc, hxy.symm⟩
  | submit =>
    cases post with
    | error err => exact ⟨h1, h2, h3, h4⟩
    | ok u => exact catalogInv_fetch token answers _ d hd ⟨rfl, rfl⟩ h3 h4

/-- C14 as stated fails: a client who fills the form and picks no equipment
submits a `POST /tickets` whose body supplies `equipment_id` with the empty
string as value, which is the id of no fetched equipment. -/
theorem empty_equipment_id_is_supplied :
    clientRun (some "tok") sampleCatalog sampleSteps = some sampleFilled ∧
    clientOffers sampleFilled .submit = true ∧
    (∃ q ∈ requestsOf (clientDispatch (some "tok") sampleFilled .submit (.ok ())
          sampleCatalog).2,
      q.method = Method.POST ∧ q.path = "/tickets" ∧
      bodyField q.body "equipment_id" = some (.str "") ∧
      ¬ ∃ e ∈ sampleFilled.equipments, e.id = "") := by
  refine ⟨by decide, by decide, ?_⟩
  exact ⟨{ method := .POST, path := "/tickets", body := some sampleFilled.newTicket.toObj,
           params := [], authorization := some (bearer (some "tok")) },
    by decide, rfl, rfl, by decide, by decide⟩

/-- C14 (amended): in every state a mounted client dashboard reaches, the
`POST /tickets` of a submitted form carries a `category_id` that is the id of
an entry of the fetched categories (the category select is `required`, see
`requiredFilled`, and its items are the fetched categories), and always
carries an `equipment_id`, which is the empty string when no equipment was
picked and otherwise the id of an entry of the fetched equipments; the fetched
lists are the data some `GET /categories`, respectively `GET /equipments`,
returned during the session (or still empty). -/
theorem reference_ids_empty_or_fetched (token : Option String) (d0 : ClientData)
    (steps : List ClientStep) (s : ClientDashboardState) (post : Resp Unit) (d : ClientData)
    (q : Request)
    (hrun : clientRun token d0 steps = some s)
    (hoff : clientOffers s .submit = true)
    (hq : q ∈ requestsOf (clientDispatch token s .submit post d).2)
    (hm : q.method = Method.POST) :
    q.path = "/tickets" ∧
    (∃ cat, bodyField q.body "category_id" = some (.str cat) ∧
      (∃ c ∈ s.categories, c.id = cat) ∧
      ∃ a ∈ d0 :: steps.map (fun st => st.data), a.categories = .ok s.categories) ∧
    (∃ eq, bodyField q.body "equipment_id" = some (.str eq) ∧
      (eq = "" ∨ ∃ e ∈ s.equipments, e.id = eq)) ∧
    (s.equipments = [] ∨
      ∃ a ∈ d0 :: steps.map (fun st => st.data), a.equipments = .ok s.equipments) := by
  have hinv : CatalogInv (d0 :: steps.map (fun st => st.data)) s := by
    refine clientRunFrom_invariant token (CatalogInv (d0 :: steps.map (fun st => st.data)))
      steps ?_ _ s ?_ hrun
    · intro st hst s1 h1 hoff
      refine catalogInv_step token _ s1 st.event st.post st.data ?_ h1 hoff
      exact List.mem_cons_of_mem _ (List.mem_map.2 ⟨st, hst, rfl⟩)
    · exact catalogInv_fetch token _ _ d0 (List.mem_cons_self _ _) ⟨rfl, rfl⟩
        (Or.inl rfl) (Or.inl rfl)
  obtain ⟨_, hq2⟩ := clientDispatch_post token s .submit post d q hq hm
  subst hq2
  obtain ⟨h1, h2, h3, h4⟩ := hinv
  simp only [clientOffers, NewTicket.requiredValues, List.all_cons, List.all_nil,
    Bool.and_true, Bool.and_eq_true, requiredFilled, bne_iff_ne, ne_eq] at hoff
  have hcat : ∃ c ∈ s.categories, c.id = s.newTicket.category_id := by
    rcases h1 with h1 | h1
    · exact absurd h1 hoff.2.2.2
    · exact h1
  have hlist : ∃ a ∈ d0 :: steps.map (fun st => st.data), a.categories = .ok s.categories := by
    rcases h3 with h3 | h3
    · obtain ⟨c, hc, _⟩ := hcat
      rw [h3] at hc
      cases hc
    · exact h3
  refine ⟨rfl, ⟨s.newTicket.category_id, ?_, hcat, hlist⟩,
    ⟨s.newTicket.equipment_id, ?_, h2⟩, h4⟩
  · simp [bodyField, NewTicket.toObj, List.lookup]
  · simp [bodyField, NewTicket.toObj, List.lookup]

/-- The submission of the filled form: the instance of C14 (amended). -/
theorem reference_ids_empty_or_fetched_witness :
    (clientRun (some "tok") sampleCatalog sampleSteps = some sampleFilled ∧
      clientOffers sampleFilled .submit = true) ∧
    (∃ cat, bodyField (some sampleFilled.newTicket.toObj) "category_id" = some (.str cat) ∧
      (∃ c ∈ sampleFilled.categories, c.id = cat) ∧
      ∃ a ∈ sampleCatalog :: sampleSteps.map (fun st => st.data),
        a.categories = .ok sampleFilled.categories) ∧
    (∃ eq, bodyField (some sampleFilled.newTicket.toObj) "equipment_id" = some (.str eq) ∧
      (eq = "" ∨ ∃ e ∈ sampleFilled.equipments, e.id = eq)) :=
  ⟨⟨by decide, by decide⟩,
    (reference_ids_empty_or_fetched (some "tok") sampleCatalog sampleSteps sampleFilled
      (.ok ()) sampleCatalog
      { method := .POST, path := "/tickets", body := some sampleFilled.newTicket.toObj,
        params := [], authorization := some (bearer (some "tok")) }
      (by decide) (by decide) (by decide) rfl).2.1,
    (reference_ids_empty_or_fetched (some "tok") sampleCatalog sampleSteps sampleFilled
      (.ok ()) sampleCatalog
      { method := .POST, path := "/tickets", body := some sampleFilled.newTicket.toObj,
        params := [], authorization := some (bearer (some "tok")) }
      (by decide) (by decide) (by decide) rfl).2.2.1⟩

/-! ## C15: a file that has been read -/

theorem jsSplit_of_not_mem (sep : Char) (l : List Char) (h : sep ∉ l) :
    jsSplit sep l = [l] := by
  induction l with
  | nil => rfl
  | cons c cs ih =>
    have hc : c ≠ sep := fun e => h (e ▸ List.mem_cons_self _ _)
    have hcs : sep ∉ cs := fun m => h (List.mem_cons_of_mem _ m)
    simp [jsSplit, hc, ih hcs]

theorem jsSplit_append_sep (sep : Char) (l m : List Char) (h : sep ∉ l) :
    jsSplit sep (l ++ sep :: m) = l :: jsSplit sep m := by
  induction l with
  | nil => simp [jsSplit]
  | cons c cs ih =>
    have hc : c ≠ sep := fun e => h (e ▸ List.mem_cons_self _ _)
    have hcs : sep ∉ cs := fun m => h (List.mem_cons_of_mem _ m)
    simp [jsSplit, hc, ih hcs]

theorem dataUrlPayload_of_comma_free (P B : String) (hP : ',' ∉ P.data) (hB : ',' ∉ B.data) :
    dataUrlPayload (P ++ "," ++ B) = some B := by
  have hdata : (P ++ "," ++ B).data = P.data ++ ',' :: B.data := by
    rw [String.data_append, String.data_append]
    simp
  unfold dataUrlPayload
  rw [hdata, jsSplit_append_sep ',' P.data B.data hP, jsSplit_of_not_mem ',' B.data hB]
  rfl

/-- C15: when the result of the read is `P + "," + B` with no comma in `P` nor
in `B`, the `onloadend` callback replaces the form by one whose attachments are
the previous ones followed by the single entry `filename: file.name,
file_data: B`, and whose title, description, category_id and equipment_id are
the previous ones; on the dashboard this is the whole effect of the callback. -/
theorem onloadend_appends_one_entry (filename P B : String) (prev : NewTicket)
    (hP : ',' ∉ P.data) (hB : ',' ∉ B.data) :
    onloadend filename (some (P ++ "," ++ B)) prev =
      { prev with
        attachments := prev.attachments ++ [{ filename := filename, file_data := some B }] } ∧
    (onloadend filename (some (P ++ "," ++ B)) prev).attachments.length
      = prev.attachments.length + 1 ∧
    (onloadend filename (some (P ++ "," ++ B)) prev).attachments.take prev.attachments.length
      = prev.attachments ∧
    (onloadend filename (some (P ++ "," ++ B)) prev).title = prev.title ∧
    (onloadend filename (some (P ++ "," ++ B)) prev).description = prev.description ∧
    (onloadend filename (some (P ++ "," ++ B)) prev).category_id = prev.category_id ∧
    (onloadend filename (some (P ++ "," ++ B)) prev).equipment_id = prev.equipment_id ∧
    (∀ token (s : ClientDashboardState) post d, s.newTicket = prev →
      clientDispatch token s (.fileLoaded filename (some (P ++ "," ++ B))) post d =
        ({ s with newTicket :=
            { prev with
              attachments :=
                prev.attachments ++ [{ filename := filename, file_data := some B }] } },
          [])) := by
  have h : onloadend filename (some (P ++ "," ++ B)) prev =
      { prev with
        attachments := prev.attachments ++ [{ filename := filename, file_data := some B }] } := by
    simp only [onloadend, dataUrlPayload_of_comma_free P B hP hB]
  refine ⟨h, ?_, ?_, ?_, ?_, ?_, ?_, ?_⟩
  · rw [h]; simp
  · rw [h]; simp
  · rw [h]
  · rw [h]
  · rw [h]
  · rw [h]
  · intro token s post d hs
    subst hs
    simp only [clientDispatch, h]

/-- A PNG file read into an empty form: the instance of C15. -/
theorem onloadend_appends_one_entry_witness :
    (',' ∉ "data:image/png;base64".data ∧ ',' ∉ "iVBORw0KGgo=".data) ∧
    onloadend "foto.png" (some ("data:image/png;base64" ++ "," ++ "iVBORw0KGgo="))
        NewTicket.empty =
      { NewTicket.empty with
        attachments :=
          NewTicket.empty.attachments ++
            [{ filename := "foto.png", file_data := some "iVBORw0KGgo=" }] } :=
  ⟨by decide,
    (onloadend_appends_one_entry "foto.png" "data:image/png;base64" "iVBORw0KGgo="
      NewTicket.empty (by decide) (by decide)).1⟩

/-! ## C16: the payload of an attachment, there and back -/

/-- C16: for an attachment whose `file_data` is a comma-free text `B`, the
image `TicketDetail` renders has the `src` `data:image/jpeg;base64,` followed
by `B`, and the extraction done at upload, applied to that `src`, gives `B`
back; so a data URL of media type `image/jpeg` with comma-free payload is
rendered back as itself after its payload went through the upload. -/
theorem attachment_payload_round_trip (filename B : String) (hB : ',' ∉ B.data) :
    attachmentSrc { filename := filename, file_data := B } = "data:image/jpeg;base64," ++ B ∧
    dataUrlPayload (attachmentSrc { filename := filename, file_data := B }) = some B ∧
    (∃ X, dataUrlPayload ("data:image/jpeg;base64," ++ B) = some X ∧
      attachmentSrc { filename := filename, file_data := X } = "data:image/jpeg;base64," ++ B) ∧
    (∀ prev : NewTicket, ∃ X,
      (onloadend filename (some ("data:image/jpeg;base64," ++ B)) prev).attachments
        = prev.attachments ++ [{ filename := filename, file_data := some X }] ∧
      attachmentSrc { filename := filename, file_data := X } = "data:image/jpeg;base64," ++ B) ∧
    (∀ t : Ticket, t.attachments = [{ filename := filename, file_data := B }] →
      attachmentImages t = ["data:image/jpeg;base64," ++ B]) := by
  have hP : ',' ∉ "data:image/jpeg;base64".data := by decide
  have hsplit : ("data:image/jpeg;base64," : String) = "data:image/jpeg;base64" ++ "," := by
    decide
  have hpay : dataUrlPayload ("data:image/jpeg;base64," ++ B) = some B := by
    rw [hsplit]
    exact dataUrlPayload_of_comma_free _ B hP hB
  refine ⟨rfl, hpay, ⟨B, hpay, rfl⟩, ?_, ?_⟩
  · intro prev
    exact ⟨B, by simp only [onloadend, hpay], rfl⟩
  · intro t ht
    simp [attachmentImages, ht, attachmentSrc]

/-- A small JPEG payload: the instance of C16. -/
theorem attachment_payload_round_trip_witness :
    ',' ∉ "/9j/4AAQSkZJRg==".data ∧
    dataUrlPayload (attachmentSrc { filename := "foto.jpg", file_data := "/9j/4AAQSkZJRg==" })
      = some "/9j/4AAQSkZJRg==" :=
  ⟨by decide, (attachment_payload_round_trip "foto.jpg" "/9j/4AAQSkZJRg==" (by decide)).2.1⟩

/-! ## C17: the role of a registration -/

theorem loginRunFrom_invariant (Inv : LoginPageState → Prop) (steps : List LoginStep)
    (hstep : ∀ auth p e r, Inv p → loginOffers p e = true → Inv (loginDispatch auth p e r).1.2) :
    ∀ auth p a q, Inv p → loginRunFrom auth p steps = some (a, q) → Inv q := by
  induction steps with
  | nil =>
    intro auth p a q h0 hrun
    simp only [loginRunFrom, Option.some.injEq, Prod.mk.injEq] at hrun
    exact hrun.2 ▸ h0
  | cons st rest ih =>
    intro auth p a q h0 hrun
    simp only [loginRunFrom] at hrun
    split at hrun
    · next hoff => exact ih _ _ a q (hstep auth p st.event st.answer h0 hoff) hrun
    · cases hrun

theorem loginDispatch_role (auth : AuthState) (p : LoginPageState) (e : LoginEvent)
    (r : Resp AuthPayload)
    (hinv : p.registerData.role = "cliente" ∨ p.registerData.role = "tecnico")
    (hoff : loginOffers p e = true) :
    (loginDispatch auth p e r).1.2.registerData.role = "cliente" ∨
    (loginDispatch auth p e r).1.2.registerData.role = "tecnico" := by
  cases e with
  | selectRole x => simpa [loginOffers] using hoff
  | submitLogin => cases r <;> exact hinv
  | submitRegister => cases r <;> exact hinv
  | changeLoginEmail text => exact hinv
  | changeLoginPassword text => exact hinv
  | changeName text => exact hinv
  | changeEmail text => exact hinv
  | changePhone text => exact hinv
  | changePassword text => exact hinv

/-- C17: the register form starts with role `cliente`; the only function of
the front end that sends `POST /auth/register` is `handleRegister`, with
`registerData` as body; and in every state a login page reaches, the request
of `handleRegister` has a body with exactly the keys `email`, `name`,
`password`, `role`, `phone` whose `role` is `cliente` or `tecnico`. -/
theorem register_role_cliente_or_tecnico :
    LoginPageState.init.registerData.role = "cliente" ∧
    (∀ c : UiCall, ∀ q ∈ requestsOf c.effects, q.path = "/auth/register" →
      ∃ auth p r, c = .handleRegister auth p r ∧ q.body = some p.registerData.toObj) ∧
    (∀ auth steps a p r q, loginRun auth steps = some (a, p) →
      q ∈ requestsOf (loginDispatch a p .submitRegister r).2 →
      q.method = Method.POST ∧ q.path = "/auth/register" ∧
      q.body = some p.registerData.toObj ∧
      p.registerData.toObj.map Prod.fst = ["email", "name", "password", "role", "phone"] ∧
      (bodyField q.body "role" = some (.str "cliente") ∨
        bodyField q.body "role" = some (.str "tecnico"))) := by
  refine ⟨rfl, ?_, ?_⟩
  · intro c q hq hp
    cases c with
    | handleGoogleCallback s sessionId r =>
      cases r <;> simp [UiCall.effects, handleGoogleCallback, requestsOf] at hq <;>
        subst hq <;> simp at hp
    | checkAuth stored r =>
      simp only [UiCall.effects, checkAuth] at hq
      split at hq
      · cases r <;> simp [requestsOf] at hq <;> subst hq <;> simp at hp
      · simp [requestsOf] at hq
    | logout s r =>
      cases r <;> simp [UiCall.effects, logout, requestsOf] at hq <;>
        subst hq <;> simp at hp
    | handleLogin auth p r =>
      cases r <;> simp [UiCall.effects, handleLogin, requestsOf] at hq <;>
        subst hq <;> simp at hp
    | handleRegister auth p r =>
      refine ⟨auth, p, r, rfl, ?_⟩
      cases r <;> simp [UiCall.effects, handleRegister, requestsOf] at hq <;>
        subst hq <;> rfl
    | clientFetchData tk s d =>
      simp only [UiCall.effects, requestsOf_clientFetchData, List.mem_cons, List.mem_singleton,
        List.not_mem_nil, or_false] at hq
      rcases hq with rfl | rfl | rfl <;> simp at hp
    | handleCreateTicket tk s post d =>
      simp only [UiCall.effects, requestsOf_handleCreateTicket, List.mem_cons] at hq
      rcases hq with rfl | hq
      · simp at hp
      · cases post with
        | error e => simp at hq
        | ok u =>
          simp only [List.mem_cons, List.mem_singleton, List.not_mem_nil, or_false] at hq
          rcases hq with rfl | rfl | rfl <;> simp at hp
    | technicianFetchData tk s d =>
      simp only [UiCall.effects, requestsOf_technicianFetchData, List.mem_cons,
        List.mem_singleton, List.not_mem_nil, or_false] at hq
      rcases hq with rfl | rfl | rfl <;> simp at hp
    | fetchTicket tk ticketId s r =>
      simp only [UiCall.effects, requestsOf_fetchTicket, List.mem_singleton] at hq
      subst hq
      exact absurd hp (ticketsPath_ne_public _ _ (by decide))
    | fetchTechnicians tk s r =>
      cases r <;> simp [UiCall.effects, fetchTechnicians, requestsOf] at hq <;>
        subst hq <;> simp at hp
    | handleUpdateTicket tk ticketId s f v put refetch =>
      simp only [UiCall.effects, requestsOf_handleUpdateTicket, List.mem_cons] at hq
      rcases hq with rfl | hq
      · exact absurd hp (ticketsPath_ne_public _ _ (by decide))
      · cases put with
        | error e => simp at hq
        | ok u =>
          simp only [List.mem_singleton] at hq
          subst hq
          exact absurd hp (ticketsPath_ne_public _ _ (by decide))
    | handleAddComment tk ticketId s post refetch =>
      simp only [UiCall.effects, requestsOf_handleAddComment] at hq
      split at hq
      · simp at hq
      · simp only [List.mem_cons] at hq
        rcases hq with rfl | hq
        · simp only [String.append_assoc] at hp
          exact absurd hp (ticketsPath_ne_public _ _ (by decide))
        · cases post with
          | error e => simp at hq
          | ok u =>
            simp only [List.mem_singleton] at hq
            subst hq
            exact absurd hp (ticketsPath_ne_public _ _ (by decide))
  · intro auth steps a p r q hrun hq
    have hrole : p.registerData.role = "cliente" ∨ p.registerData.role = "tecnico" :=
      loginRunFrom_invariant
        (fun p => p.registerData.role = "cliente" ∨ p.registerData.role = "tecnico") steps
        (fun auth p e r h hoff => loginDispatch_role auth p e r h hoff)
        auth LoginPageState.init a p (Or.inl rfl) hrun
    have hq2 : q = { method := .POST, path := "/auth/register",
                     body := some p.registerData.toObj, params := [],
                     authorization := none } := by
      cases r <;> simpa [loginDispatch, handleRegister, requestsOf] using hq
    subst hq2
    refine ⟨rfl, rfl, rfl, rfl, ?_⟩
    rcases hrole with h | h
    · left; simp [bodyField, RegisterData.toObj, List.lookup, h]
    · right; simp [bodyField, RegisterData.toObj, List.lookup, h]

/-- A visitor picks the role `tecnico` and registers: the instance of C17. -/
theorem register_role_cliente_or_tecnico_witness :
    loginRun (AuthState.init none) sampleRegistration
      = some (AuthState.init none, sampleRegisterPage) ∧
    (bodyField (some sampleRegisterPage.registerData.toObj) "role" = some (.str "cliente") ∨
      bodyField (some sampleRegisterPage.registerData.toObj) "role" = some (.str "tecnico")) :=
  ⟨by decide,
    (register_role_cliente_or_tecnico.2.2 (AuthState.init none) sampleRegistration
      (AuthState.init none) sampleRegisterPage (.error sampleRejection)
      { method := .POST, path := "/auth/register",
        body := some sampleRegisterPage.registerData.toObj, params := [],
        authorization := none }
      (by decide) (by decide)).2.2.2.2⟩

/-! ## C18: routes -/

/-- C18: without a user, `/dashboard`, `/ticket/:ticketId` and `/` redirect to
`/login` and `/login` shows the login page; with a user, `/login` and `/`
redirect to `/dashboard`, `/ticket/:ticketId` shows `TicketDetail`, and
`/dashboard` shows `ClientDashboard` exactly when the role is `cliente` and
`TechnicianDashboard` exactly when it is anything else; no other field of the
user matters. -/
theorem route_resolution (u : User) (ticketId : String) :
    routeElement none .dashboard = .navigate "/login" ∧
    routeElement none (.ticket ticketId) = .navigate "/login" ∧
    routeElement none .root = .navigate "/login" ∧
    routeElement none .login = .loginPage ∧
    routeElement (some u) .login = .navigate "/dashboard" ∧
    routeElement (some u) .root = .navigate "/dashboard" ∧
    routeElement (some u) (.ticket ticketId) = .ticketDetail ticketId ∧
    (routeElement (some u) .dashboard = .clientDashboard ↔ u.role = "cliente") ∧
    (routeElement (some u) .dashboard = .technicianDashboard ↔ u.role ≠ "cliente") ∧
    (∀ (route : Route) (id email name : String),
      routeElement (some { id := id, email := email, name := name, role := u.role }) route
        = routeElement (some u) route) := by
  refine ⟨rfl, rfl, rfl, rfl, rfl, rfl, rfl, ?_, ?_, ?_⟩
  · by_cases h : u.role = "cliente" <;> simp [routeElement, h]
  · by_cases h : u.role = "cliente" <;> simp [routeElement, h]
  · intro route id email name
    cases route <;> rfl

/-! ## C19: the federated login exchange -/

/-- C19: `handleGoogleCallback` sends one request, `POST /auth/session` with
the session id as query parameter `session_id`, no body and no
`Authorization` header; on success the auth context holds the user and the
`session_token` of the response, `localStorage` holds that token and the hash
of the URL is set to the empty string; on failure `user`, `token` and
`localStorage` are what they were; `loading` ends false either way. -/
theorem google_callback_exchange (s : AuthState) (sessionId : String) :
    (∀ r, requestsOf (handleGoogleCallback s sessionId r).2 =
        [{ method := .POST, path := "/auth/session", body := none,
           params := [("session_id", sessionId)], authorization := none }] ∧
      (handleGoogleCallback s sessionId r).1.loading = false) ∧
    (∀ d : SessionPayload,
      (handleGoogleCallback s sessionId (.ok d)).1.user = some d.user ∧
      (handleGoogleCallback s sessionId (.ok d)).1.token = some d.session_token ∧
      (handleGoogleCallback s sessionId (.ok d)).1.localStorage = some d.session_token ∧
      Effect.setHash "" ∈ (handleGoogleCallback s sessionId (.ok d)).2) ∧
    (∀ e : ApiError,
      (handleGoogleCallback s sessionId (.error e)).1.user = s.user ∧
      (handleGoogleCallback s sessionId (.error e)).1.token = s.token ∧
      (handleGoogleCallback s sessionId (.error e)).1.localStorage = s.localStorage ∧
      Effect.setHash "" ∉ (handleGoogleCallback s sessionId (.error e)).2) := by
  refine ⟨?_, ?_, ?_⟩
  · intro r
    cases r <;> simp [handleGoogleCallback, requestsOf]
  · intro d
    simp [handleGoogleCallback]
  · intro e
    simp [handleGoogleCallback]

/-! ## C20: failed mutations -/

/-- C20: a rejected `POST /tickets` is the only request `handleCreateTicket`
sends and the whole state of the dashboard (form and dialog flag included)
stays as it was; an accepted one resets the form to the empty form, closes
the dialog and sends the three requests of `fetchData`, `GET /tickets` first.
A rejected add-comment likewise sends nothing more and leaves the state of the
ticket page, draft included, as it was. -/
theorem failed_mutation_keeps_input (token : Option String) (s : ClientDashboardState)
    (d : ClientData) (ticketId : String) (ts : TicketDetailState) (refetch : Resp Ticket) :
    (∀ e : ApiError,
      (handleCreateTicket token s (.error e) d).1 = s ∧
      requestsOf (handleCreateTicket token s (.error e) d).2 =
        [{ method := .POST, path := "/tickets", body := some s.newTicket.toObj, params := [],
           authorization := some (bearer token) }]) ∧
    (∀ u : Unit,
      (handleCreateTicket token s (.ok u) d).1.newTicket = NewTicket.empty ∧
      (handleCreateTicket token s (.ok u) d).1.createDialogOpen = false ∧
      requestsOf (handleCreateTicket token s (.ok u) d).2 =
        [{ method := .POST, path := "/tickets", body := some s.newTicket.toObj, params := [],
           authorization := some (bearer token) },
         { method := .GET, path := "/tickets", body := none, params := [],
           authorization := some (bearer token) },
         { method := .GET, path := "/categories", body := none, params := [],
           authorization := none },
         { method := .GET, path := "/equipments", body := none, params := [],
           authorization := some (bearer token) }]) ∧
    (∀ e : ApiError,
      (handleAddComment token ticketId ts (.error e) refetch).1 = ts ∧
      (requestsOf (handleAddComment token ticketId ts (.error e) refetch).2).length ≤ 1 ∧
      ∀ q ∈ requestsOf (handleAddComment token ticketId ts (.error e) refetch).2,
        q.method = Method.POST) := by
  refine ⟨?_, ?_, ?_⟩
  · intro e
    exact ⟨rfl, by rw [requestsOf_handleCreateTicket]⟩
  · intro u
    refine ⟨?_, ?_, by rw [requestsOf_handleCreateTicket]⟩
    · simp only [handleCreateTicket, clientFetchData]
      split <;> rfl
    · simp only [handleCreateTicket, clientFetchData]
      split <;> rfl
  · intro e
    rw [requestsOf_handleAddComment]
    refine ⟨?_, ?_, ?_⟩
    · unfold handleAddComment
      split <;> rfl
    · split <;> simp
    · intro q hq
      split at hq
      · simp at hq
      · simp only [List.mem_singleton] at hq
        subst hq
        rfl

/-! ## C22: the statistics of the client dashboard -/

/-- C22: the three status counts of the client dashboard never add up to more
than the total, and they add up to the total exactly when every ticket of the
list has one of the statuses `abierto`, `en_proceso`, `cerrado`; in particular
they do for every list of tickets with valid statuses. -/
theorem client_stats_partition (tickets : List Ticket) :
    (clientStats tickets).total = tickets.length ∧
    (clientStats tickets).abiertos + (clientStats tickets).enProceso +
        (clientStats tickets).cerrados ≤ (clientStats tickets).total ∧
    ((clientStats tickets).abiertos + (clientStats tickets).enProceso +
        (clientStats tickets).cerrados = (clientStats tickets).total ↔
      ∀ t ∈ tickets, t.status = "abierto" ∨ t.status = "en_proceso" ∨ t.status = "cerrado") := by
  refine ⟨rfl, ?_⟩
  simp only [clientStats]
  induction tickets with
  | nil => simp
  | cons t l ih =>
    obtain ⟨ih1, ih2⟩ := ih
    by_cases h1 : t.status = "abierto"
    · simp only [List.filter_cons, h1, List.length_cons, List.mem_cons, forall_eq_or_imp]
      simp only [beq_self_eq_true, ↓reduceIte, List.length_cons, true_or, true_and]
      have e1 : ("abierto" == "en_proceso") = false := by decide
      have e2 : ("abierto" == "cerrado") = false := by decide
      simp only [e1, e2, Bool.false_eq_true, ↓reduceIte]
      constructor
      · omega
      · rw [← ih2]; omega
    · by_cases h2 : t.status = "en_proceso"
      · simp only [List.filter_cons, h2, List.length_cons, List.mem_cons, forall_eq_or_imp]
        simp only [beq_self_eq_true, ↓reduceIte, List.length_cons, true_or, or_true, true_and]
        have e1 : ("en_proceso" == "abierto") = false := by decide
        have e2 : ("en_proceso" == "cerrado") = false := by decide
        simp only [e1, e2, Bool.false_eq_true, ↓reduceIte]
        constructor
        · omega
        · rw [← ih2]; omega
      · by_cases h3 : t.status = "cerrado"
        · simp only [List.filter_cons, h3, List.length_cons, List.mem_cons, forall_eq_or_imp]
          simp only [beq_self_eq_true, ↓reduceIte, List.length_cons, or_true, true_and]
          have e1 : ("cerrado" == "abierto") = false := by decide
          have e2 : ("cerrado" == "en_proceso") = false := by decide
          simp only [e1, e2, Bool.false_eq_true, ↓reduceIte]
          constructor
          · omega
          · rw [← ih2]; omega
        · have b1 : (t.status == "abierto") = false := by simpa using h1
          have b2 : (t.status == "en_proceso") = false := by simpa using h2
          have b3 : (t.status == "cerrado") = false := by simpa using h3
          simp only [List.filter_cons, b1, b2, b3, Bool.false_eq_true, ↓reduceIte,
            List.length_cons, List.mem_cons, forall_eq_or_imp, h1, h2, h3, or_self, false_and,
            iff_false]
          constructor
          · omega
          · omega

/-! ## C23: token and localStorage -/

theorem checkAuth_eq_call_answer (s : AuthState) (r : Resp User) :
    (checkAuth s r).2 = (checkAuthCall s).2.2 ∧
    (checkAuth s r).1 =
      match (checkAuthCall s).2.1 with
      | some storedToken => checkAuthAnswer storedToken (checkAuthCall s).1 r
      | none => (checkAuthCall s).1 := by
  cases hs : s.localStorage with
  | none => simp [checkAuth, checkAuthCall, hs, truthy]
  | some t =>
    by_cases ht : t = ""
    · simp [checkAuth, checkAuthCall, hs, truthy, ht]
    · cases r <;> simp [checkAuth, checkAuthCall, checkAuthAnswer, hs, truthy, ht]

/-- One step keeps the invariant: token and `localStorage` agree, and every
pending `checkAuth` holds the token that is stored now. -/
theorem authSession_step_agree (a : AuthSession) (st : AuthStep)
    (h1 : a.state.token = a.state.localStorage)
    (h2 : ∀ t ∈ a.pending, a.state.localStorage = some t)
    (hq : ((a.step st).state.localStorage == a.state.localStorage
      || (a.step st).pending.isEmpty) = true) :
    (a.step st).state.token = (a.step st).state.localStorage ∧
    ∀ t ∈ (a.step st).pending, (a.step st).state.localStorage = some t := by
  have hsub : (∀ t ∈ (a.step st).pending, t ∈ a.pending ∨ a.state.localStorage = some t) := by
    cases st with
    | checkAuthCall =>
      intro t ht
      simp only [AuthSession.step, checkAuthCall, List.mem_append] at ht
      rcases ht with ht | ht
      · exact Or.inl ht
      · split at ht
        · right
          simpa [eq_comm] using ht
        · simp at ht
    | checkAuthAnswer k r =>
      intro t ht
      cases hp : a.pending.get? k with
      | none =>
        simp only [AuthSession.step, hp] at ht
        exact Or.inl ht
      | some u =>
        simp only [AuthSession.step, hp] at ht
        exact Or.inl (List.mem_of_mem_eraseIdx ht)
    | login userData authToken => exact fun t ht => Or.inl ht
    | handleGoogleCallback sessionId r => exact fun t ht => Or.inl ht
    | logout r => exact fun t ht => Or.inl ht
  constructor
  · cases st with
    | checkAuthCall =>
      simp only [AuthSession.step, checkAuthCall]
      split <;> exact h1
    | checkAuthAnswer k r =>
      cases hp : a.pending.get? k with
      | none =>
        simp only [AuthSession.step, hp]
        exact h1
      | some t =>
        have hls := h2 t (List.get?_mem hp)
        simp only [AuthSession.step, hp]
        cases r with
        | ok u => exact hls.symm
        | error e => rfl
    | login userData authToken => rfl
    | handleGoogleCallback sessionId r =>
      cases r with
      | ok d => rfl
      | error e => exact h1
    | logout r => rfl
  · intro t ht
    rw [Bool.or_eq_true] at hq
    rcases hq with hq | hq
    · rw [beq_iff_eq] at hq
      rw [hq]
      rcases hsub t ht with h | h
      · exact h2 t h
      · exact h
    · rw [List.isEmpty_iff] at hq
      rw [hq] at ht
      cases ht

theorem authSession_run_agree (steps : List AuthStep) :
    ∀ a : AuthSession, a.state.token = a.state.localStorage →
      (∀ t ∈ a.pending, a.state.localStorage = some t) →
      storageQuiet a steps = true →
      (steps.foldl AuthSession.step a).state.token
        = (steps.foldl AuthSession.step a).state.localStorage := by
  induction steps with
  | nil => intro a h1 _ _; exact h1
  | cons st rest ih =>
    intro a h1 h2 hq
    simp only [storageQuiet, Bool.and_eq_true] at hq
    obtain ⟨h3, h4⟩ := authSession_step_agree a st h1 h2 (by simpa using hq.1)
    exact ih (a.step st) h3 h4 hq.2

theorem storageQuiet_append (l1 l2 : List AuthStep) :
    ∀ a : AuthSession, storageQuiet a (l1 ++ l2)
      = (storageQuiet a l1 && storageQuiet (l1.foldl AuthSession.step a) l2) := by
  induction l1 with
  | nil => intro a; simp [storageQuiet]
  | cons st rest ih =>
    intro a
    show ((_ || _) && storageQuiet (a.step st) (rest ++ l2)) = _
    rw [ih]
    simp only [storageQuiet, List.foldl_cons, Bool.and_assoc]

/-- Run alone, `checkAuth` as call and answer is the function `checkAuth`. -/
theorem checkAuth_steps_state (a : AuthSession) (r : Resp User) (hp : a.pending = []) :
    ((AuthOp.checkAuth r).steps.foldl AuthSession.step a).state = (checkAuth a.state r).1 := by
  obtain ⟨st, pend⟩ := a
  simp only at hp
  subst hp
  cases hs : st.localStorage with
  | none => simp [AuthOp.steps, AuthSession.step, checkAuth, checkAuthCall, hs, truthy]
  | some t =>
    by_cases ht : t = ""
    · simp [AuthOp.steps, AuthSession.step, checkAuth, checkAuthCall, hs, truthy, ht]
    · cases r <;>
        simp [AuthOp.steps, AuthSession.step, checkAuth, checkAuthCall, checkAuthAnswer, hs,
          truthy, ht]

/-- An operation that starts with no call pending and runs alone changes
`localStorage` only when no call is pending, and leaves none pending. -/
theorem authOp_steps_quiet (op : AuthOp) (a : AuthSession) (hp : a.pending = []) :
    storageQuiet a op.steps = true ∧ (op.steps.foldl AuthSession.step a).pending = [] := by
  obtain ⟨st, pend⟩ := a
  simp only at hp
  subst hp
  cases op with
  | checkAuth r =>
    cases hs : st.localStorage with
    | none => simp [AuthOp.steps, storageQuiet, AuthSession.step, checkAuthCall, hs, truthy]
    | some t =>
      by_cases ht : t = ""
      · simp [AuthOp.steps, storageQuiet, AuthSession.step, checkAuthCall, hs, truthy, ht]
      · simp [AuthOp.steps, storageQuiet, AuthSession.step, checkAuthCall, hs, truthy, ht]
  | login userData authToken => simp [AuthOp.steps, storageQuiet, AuthSession.step]
  | handleGoogleCallback sessionId r => simp [AuthOp.steps, storageQuiet, AuthSession.step]
  | logout r => simp [AuthOp.steps, storageQuiet, AuthSession.step]

/-- Operations run one after the other never change `localStorage` while a
`checkAuth` call awaits its answer. -/
theorem sequentialSteps_quiet (ops : List AuthOp) :
    ∀ a : AuthSession, a.pending = [] → storageQuiet a (sequentialSteps ops) = true := by
  induction ops with
  | nil => intro a _; rfl
  | cons op rest ih =>
    intro a hp
    obtain ⟨h1, h2⟩ := authOp_steps_quiet op a hp
    rw [sequentialSteps, storageQuiet_append, h1, ih _ h2]
    rfl

/-- C23 as stated fails: with the token `old` stored and a `session_id` in the
hash, `App` starts `checkAuth` and the exchange on the same mount; when the
exchange is answered first (token `S1`) and `GET /auth/me` succeeds after it,
`checkAuth` completes with the token state `old`, the value it read before its
`await`, while `localStorage` holds `S1`; every operation has then run to
completion. -/
theorem checkAuth_overwrites_newer_token :
    (authSessionRun (some "old")
      [.checkAuthCall,
       .handleGoogleCallback "sid" (.ok { user := sampleClient, session_token := "S1" }),
       .checkAuthAnswer 0 (.ok sampleTechnician)]).state.token = some "old" ∧
    (authSessionRun (some "old")
      [.checkAuthCall,
       .handleGoogleCallback "sid" (.ok { user := sampleClient, session_token := "S1" }),
       .checkAuthAnswer 0 (.ok sampleTechnician)]).state.localStorage = some "S1" ∧
    (authSessionRun (some "old")
      [.checkAuthCall,
       .handleGoogleCallback "sid" (.ok { user := sampleClient, session_token := "S1" }),
       .checkAuthAnswer 0 (.ok sampleTechnician)]).pending = [] := by
  decide

/-- C23 (amended): from the initial state of `App`, after any sequence of
`checkAuth`, `login`, `handleGoogleCallback` and `logout`, whatever the
answers of the server, in which no operation changes the `token` entry of
`localStorage` while a `checkAuth` call awaits its answer (so in every sequence
in which each operation has run to completion before the next one starts, by
`sequentialSteps_quiet`), the token of the auth context is `null` exactly when
`localStorage` has no `token` entry and is the stored value otherwise. -/
theorem token_agrees_while_storage_quiet (stored : Option String) (steps : List AuthStep)
    (hq : storageQuiet { state := AuthState.init stored, pending := [] } steps = true) :
    (authSessionRun stored steps).state.token
      = (authSessionRun stored steps).state.localStorage ∧
    ((authSessionRun stored steps).state.token = none ↔
      (authSessionRun stored steps).state.localStorage = none) := by
  have h := authSession_run_agree steps { state := AuthState.init stored, pending := [] }
    rfl (fun t ht => by cases ht) hq
  exact ⟨h, by rw [authSessionRun, h]⟩

/-- A stored token is checked, then the user logs out and signs in through
Google: the instance of C23 (amended). -/
theorem token_agrees_while_storage_quiet_witness :
    storageQuiet { state := AuthState.init (some "old"), pending := [] } sampleAuthSteps = true ∧
    (authSessionRun (some "old") sampleAuthSteps).state.token = some "S1" ∧
    (authSessionRun (some "old") sampleAuthSteps).state.token
      = (authSessionRun (some "old") sampleAuthSteps).state.localStorage :=
  ⟨by decide, by decide,
    (token_agrees_while_storage_quiet (some "old") sampleAuthSteps (by decide)).1⟩

/-! ## C25: elapsed time -/

theorem roundToDouble_of_le (n : Int) (h : n.natAbs ≤ 2 ^ 53) : roundToDouble n = n := by
  unfold roundToDouble
  rw [if_pos h]

/-- C25 as stated fails: between the two valid time values -8639999999999999
and 8640000000000000 the elapsed milliseconds are 17279999999999999, which is
not a double; the subtraction gives 17280000000000000 and the page shows
`200000000 días`, where the floors of the exact quotients give 199999999. -/
theorem getTimeElapsed_rounds_large_difference :
    (-8639999999999999 : Int) ≤ 8640000000000000 ∧
    timeClip 8640000000000000 = some 8640000000000000 ∧
    timeClip (-8639999999999999) = some (-8639999999999999) ∧
    getTimeElapsed 8640000000000000 (-8639999999999999) = "200000000 días" ∧
    elapsedText 8640000000000000 (-8639999999999999) = "199999999 días" := by
  decide

/-- C25 (amended): for two valid time values with the creation time not later
than now and at most 2^53 ms (some 285 000 years) before it, with `h` the
whole hours elapsed and `n` the whole days in them, `getTimeElapsed` shows `n`
followed by ` día`, with an `s` exactly when `n > 1`, when `n > 0`, and
otherwise `h` followed by ` hora`, with an `s` exactly when `h ≠ 1`; days are
shown exactly when at least 24 hours (86400000 ms) have elapsed, neither
number is negative, and less than one hour elapsed shows as `0 horas`. -/
theorem getTimeElapsed_floor (now created : Int)
    (hnow : now.natAbs ≤ 8640000000000000) (hcreated : created.natAbs ≤ 8640000000000000)
    (hle : created ≤ now) (hbound : now - created ≤ 2 ^ 53) :
    getTimeElapsed now created = elapsedText now created ∧
    getTimeElapsed now created =
      (if 0 < (now - created) / 3600000 / 24 then
        toString ((now - created) / 3600000 / 24) ++ " día" ++
          (if 1 < (now - created) / 3600000 / 24 then "s" else "")
      else
        toString ((now - created) / 3600000) ++ " hora" ++
          (if (now - created) / 3600000 ≠ 1 then "s" else "")) ∧
    (0 < (now - created) / 3600000 / 24 ↔ 86400000 ≤ now - created) ∧
    0 ≤ (now - created) / 3600000 ∧
    0 ≤ (now - created) / 3600000 / 24 ∧
    (3600000 * ((now - created) / 3600000) ≤ now - created ∧
      now - created < 3600000 * ((now - created) / 3600000) + 3600000) ∧
    (now - created < 3600000 → getTimeElapsed now created = "0 horas") := by
  have hround : roundToDouble (now - created) = now - created := by
    apply roundToDouble_of_le
    have h53 : ((2 : Int) ^ 53) = 9007199254740992 := by norm_num
    have h53n : ((2 : Nat) ^ 53) = 9007199254740992 := by norm_num
    rw [h53] at hbound
    rw [h53n]
    omega
  have hget : getTimeElapsed now created =
      (if 0 < (now - created) / 3600000 / 24 then
        toString ((now - created) / 3600000 / 24) ++ " día" ++
          (if 1 < (now - created) / 3600000 / 24 then "s" else "")
      else
        toString ((now - created) / 3600000) ++ " hora" ++
          (if (now - created) / 3600000 ≠ 1 then "s" else "")) := by
    simp only [getTimeElapsed, timeClip, hnow, hcreated, ↓reduceIte, hround, gt_iff_lt]
    norm_num
  refine ⟨?_, hget, ?_, ?_, ?_, ?_, ?_⟩
  · rw [hget]
    simp only [elapsedText, gt_iff_lt]
  · omega
  · omega
  · omega
  · omega
  · intro hlt
    have h0 : (now - created) / 3600000 = 0 := by omega
    rw [hget, h0]
    decide

/-- Fifty hours after creation: the instance of C25 (amended). -/
theorem getTimeElapsed_floor_witness :
    ((180000000 : Int).natAbs ≤ 8640000000000000 ∧ (0 : Int).natAbs ≤ 8640000000000000 ∧
      (0 : Int) ≤ 180000000 ∧ (180000000 : Int) - 0 ≤ 2 ^ 53) ∧
    getTimeElapsed 180000000 0 = "2 días" ∧
    getTimeElapsed 3600000 0 = "1 hora" ∧
    getTimeElapsed 180000000 0 = elapsedText 180000000 0 :=
  ⟨⟨by decide, by decide, by decide, by decide⟩, by decide, by decide,
    (getTimeElapsed_floor 180000000 0 (by decide) (by decide) (by decide) (by decide)).1⟩

/-! ## C26: removing an attachment -/

theorem filter_enumFrom_ne_of_lt {α : Type} (l : List α) :
    ∀ k j : Nat, j < k →
      ((l.enumFrom k).filter (fun p => p.1 != j)).map (fun p => p.2) = l := by
  induction l with
  | nil => intro k j _; rfl
  | cons a l ih =>
    intro k j hjk
    have hne : (k != j) = true := by simpa using (by omega : k ≠ j)
    simp only [List.enumFrom_cons, List.filter_cons, hne, ↓reduceIte, List.map_cons]
    rw [ih (k + 1) j (by omega)]

theorem filter_enumFrom_eq_eraseIdx {α : Type} (l : List α) :
    ∀ k i : Nat,
      ((l.enumFrom k).filter (fun p => p.1 != k + i)).map (fun p => p.2) = l.eraseIdx i := by
  induction l with
  | nil => intro k i; rfl
  | cons a l ih =>
    intro k i
    cases i with
    | zero =>
      simp only [List.enumFrom_cons, List.filter_cons, Nat.add_zero, bne_self_eq_false,
        Bool.false_eq_true, ↓reduceIte, List.eraseIdx_cons_zero]
      exact filter_enumFrom_ne_of_lt l (k + 1) k (by omega)
    | succ i =>
      have hne : (k != k + (i + 1)) = true := by simp
      simp only [List.enumFrom_cons, List.filter_cons, hne, ↓reduceIte, List.map_cons,
        List.eraseIdx_cons_succ]
      have h := ih (k + 1) i
      have e : k + 1 + i = k + (i + 1) := by omega
      rw [e] at h
      rw [h]

/-- C26: `removeAttachment(i)` leaves the attachments with the element at
position `i` erased and the others in their order: for `i` below the number
`n` of attachments the new list has `n - 1` elements, for any other `i` the
list is the old one; `title`, `description`, `category_id` and `equipment_id`
are never changed. -/
theorem removeAttachment_erases_index (i : Nat) (prev : NewTicket) :
    (removeAttachment i prev).attachments = prev.attachments.eraseIdx i ∧
    (i < prev.attachments.length →
      (removeAttachment i prev).attachments.length = prev.attachments.length - 1 ∧
      (removeAttachment i prev).attachments
        = prev.attachments.take i ++ prev.attachments.drop (i + 1)) ∧
    (prev.attachments.length ≤ i → (removeAttachment i prev).attachments = prev.attachments) ∧
    (removeAttachment i prev).title = prev.title ∧
    (removeAttachment i prev).description = prev.description ∧
    (removeAttachment i prev).category_id = prev.category_id ∧
    (removeAttachment i prev).equipment_id = prev.equipment_id := by
  have h : (removeAttachment i prev).attachments = prev.attachments.eraseIdx i := by
    have h0 := filter_enumFrom_eq_eraseIdx prev.attachments 0 i
    simp only [Nat.zero_add] at h0
    simpa [removeAttachment, List.enum] using h0
  refine ⟨h, ?_, ?_, rfl, rfl, rfl, rfl⟩
  · intro hi
    rw [h]
    exact ⟨List.length_eraseIdx_of_lt hi, List.eraseIdx_eq_take_drop_succ _ _⟩
  · intro hi
    rw [h]
    exact List.eraseIdx_of_length_le hi

/-- The second of three attachments is removed: the instance of C26. -/
theorem removeAttachment_erases_index_witness :
    1 < sampleUploads.attachments.length ∧
    (removeAttachment 1 sampleUploads).attachments
      = [{ filename := "a.png", file_data := some "AAAA" },
         { filename := "c.png", file_data := some "CCCC" }] ∧
    (removeAttachment 1 sampleUploads).attachments.length
      = sampleUploads.attachments.length - 1 ∧
    (removeAttachment 7 sampleUploads).attachments = sampleUploads.attachments :=
  ⟨by decide, by decide,
    ((removeAttachment_erases_index 1 sampleUploads).2.1 (by decide)).1,
    (removeAttachment_erases_index 7 sampleUploads).2.2.1 (by decide)⟩

/-! ## C27: loading a dashboard -/

/-- C27: in `fetchData` of both dashboards `loading` always ends false; when
the three requests succeed each state list is the data of its own response
and no error toast is shown; when any one of the three is rejected the three
state lists are what they were and the toast `Error al cargar datos` is
shown. -/
theorem fetchData_all_or_nothing (token : Option String) (cs : ClientDashboardState)
    (cd : ClientData) (ts : TechnicianDashboardState) (td : TechnicianData) :
    (clientFetchData token cs cd).1.loading = false ∧
    (technicianFetchData token ts td).1.loading = false ∧
    (∀ a b c, cd.tickets = .ok a → cd.categories = .ok b → cd.equipments = .ok c →
      (clientFetchData token cs cd).1.tickets = a ∧
      (clientFetchData token cs cd).1.categories = b ∧
      (clientFetchData token cs cd).1.equipments = c ∧
      errorToastsOf (clientFetchData token cs cd).2 = []) ∧
    ((∃ e, cd.tickets = .error e ∨ cd.categories = .error e ∨ cd.equipments = .error e) →
      (clientFetchData token cs cd).1.tickets = cs.tickets ∧
      (clientFetchData token cs cd).1.categories = cs.categories ∧
      (clientFetchData token cs cd).1.equipments = cs.equipments ∧
      errorToastsOf (clientFetchData token cs cd).2 = ["Error al cargar datos"]) ∧
    (∀ a b c, td.all = .ok a → td.assigned = .ok b → td.resolved = .ok c →
      (technicianFetchData token ts td).1.allTickets = a ∧
      (technicianFetchData token ts td).1.assignedTickets = b ∧
      (technicianFetchData token ts td).1.resolvedTickets = c ∧
      errorToastsOf (technicianFetchData token ts td).2 = []) ∧
    ((∃ e, td.all = .error e ∨ td.assigned = .error e ∨ td.resolved = .error e) →
      (technicianFetchData token ts td).1.allTickets = ts.allTickets ∧
      (technicianFetchData token ts td).1.assignedTickets = ts.assignedTickets ∧
      (technicianFetchData token ts td).1.resolvedTickets = ts.resolvedTickets ∧
      errorToastsOf (technicianFetchData token ts td).2 = ["Error al cargar datos"]) := by
  refine ⟨?_, ?_, ?_, ?_, ?_, ?_⟩
  · unfold clientFetchData
    split <;> rfl
  · unfold technicianFetchData
    split <;> rfl
  · intro a b c h1 h2 h3
    simp [clientFetchData, h1, h2, h3, errorToastsOf]
  · rintro ⟨e, h⟩
    unfold clientFetchData
    split
    · next a b c h1 h2 h3 =>
      rcases h with h | h | h
      · rw [h1] at h; cases h
      · rw [h2] at h; cases h
      · rw [h3] at h; cases h
    · simp [errorToastsOf]
  · intro a b c h1 h2 h3
    simp [technicianFetchData, h1, h2, h3, errorToastsOf]
  · rintro ⟨e, h⟩
    unfold technicianFetchData
    split
    · next a b c h1 h2 h3 =>
      rcases h with h | h | h
      · rw [h1] at h; cases h
      · rw [h2] at h; cases h
      · rw [h3] at h; cases h
    · simp [errorToastsOf]

/-- The categories request alone is rejected: the instance of C27. -/
theorem fetchData_all_or_nothing_witness :
    (∃ e, sampleHalfData.tickets = .error e ∨ sampleHalfData.categories = .error e ∨
      sampleHalfData.equipments = .error e) ∧
    (clientFetchData (some "tok") sampleFilled sampleHalfData).1.tickets
      = sampleFilled.tickets ∧
    (clientFetchData (some "tok") sampleFilled sampleHalfData).1.equipments
      = sampleFilled.equipments :=
  ⟨⟨sampleRejection, Or.inr (Or.inl rfl)⟩,
    ((fetchData_all_or_nothing (some "tok") sampleFilled sampleHalfData
        TechnicianDashboardState.init sampleAnswers.technician).2.2.2.1
      ⟨sampleRejection, Or.inr (Or.inl rfl)⟩).1,
    ((fetchData_all_or_nothing (some "tok") sampleFilled sampleHalfData
        TechnicianDashboardState.init sampleAnswers.technician).2.2.2.1
      ⟨sampleRejection, Or.inr (Or.inl rfl)⟩).2.2.1⟩

/-! ## C28: the colour of a priority -/

/-- C28: the three definitions of `getPriorityColor` are the same function:
`baja` gives `bg-green-500`, `media` gives `bg-yellow-500`, `alta` gives
`bg-red-500`, and every other value, `undefined` included, gives
`bg-gray-500`; the three colours are those of the legend of the login page. -/
theorem getPriorityColor_total_mapping (priority : Option String) :
    technicianGetPriorityColor priority = clientGetPriorityColor priority ∧
    detailGetPriorityColor priority = clientGetPriorityColor priority ∧
    clientGetPriorityColor (some "baja") = "bg-green-500" ∧
    clientGetPriorityColor (some "media") = "bg-yellow-500" ∧
    clientGetPriorityColor (some "alta") = "bg-red-500" ∧
    clientGetPriorityColor none = "bg-gray-500" ∧
    (clientGetPriorityColor priority =
      if priority = some "baja" then "bg-green-500"
      else if priority = some "media" then "bg-yellow-500"
      else if priority = some "alta" then "bg-red-500"
      else "bg-gray-500") ∧
    priorityLegend =
      [(clientGetPriorityColor (some "baja"), "Baja"),
       (clientGetPriorityColor (some "media"), "Media"),
       (clientGetPriorityColor (some "alta"), "Alta")] := by
  refine ⟨rfl, rfl, rfl, rfl, rfl, rfl, ?_, rfl⟩
  unfold clientGetPriorityColor
  split <;> simp_all

/-! ## C29: the badge of a status -/

/-- C29: in the three pages `getStatusBadge` gives the blue, amber and green
classes for `abierto`, `en_proceso` and `cerrado` and the gray fallback for a
status such as `pendiente`, but for the status `constructor` (likewise
`toString`) the lookup `colors[status]` finds the member the object inherits
from `Object.prototype`, which is truthy, and that member is returned instead
of the gray classes. -/
theorem getStatusBadge_inherited_member :
    clientGetStatusBadge "abierto" = .str "bg-blue-100 text-blue-800" ∧
    clientGetStatusBadge "en_proceso" = .str "bg-amber-100 text-amber-800" ∧
    clientGetStatusBadge "cerrado" = .str "bg-green-100 text-green-800" ∧
    clientGetStatusBadge "pendiente" = .str "bg-gray-100 text-gray-800" ∧
    clientGetStatusBadge "constructor" = .inherited "constructor" ∧
    clientGetStatusBadge "toString" = .inherited "toString" ∧
    clientGetStatusBadge "constructor" ≠ .str "bg-gray-100 text-gray-800" ∧
    (∀ status, technicianGetStatusBadge status = clientGetStatusBadge status ∧
      detailGetStatusBadge status = clientGetStatusBadge status) := by
  refine ⟨by decide, by decide, by decide, by decide, by decide, by decide, by decide, ?_⟩
  intro status
  exact ⟨rfl, rfl⟩

/-! ## C24: the order of the tab "Todos" -/

theorem jsSortInsert_perm {α : Type} (cmp : α → α → Int) (a : α) (l : List α) :
    (jsSortInsert cmp a l).Perm (a :: l) := by
  induction l with
  | nil => exact List.Perm.refl _
  | cons b l ih =>
    simp only [jsSortInsert]
    split
    · exact List.Perm.refl _
    · exact (List.Perm.cons b ih).trans (List.Perm.swap a b l)

theorem jsSort_perm {α : Type} (cmp : α → α → Int) (l : List α) : (jsSort cmp l).Perm l := by
  induction l with
  | nil => exact List.Perm.refl _
  | cons a l ih => exact (jsSortInsert_perm cmp a (jsSort cmp l)).trans (List.Perm.cons a ih)

theorem jsSortInsert_front {α : Type} (cmp : α → α → Int) (a : α) (l : List α)
    (h : ∀ b ∈ l, cmp a b ≤ 0) : jsSortInsert cmp a l = a :: l := by
  cases l with
  | nil => rfl
  | cons b l => simp [jsSortInsert, h b (List.mem_cons_self _ _)]

theorem jsSortInsert_skip {α : Type} (cmp : α → α → Int) (a : α) (l1 l2 : List α)
    (h : ∀ b ∈ l1, ¬ cmp a b ≤ 0) :
    jsSortInsert cmp a (l1 ++ l2) = l1 ++ jsSortInsert cmp a l2 := by
  induction l1 with
  | nil => rfl
  | cons b l ih =>
    have hb := h b (List.mem_cons_self _ _)
    have ih2 := ih (fun x hx => h x (List.mem_cons_of_mem _ hx))
    show jsSortInsert cmp a (b :: (l ++ l2)) = b :: (l ++ jsSortInsert cmp a l2)
    simp only [jsSortInsert, hb, ↓reduceIte, ih2]

theorem comparePriority_of (a b : Ticket) (x y : Int)
    (ha : priorityOrder a.priority = some x) (hb : priorityOrder b.priority = some y) :
    comparePriority a b = x - y := by
  simp [comparePriority, ha, hb]

theorem priorityOrder_values :
    priorityOrder "alta" = some 0 ∧ priorityOrder "media" = some 1 ∧
    priorityOrder "baja" = some 2 := by
  decide

theorem todosTab_eq_blocks (l : List Ticket)
    (hvalid : ∀ t ∈ l, t.priority = "alta" ∨ t.priority = "media" ∨ t.priority = "baja") :
    todosTab l =
      l.filter (fun t => t.priority == "alta") ++ l.filter (fun t => t.priority == "media") ++
        l.filter (fun t => t.priority == "baja") := by
  induction l with
  | nil => rfl
  | cons a l ih =>
    have ih2 := ih (fun t ht => hvalid t (List.mem_cons_of_mem _ ht))
    have hl : ∀ t ∈ l, t.priority = "alta" ∨ t.priority = "media" ∨ t.priority = "baja" :=
      fun t ht => hvalid t (List.mem_cons_of_mem _ ht)
    obtain ⟨o0, o1, o2⟩ := priorityOrder_values
    have hA : ∀ b ∈ l.filter (fun t => t.priority == "alta"),
        priorityOrder b.priority = some 0 := by
      intro b hb
      have := (List.mem_filter.1 hb).2
      simp only [beq_iff_eq] at this
      rw [this]; exact o0
    have hM : ∀ b ∈ l.filter (fun t => t.priority == "media"),
        priorityOrder b.priority = some 1 := by
      intro b hb
      have := (List.mem_filter.1 hb).2
      simp only [beq_iff_eq] at this
      rw [this]; exact o1
    have hB : ∀ b ∈ l.filter (fun t => t.priority == "baja"),
        priorityOrder b.priority = some 2 := by
      intro b hb
      have := (List.mem_filter.1 hb).2
      simp only [beq_iff_eq] at this
      rw [this]; exact o2
    have hstep : todosTab (a :: l) = jsSortInsert comparePriority a (todosTab l) := rfl
    rw [hstep, ih2]
    rcases hvalid a (List.mem_cons_self _ _) with ha | ha | ha
    · have hoa : priorityOrder a.priority = some 0 := by rw [ha]; exact o0
      have e1 : ("alta" == "media") = false := by decide
      have e2 : ("alta" == "baja") = false := by decide
      simp only [List.filter_cons, ha, beq_self_eq_true, ↓reduceIte, e1, e2,
        Bool.false_eq_true, List.cons_append]
      apply jsSortInsert_front
      intro b hb
      simp only [List.mem_append] at hb
      rcases hb with (hb | hb) | hb
      · rw [comparePriority_of a b 0 0 hoa (hA b hb)]; decide
      · rw [comparePriority_of a b 0 1 hoa (hM b hb)]; decide
      · rw [comparePriority_of a b 0 2 hoa (hB b hb)]; decide
    · have hoa : priorityOrder a.priority = some 1 := by rw [ha]; exact o1
      have e1 : ("media" == "alta") = false := by decide
      have e2 : ("media" == "baja") = false := by decide
      simp only [List.filter_cons, ha, beq_self_eq_true, ↓reduceIte, e1, e2,
        Bool.false_eq_true, List.cons_append, List.append_assoc]
      rw [jsSortInsert_skip]
      · congr 1
        apply jsSortInsert_front
        intro b hb
        simp only [List.mem_append] at hb
        rcases hb with hb | hb
        · rw [comparePriority_of a b 1 1 hoa (hM b hb)]; decide
        · rw [comparePriority_of a b 1 2 hoa (hB b hb)]; decide
      · intro b hb
        rw [comparePriority_of a b 1 0 hoa (hA b hb)]; decide
    · have hoa : priorityOrder a.priority = some 2 := by rw [ha]; exact o2
      have e1 : ("baja" == "alta") = false := by decide
      have e2 : ("baja" == "media") = false := by decide
      simp only [List.filter_cons, ha, beq_self_eq_true, ↓reduceIte, e1, e2,
        Bool.false_eq_true]
      rw [jsSortInsert_skip]
      · congr 1
        apply jsSortInsert_front
        intro b hb
        rw [comparePriority_of a b 2 2 hoa (hB b hb)]; decide
      · intro b hb
        simp only [List.mem_append] at hb
        rcases hb with hb | hb
        · rw [comparePriority_of a b 2 0 hoa (hA b hb)]; decide
        · rw [comparePriority_of a b 2 1 hoa (hM b hb)]; decide

/-- C24: when every priority of `allTickets` is `alta`, `media` or `baja`, the
tab "Todos" shows a permutation of `allTickets`: first its `alta` tickets, then
its `media` tickets, then its `baja` tickets, each group in the order of the
server response; so no ticket is shown before one of a more urgent priority,
and the tickets of one priority keep their relative order. -/
theorem todos_tab_sorted_by_priority (allTickets : List Ticket)
    (hvalid : ∀ t ∈ allTickets,
      t.priority = "alta" ∨ t.priority = "media" ∨ t.priority = "baja") :
    (todosTab allTickets).Perm allTickets ∧
    todosTab allTickets =
      allTickets.filter (fun t => t.priority == "alta") ++
        allTickets.filter (fun t => t.priority == "media") ++
        allTickets.filter (fun t => t.priority == "baja") ∧
    (todosTab allTickets).Pairwise
      (fun a b => (b.priority = "alta" → a.priority = "alta") ∧
        (b.priority = "media" → a.priority ≠ "baja")) ∧
    (todosTab allTickets).filter (fun t => t.priority == "alta")
      = allTickets.filter (fun t => t.priority == "alta") ∧
    (todosTab allTickets).filter (fun t => t.priority == "media")
      = allTickets.filter (fun t => t.priority == "media") ∧
    (todosTab allTickets).filter (fun t => t.priority == "baja")
      = allTickets.filter (fun t => t.priority == "baja") := by
  have heq := todosTab_eq_blocks allTickets hvalid
  have hA : ∀ b ∈ allTickets.filter (fun t => t.priority == "alta"), b.priority = "alta" :=
    fun b hb => by simpa using (List.mem_filter.1 hb).2
  have hM : ∀ b ∈ allTickets.filter (fun t => t.priority == "media"), b.priority = "media" :=
    fun b hb => by simpa using (List.mem_filter.1 hb).2
  have hB : ∀ b ∈ allTickets.filter (fun t => t.priority == "baja"), b.priority = "baja" :=
    fun b hb => by simpa using (List.mem_filter.1 hb).2
  refine ⟨jsSort_perm _ _, heq, ?_, ?_, ?_, ?_⟩
  · rw [heq, List.pairwise_append, List.pairwise_append]
    refine ⟨⟨?_, ?_, ?_⟩, ?_, ?_⟩
    · exact List.pairwise_of_forall_mem_list
        (fun a ha b hb => by simp [hA a ha, hA b hb])
    · exact List.pairwise_of_forall_mem_list
        (fun a ha b hb => by simp [hM a ha, hM b hb])
    · intro a ha b hb
      simp [hA a ha, hM b hb]
    · exact List.pairwise_of_forall_mem_list
        (fun a ha b hb => by simp [hB a ha, hB b hb])
    · intro a ha b hb
      simp only [List.mem_append] at ha
      rcases ha with ha | ha
      · simp [hA a ha, hB b hb]
      · simp [hM a ha, hB b hb]
  · rw [heq]
    simp only [List.filter_append, List.filter_filter]
    have h1 : allTickets.filter (fun a => a.priority == "alta" && a.priority == "media") = [] := by
      rw [List.filter_eq_nil_iff]
      intro a _
      by_cases h : a.priority = "alta" <;> simp [h]
    have h2 : allTickets.filter (fun a => a.priority == "alta" && a.priority == "baja") = [] := by
      rw [List.filter_eq_nil_iff]
      intro a _
      by_cases h : a.priority = "alta" <;> simp [h]
    simp [h1, h2]
  · rw [heq]
    simp only [List.filter_append, List.filter_filter]
    have h1 : allTickets.filter (fun a => a.priority == "media" && a.priority == "alta") = [] := by
      rw [List.filter_eq_nil_iff]
      intro a _
      by_cases h : a.priority = "media" <;> simp [h]
    have h2 : allTickets.filter (fun a => a.priority == "media" && a.priority == "baja") = [] := by
      rw [List.filter_eq_nil_iff]
      intro a _
      by_cases h : a.priority = "media" <;> simp [h]
    simp [h1, h2]
  · rw [heq]
    simp only [List.filter_append, List.filter_filter]
    have h1 : allTickets.filter (fun a => a.priority == "baja" && a.priority == "alta") = [] := by
      rw [List.filter_eq_nil_iff]
      intro a _
      by_cases h : a.priority = "baja" <;> simp [h]
    have h2 : allTickets.filter (fun a => a.priority == "baja" && a.priority == "media") = [] := by
      rw [List.filter_eq_nil_iff]
      intro a _
      by_cases h : a.priority = "baja" <;> simp [h]
    simp [h1, h2]

/-- Four tickets, two of them urgent: the instance of C24. -/
theorem todos_tab_sorted_by_priority_witness :
    (∀ t ∈ sampleQueue, t.priority = "alta" ∨ t.priority = "media" ∨ t.priority = "baja") ∧
    (todosTab sampleQueue).map (fun t => t.id) = ["2", "4", "3", "1"] ∧
    (todosTab sampleQueue).Perm sampleQueue :=
  ⟨by decide, by decide, (todos_tab_sorted_by_priority sampleQueue (by decide)).1⟩

/-! ## C21: the session id in the URL fragment -/

theorem jsSplitStrAux_skip (sep : List Char) (l : List Char) :
    ∀ (k : Nat) (rest : List Char), l.length = k →
      jsSplitStrAux sep k (l ++ rest) = jsSplitStrAux sep 0 rest := by
  induction l with
  | nil =>
    intro k rest hk
    simp only [List.length_nil] at hk
    subst hk
    rfl
  | cons a l ih =>
    intro k rest hk
    cases k with
    | zero => simp at hk
    | succ k =>
      simp only [List.length_cons, Nat.add_right_cancel_iff] at hk
      show jsSplitStrAux sep (k + 1) (a :: (l ++ rest)) = _
      simp only [jsSplitStrAux]
      exact ih k rest hk

theorem jsSplitStrAux_found (sep : List Char) (c : Char) (cs : List Char) (hne : sep ≠ [])
    (hp : sep.isPrefixOf (c :: cs) = true) :
    jsSplitStrAux sep (sep.length - 1) cs
      = jsSplitStrAux sep 0 ((c :: cs).drop sep.length) := by
  rw [List.isPrefixOf_iff_prefix, List.prefix_iff_eq_append] at hp
  cases sep with
  | nil => exact absurd rfl hne
  | cons x xs =>
    simp only [List.length_cons, List.drop_succ_cons, List.cons_append, List.cons.injEq] at hp
    obtain ⟨_, h2⟩ := hp
    have h3 : jsSplitStrAux (x :: xs) xs.length (xs ++ List.drop xs.length cs)
        = jsSplitStrAux (x :: xs) 0 (List.drop xs.length cs) :=
      jsSplitStrAux_skip (x :: xs) xs xs.length _ rfl
    rw [h2] at h3
    simpa using h3

theorem jsSplitStrAux_eq (sep : List Char) (hne : sep ≠ []) (s : List Char) :
    jsSplitStrAux sep 0 s =
      textBeforeFirst sep s ::
        (match textAfterFirst sep s with
          | none => []
          | some rest => jsSplitStrAux sep 0 rest) := by
  induction s with
  | nil => rfl
  | cons c cs ih =>
    by_cases hp : sep.isPrefixOf (c :: cs) = true
    · simp only [jsSplitStrAux, textBeforeFirst, textAfterFirst, hp, ↓reduceIte]
      rw [jsSplitStrAux_found sep c cs hne hp]
    · simp only [jsSplitStrAux, textBeforeFirst, textAfterFirst, hp, Bool.false_eq_true,
        ↓reduceIte]
      rw [ih]

theorem jsIncludes_eq (sep : List Char) (hne : sep ≠ []) (s : List Char) :
    jsIncludes sep s = (textAfterFirst sep s).isSome := by
  induction s with
  | nil =>
    cases sep with
    | nil => exact absurd rfl hne
    | cons x xs => rfl
  | cons c cs ih =>
    by_cases hp : sep.isPrefixOf (c :: cs) = true
    · simp [jsIncludes, textAfterFirst, hp]
    · simp only [jsIncludes, textAfterFirst, hp, Bool.false_eq_true, ↓reduceIte, Bool.false_or]
      exact ih

theorem textAfterFirst_isSome_iff_occurs (sep : List Char) (hne : sep ≠ []) (s : List Char) :
    (textAfterFirst sep s).isSome = true ↔ sep <:+: s := by
  induction s with
  | nil =>
    simp only [textAfterFirst, Option.isSome_none, Bool.false_eq_true, false_iff]
    intro h
    exact hne (List.infix_nil.1 h)
  | cons c cs ih =>
    rw [List.infix_cons_iff, ← ih]
    by_cases hp : sep.isPrefixOf (c :: cs) = true
    · simp only [textAfterFirst, hp, ↓reduceIte, Option.isSome_some, true_iff]
      exact Or.inl (List.isPrefixOf_iff_prefix.1 hp)
    · simp only [textAfterFirst, hp, Bool.false_eq_true, ↓reduceIte]
      constructor
      · exact Or.inr
      · rintro (h | h)
        · exact absurd (List.isPrefixOf_iff_prefix.2 h) hp
        · exact h

theorem jsSplit_head (l : List Char) : (jsSplit '&' l)[0]? = some (upToAmpersand l) := by
  induction l with
  | nil => rfl
  | cons c cs ih =>
    by_cases hc : c = '&'
    · simp [jsSplit, upToAmpersand, hc]
    · have hb : (c != '&') = true := by simpa using hc
      cases hs : jsSplit '&' cs with
      | nil => rw [hs] at ih; simp at ih
      | cons piece pieces =>
        rw [hs] at ih
        simp only [List.getElem?_cons_zero, Option.some.injEq] at ih
        simp only [jsSplit, hc, ↓reduceIte, hs, List.getElem?_cons_zero, upToAmpersand,
          List.takeWhile_cons, hb, Option.some.injEq, List.cons.injEq, true_and]
        exact ih

theorem upToAmpersand_not_mem (l : List Char) : '&' ∉ upToAmpersand l := by
  intro h
  have := List.mem_takeWhile_imp h
  simp at this

theorem isPrefixOf_takeWhile (p : Char → Bool) (sep : List Char) (hsep : ∀ c ∈ sep, p c = true) :
    ∀ l : List Char, sep.isPrefixOf l = true → sep.isPrefixOf (l.takeWhile p) = true := by
  induction sep with
  | nil => intro l _; simp
  | cons x xs ih =>
    intro l h
    cases l with
    | nil => simp at h
    | cons c cs =>
      simp only [List.isPrefixOf, Bool.and_eq_true, beq_iff_eq] at h
      obtain ⟨h1, h2⟩ := h
      subst h1
      have hx : p x = true := hsep x (List.mem_cons_self _ _)
      simp only [List.takeWhile_cons, hx, ↓reduceIte, List.isPrefixOf, beq_self_eq_true,
        Bool.true_and]
      exact ih (fun c hc => hsep c (List.mem_cons_of_mem _ hc)) cs h2

theorem takeWhile_textBeforeFirst (p : Char → Bool) (sep : List Char) (hne : sep ≠ [])
    (hsep : ∀ c ∈ sep, p c = true) :
    ∀ l : List Char, textAfterFirst sep (l.takeWhile p) = none →
      (textBeforeFirst sep l).takeWhile p = l.takeWhile p := by
  intro l
  induction l with
  | nil => intro _; rfl
  | cons c cs ih =>
    intro h
    by_cases hp : sep.isPrefixOf (c :: cs) = true
    · exfalso
      have h2 := isPrefixOf_takeWhile p sep hsep (c :: cs) hp
      cases htw : (c :: cs).takeWhile p with
      | nil =>
        rw [htw] at h2
        cases sep with
        | nil => exact hne rfl
        | cons x xs => simp [List.isPrefixOf] at h2
      | cons d ds =>
        rw [htw] at h h2
        simp [textAfterFirst, h2] at h
    · simp only [textBeforeFirst, hp, Bool.false_eq_true, ↓reduceIte, List.takeWhile_cons]
      by_cases hc : p c = true
      · simp only [hc, ↓reduceIte, List.cons.injEq, true_and]
        apply ih
        simp only [List.takeWhile_cons, hc, ↓reduceIte, textAfterFirst] at h
        split at h
        · cases h
        · exact h
      · simp [hc]

theorem sessionIdOfHash_eq (hash : String) :
    sessionIdOfHash hash =
      (textAfterFirst "session_id=".data hash.data).map
        (fun rest => String.mk (upToAmpersand (textBeforeFirst "session_id=".data rest))) := by
  have hne : "session_id=".data ≠ [] := by decide
  unfold sessionIdOfHash
  rw [jsIncludes_eq _ hne]
  cases h : textAfterFirst "session_id=".data hash.data with
  | none => simp
  | some rest =>
    have h1 : (jsSplitStr "session_id=" hash)[1]?
        = some (textBeforeFirst "session_id=".data rest) := by
      unfold jsSplitStr
      rw [jsSplitStrAux_eq _ hne, h]
      simp only [List.getElem?_cons_succ]
      rw [jsSplitStrAux_eq _ hne]
      simp
    simp only [Option.isSome_some, ↓reduceIte, h1, jsSplit_head, Option.map_some']

/-- C21 as stated fails: in the hash `#session_id=abcsession_id=def` the text
that follows the first `session_id=` up to the next `&` (here: to the end) is
`abcsession_id=def`, but the id passed to the exchange is `abc`. -/
theorem session_id_stops_at_second_marker :
    "session_id=".data <:+: "#session_id=abcsession_id=def".data ∧
    (textAfterFirst "session_id=".data "#session_id=abcsession_id=def".data).map
        (fun rest => String.mk (upToAmpersand rest)) = some "abcsession_id=def" ∧
    sessionIdOfHash "#session_id=abcsession_id=def" = some "abc" ∧
    (∀ r, requestsOf
        (oauthMountEffect (AuthState.init none) "#session_id=abcsession_id=def" r).2 =
      [{ method := .POST, path := "/auth/session", body := none,
         params := [("session_id", "abc")], authorization := none }]) := by
  refine ⟨?_, by decide, by decide, ?_⟩
  · exact (textAfterFirst_isSome_iff_occurs _ (by decide) _).1 (by decide)
  · intro r
    have h : sessionIdOfHash "#session_id=abcsession_id=def" = some "abc" := by decide
    simp only [oauthMountEffect, h]
    cases r <;> simp [handleGoogleCallback, requestsOf]

/-- C21 (amended): when the hash contains `session_id=`, the id passed to the
exchange is the text that follows the first occurrence of `session_id=` up to
but not including the next `&` or the next occurrence of `session_id=`,
whichever comes first (to the end of the hash if there is neither); it never
contains `&`, and when no further `session_id=` stands before the next `&` it
is the text up to that `&`.  When the hash does not contain `session_id=`
nothing is sent and the state is left as it is. -/
theorem session_id_of_hash (s : AuthState) (hash : String) (r : Resp SessionPayload) :
    ((textAfterFirst "session_id=".data hash.data).isSome = true ↔
      "session_id=".data <:+: hash.data) ∧
    sessionIdOfHash hash =
      (textAfterFirst "session_id=".data hash.data).map
        (fun rest => String.mk (upToAmpersand (textBeforeFirst "session_id=".data rest))) ∧
    (∀ sessionId, sessionIdOfHash hash = some sessionId →
      '&' ∉ sessionId.data ∧
      requestsOf (oauthMountEffect s hash r).2 =
        [{ method := .POST, path := "/auth/session", body := none,
           params := [("session_id", sessionId)], authorization := none }]) ∧
    (∀ rest, textAfterFirst "session_id=".data hash.data = some rest →
      textAfterFirst "session_id=".data (upToAmpersand rest) = none →
      sessionIdOfHash hash = some (String.mk (upToAmpersand rest))) ∧
    (¬ "session_id=".data <:+: hash.data → oauthMountEffect s hash r = (s, [])) := by
  have hne : "session_id=".data ≠ [] := by decide
  have hiff := textAfterFirst_isSome_iff_occurs "session_id=".data hne hash.data
  have heq := sessionIdOfHash_eq hash
  refine ⟨hiff, heq, ?_, ?_, ?_⟩
  · intro sessionId hsid
    constructor
    · rw [heq] at hsid
      cases h : textAfterFirst "session_id=".data hash.data with
      | none => rw [h] at hsid; cases hsid
      | some rest =>
        rw [h] at hsid
        simp only [Option.map_some', Option.some.injEq] at hsid
        rw [← hsid]
        exact upToAmpersand_not_mem _
    · simp only [oauthMountEffect, hsid]
      cases r <;> simp [handleGoogleCallback, requestsOf]
  · intro rest h1 h2
    have h3 : upToAmpersand (textBeforeFirst "session_id=".data rest) = upToAmpersand rest :=
      takeWhile_textBeforeFirst (fun c => c != '&') "session_id=".data hne (by decide) rest h2
    rw [heq, h1]
    show some (String.mk (upToAmpersand (textBeforeFirst "session_id=".data rest)))
      = some (String.mk (upToAmpersand rest))
    rw [h3]
  · intro hno
    have h : textAfterFirst "session_id=".data hash.data = none := by
      cases h : textAfterFirst "session_id=".data hash.data with
      | none => rfl
      | some rest => exact absurd (hiff.1 (by simp [h])) hno
    simp only [oauthMountEffect, heq, h, Option.map_none']

/-- The hash of a Google callback: the instance of C21 (amended). -/
theorem session_id_of_hash_witness :
    sessionIdOfHash "#session_id=abc123&state=xyz" = some "abc123" ∧
    '&' ∉ "abc123".data ∧
    requestsOf (oauthMountEffect (AuthState.init none) "#session_id=abc123&state=xyz"
        (.error sampleRejection)).2 =
      [{ method := .POST, path := "/auth/session", body := none,
         params := [("session_id", "abc123")], authorization := none }] :=
  ⟨by decide,
    ((session_id_of_hash (AuthState.init none) "#session_id=abc123&state=xyz"
      (.error sampleRejection)).2.2.1 "abc123" (by decide)).1,
    ((session_id_of_hash (AuthState.init none) "#session_id=abc123&state=xyz"
      (.error sampleRejection)).2.2.1 "abc123" (by decide)).2⟩

end Proyecto
